import Mathlib

/-!
# QR reader: detection orchestrator, payload validation and confidence scoring

A shallow embedding of `src/core/qr_detector.{h,cpp}`, of the parts of
`src/processors/image_processor.cpp` the orchestrator calls, and of the format
check of `src/io/image_loader.cpp`.

Modelling conventions

* `int` is a 32-bit two's-complement integer: a value of type `Int` that every
  arithmetic step passes through `wrapInt32`.
* `char` is a signed 8-bit type, as on x86: a `std::string` is the list of the
  values of its `char`s, and the byte `b` is the value `charOfByte b`, negative
  for the bytes 128..255.
* `double` is modelled by `Dbl`: a rational or one of the IEEE specials.
  Division by zero follows IEEE (infinity or NaN); signed zeros are not
  modelled. The side lengths and the side variance of the confidence scorer are
  binary64 values: every operation of `cv::norm` and of the variance is rounded
  to the nearest double, ties to even (`rnd`, `sqrt64`, `Dbl.round`), each
  operation once, as SSE2 code does. The thresholds 0.1 and 0.2 of the
  regularity term are written as the rationals 1/10 and 2/10: no double lies
  between 1/10 and the double nearest to it, so a double is below the one
  exactly when it is below the other. The other `double` operations (area
  ratio, success rate, scale factor) are exact rationals.
* OpenCV is external. Its operations are fields of `Env`. The decoder
  `cv::QRCodeDetector::detectAndDecode` may raise a `cv::Exception` (the source
  guards it with `try`/`catch`), so it returns `Except`. `detectFromImage`
  describes the calls in which the image operations outside the `try` block
  raise nothing; `detectFromImageThrowing` is the same method with the faults
  of the enhancement and of `cv::imwrite` made explicit.
* Calls that leave the process (decoder invocation, enhancement, `cv::imwrite`)
  are recorded as `Event`s, in program order. `Logger` calls are not modelled.
-/

namespace QR

/-! ## Machine-level types -/

/-- Two's-complement reduction of an integer to the range of a 32-bit `int`. -/
def wrapInt32 (z : Int) : Int := (z + 2147483648) % 4294967296 - 2147483648

/-- Largest value of a 32-bit `int`. -/
def INT_MAX : Int := 2147483647

/-- A `std::string`: the sequence of its `char` values. -/
abbrev CString := List Int

/-- A string literal of the source (ASCII), as a `CString`. -/
def lit (s : String) : CString := s.toList.map (fun c => (c.toNat : Int))

/-- The value of a `char` that holds the byte `b`: the bytes 0..127 are the
values 0..127 and the bytes 128..255 are the values -128..-1. -/
def charOfByte (b : Nat) : Int :=
  if b % 256 < 128 then ((b % 256 : Nat) : Int) else ((b % 256 : Nat) : Int) - 256

/-- The `std::string` whose bytes are `bs`. -/
def ofBytes (bs : List Nat) : CString := bs.map charOfByte

/-- A `double`: a finite value (kept as an exact rational) or an IEEE special. -/
inductive Dbl where
  | fin (q : ℚ)
  | pinf
  | ninf
  | nan
  deriving DecidableEq, Repr

namespace Dbl

/-- Conversion `static_cast<double>(int)`. -/
def ofInt (z : Int) : Dbl := fin (z : ℚ)

/-- IEEE addition on the model. -/
def add : Dbl → Dbl → Dbl
  | fin a, fin b => fin (a + b)
  | nan, _ => nan
  | _, nan => nan
  | pinf, ninf => nan
  | ninf, pinf => nan
  | pinf, _ => pinf
  | _, pinf => pinf
  | ninf, _ => ninf
  | _, ninf => ninf

/-- IEEE negation on the model. -/
def neg : Dbl → Dbl
  | fin a => fin (-a)
  | pinf => ninf
  | ninf => pinf
  | nan => nan

/-- IEEE subtraction on the model. -/
def sub (a b : Dbl) : Dbl := add a (neg b)

/-- The function `std::abs` on doubles. -/
def abs : Dbl → Dbl
  | fin a => fin |a|
  | pinf => pinf
  | ninf => pinf
  | nan => nan

/-- IEEE division on the model: a finite non-zero value over zero is an
infinity, zero over zero is NaN. -/
def div : Dbl → Dbl → Dbl
  | nan, _ => nan
  | _, nan => nan
  | fin a, fin b =>
      if b = 0 then (if a = 0 then nan else if 0 < a then pinf else ninf)
      else fin (a / b)
  | fin _, pinf => fin 0
  | fin _, ninf => fin 0
  | pinf, fin b => if 0 ≤ b then pinf else ninf
  | ninf, fin b => if 0 ≤ b then ninf else pinf
  | pinf, pinf => nan
  | pinf, ninf => nan
  | ninf, pinf => nan
  | ninf, ninf => nan

/-- The comparison `a < b` on doubles (false as soon as one side is NaN). -/
def lt : Dbl → Dbl → Bool
  | fin a, fin b => decide (a < b)
  | fin _, pinf => true
  | ninf, fin _ => true
  | ninf, pinf => true
  | _, _ => false

/-- The comparison `a > b` on doubles. -/
def gt (a b : Dbl) : Bool := lt b a

/-- The function `std::min(a, b)`, which is `(b < a) ? b : a`. -/
def min (a b : Dbl) : Dbl := if lt b a then b else a

end Dbl

/-- The rounding `cvRound` behind `cv::saturate_cast<int>(double)`: to the
nearest integer, ties to the even one. -/
def cvRound (q : ℚ) : Int :=
  let f := Int.floor q
  let r := q - f
  if r < 1 / 2 then f
  else if 1 / 2 < r then f + 1
  else if f % 2 = 0 then f else f + 1

/-- Rounding of an exact value to binary64: 53 significant bits, to the nearest,
ties to the even significand. The exponent range is not bounded; the values of
the scorer stay far inside the range of a double. -/
def rnd (x : ℚ) : ℚ :=
  if x = 0 then 0
  else
    let e : Int := Int.log 2 |x| - 52
    (cvRound (x / (2 : ℚ) ^ e) : ℚ) * (2 : ℚ) ^ e

/-- The function `std::sqrt` on a double, correctly rounded as IEEE 754
requires: the significand is the integer square root of the argument scaled
to 107 bits, rounded to the nearest (a square root is never a tie). -/
def sqrt64 (x : ℚ) : ℚ :=
  if x ≤ 0 then 0
  else
    let e : Int := Int.log 2 x / 2 - 52
    let t : Nat := Nat.sqrt (Nat.floor (4 * (x / (4 : ℚ) ^ e)))
    (((t + 1) / 2 : Nat) : ℚ) * (2 : ℚ) ^ e

/-- The rounding of the exact result of one `double` operation. -/
def Dbl.round : Dbl → Dbl
  | Dbl.fin q => Dbl.fin (rnd q)
  | Dbl.pinf => Dbl.pinf
  | Dbl.ninf => Dbl.ninf
  | Dbl.nan => Dbl.nan

/-- A `cv::Point`: integer pixel coordinates. -/
structure Point where
  x : Int
  y : Int
  deriving DecidableEq, Repr

/-- A `cv::Mat`, reduced to its shape and an uninterpreted pixel payload.
The default value is the empty matrix `cv::Mat()`. -/
structure Mat where
  rows : Nat := 0
  cols : Nat := 0
  channels : Nat := 1
  pixels : List Nat := []
  deriving DecidableEq, Repr

/-- The test `cv::Mat::empty()`: no element. -/
def Mat.empty (m : Mat) : Bool := m.rows == 0 || m.cols == 0

/-- The deep copy `cv::Mat::clone()`: an equal value. -/
def Mat.clone (m : Mat) : Mat := m

/-- The external capabilities, all from OpenCV. Every field is a parameter of
the development; theorems hold for every `Env`. -/
structure Env where
  /-- The call `cv::QRCodeDetector::detectAndDecode(image, points)`: the decoded
  text and the corner points, or the description of a `cv::Exception`. -/
  detectAndDecode : Mat → Except CString (CString × List Point)
  /-- The call `cv::contourArea(bbox)`. -/
  contourArea : List Point → ℚ
  /-- Pixel payload after `cv::cvtColor(_, _, cv::COLOR_BGR2GRAY)`. -/
  grayPixels : Mat → List Nat
  /-- Pixel payload after `cv::threshold` with `THRESH_BINARY | THRESH_OTSU`. -/
  otsuPixels : Mat → List Nat
  /-- Pixel payload after CLAHE with clip limit 2.0. -/
  clahePixels : Mat → List Nat
  /-- Pixel payload after `convertTo(_, -1, 1.3, 0)`. -/
  scaledPixels : Mat → List Nat
  /-- Pixel payload after `cv::morphologyEx(MORPH_CLOSE)` with a 3x3 rectangle. -/
  closePixels : Mat → List Nat
  /-- Pixel payload after `cv::resize` to the given number of rows and columns. -/
  resizePixels : Mat → Nat → Nat → List Nat
  /-- Standard deviation of the Laplacian response, as `cv::meanStdDev` of
  `cv::Laplacian(gray, _, CV_64F)` reports it. -/
  laplacianStdDev : Mat → ℚ
  /-- The description of the `cv::Exception` that the OpenCV calls inside
  `enhanceForQRDetection` raise on this image, when they raise one. -/
  enhanceFault : Mat → Option CString := fun _ => none
  /-- The description of the `cv::Exception` that `cv::imwrite(path, image)`
  raises, when it raises one. -/
  imwriteFault : CString → Mat → Option CString := fun _ _ => none

/-! ## `QRDetector::validateQRData` -/

/-- The loop of `validateQRData`: an early `return false` at the first control
character other than LF and CR, `true` when the loop runs out. -/
def validateLoop : CString → Bool
  | [] => true
  | c :: rest => if c < 32 && c != 10 && c != 13 then false else validateLoop rest

/-- The method `QRDetector::validateQRData`. -/
def validateQRData (data : CString) : Bool :=
  if data.isEmpty then false
  else if data.length < 1 then false
  else validateLoop data

/-! ## `ImageProcessor` -/

/-- The call `cv::cvtColor(m, m, cv::COLOR_BGR2GRAY)`: same size, one channel. -/
def cvtColorGray (env : Env) (m : Mat) : Mat :=
  { m with channels := 1, pixels := env.grayPixels m }

/-- The call `cv::threshold(m, m, 0, 255, THRESH_BINARY | THRESH_OTSU)`: same shape. -/
def thresholdOtsu (env : Env) (m : Mat) : Mat :=
  { m with pixels := env.otsuPixels m }

/-- The method `ImageProcessor::applyCLAHE`: same shape. -/
def applyCLAHE (env : Env) (m : Mat) : Mat :=
  { m with pixels := env.clahePixels m }

/-- The method `ImageProcessor::enhanceContrast`. -/
def enhanceContrast (env : Env) (image : Mat) : Mat :=
  if image.channels == 1 then applyCLAHE env image
  else { image with pixels := env.scaledPixels image }

/-- The call `cv::morphologyEx(m, m, cv::MORPH_CLOSE, kernel)`: same shape. -/
def morphClose (env : Env) (m : Mat) : Mat :=
  { m with pixels := env.closePixels m }

/-- The call `cv::resize(m, m, cv::Size(), scale, scale, cv::INTER_CUBIC)`: the
destination size is `cvRound` of each source dimension times the scale. -/
def resizeByScale (env : Env) (m : Mat) (scale : ℚ) : Mat :=
  let newCols := (cvRound ((m.cols : ℚ) * scale)).toNat
  let newRows := (cvRound ((m.rows : ℚ) * scale)).toNat
  { m with rows := newRows, cols := newCols, pixels := env.resizePixels m newRows newCols }

/-- The method `ImageProcessor::enhanceForQRDetection`. -/
def enhanceForQRDetection (env : Env) (image : Mat) : Mat :=
  if image.empty then image
  else
    let processed := image.clone
    let processed := if processed.channels > 1 then cvtColorGray env processed else processed
    let processed := thresholdOtsu env processed
    let processed := enhanceContrast env processed
    let processed := morphClose env processed
    if min processed.rows processed.cols < 300 then
      resizeByScale env processed (600 / (min processed.rows processed.cols : ℚ))
    else processed

/-- The method `ImageProcessor::calculateQualityScore`. -/
def calculateQualityScore (env : Env) (image : Mat) : Dbl :=
  if image.empty then Dbl.fin 0
  else
    let gray := if image.channels > 1 then cvtColorGray env image else image
    let stddev := env.laplacianStdDev gray
    Dbl.fin (stddev * stddev)

/-! ## `QRDetector` -/

/-- The difference `p1 - p2` of two `cv::Point`s (`int` arithmetic). -/
def Point.sub (p1 p2 : Point) : Point :=
  { x := wrapInt32 (p1.x - p2.x), y := wrapInt32 (p1.y - p2.y) }

/-- The function `cv::norm` of a `cv::Point`:
`std::sqrt((double)x*x + (double)y*y)`, each product, the sum and the square
root rounded to a double. -/
def norm (p : Point) : Dbl :=
  Dbl.fin (sqrt64 (rnd (rnd ((p.x : ℚ) * p.x) + rnd ((p.y : ℚ) * p.y))))

/-- The area term of `calculateConfidence` (source lines 137-145). -/
def areaTerm (env : Env) (bbox : List Point) (image : Mat) : Dbl :=
  let qr_area := Dbl.fin (env.contourArea bbox)
  let image_area := Dbl.ofInt (wrapInt32 ((image.cols : Int) * (image.rows : Int)))
  let size_ratio := Dbl.div qr_area image_area
  if Dbl.gt size_ratio (Dbl.fin (1 / 10)) && Dbl.lt size_ratio (Dbl.fin (8 / 10)) then
    Dbl.fin (4 / 10)
  else if Dbl.gt size_ratio (Dbl.fin (5 / 100)) && Dbl.lt size_ratio (Dbl.fin (9 / 10)) then
    Dbl.fin (2 / 10)
  else Dbl.fin 0

/-- The quality term of `calculateConfidence` (source lines 147-152). -/
def qualityTerm (env : Env) (image : Mat) : Dbl :=
  let quality_score := calculateQualityScore env image
  if Dbl.gt quality_score (Dbl.fin 100) then Dbl.fin (3 / 10)
  else if Dbl.gt quality_score (Dbl.fin 50) then Dbl.fin (15 / 100)
  else Dbl.fin 0

/-- The normalised side deviation of `calculateConfidence` (source lines
154-167), for the four corners in order. -/
def sideVariance (p0 p1 p2 p3 : Point) : Dbl :=
  let s0 := norm (p0.sub p1)
  let s1 := norm (p1.sub p2)
  let s2 := norm (p2.sub p3)
  let s3 := norm (p3.sub p0)
  let avg_side :=
    Dbl.round (Dbl.div
      (Dbl.round (Dbl.add (Dbl.round (Dbl.add (Dbl.round (Dbl.add s0 s1)) s2)) s3))
      (Dbl.fin 4))
  let variance := Dbl.fin 0
  let variance := Dbl.round (Dbl.add variance (Dbl.abs (Dbl.round (Dbl.sub s0 avg_side))))
  let variance := Dbl.round (Dbl.add variance (Dbl.abs (Dbl.round (Dbl.sub s1 avg_side))))
  let variance := Dbl.round (Dbl.add variance (Dbl.abs (Dbl.round (Dbl.sub s2 avg_side))))
  let variance := Dbl.round (Dbl.add variance (Dbl.abs (Dbl.round (Dbl.sub s3 avg_side))))
  Dbl.round (Dbl.div variance avg_side)

/-- The regularity term of `calculateConfidence` (source lines 169-173). -/
def regularityTerm (variance : Dbl) : Dbl :=
  if Dbl.lt variance (Dbl.fin (1 / 10)) then Dbl.fin (3 / 10)
  else if Dbl.lt variance (Dbl.fin (2 / 10)) then Dbl.fin (15 / 100)
  else Dbl.fin 0

/-- The method `QRDetector::calculateConfidence`. -/
def calculateConfidence (env : Env) (bbox : List Point) (image : Mat) : Dbl :=
  match bbox with
  | [p0, p1, p2, p3] =>
    let confidence := Dbl.fin 0
    let confidence := Dbl.add confidence (areaTerm env bbox image)
    let confidence := Dbl.add confidence (qualityTerm env image)
    let confidence := Dbl.add confidence (regularityTerm (sideVariance p0 p1 p2 p3))
    Dbl.min confidence (Dbl.fin 1)
  | _ => Dbl.fin 0

/-- The record `QRDetector::DetectionResult`, with the defaults of the header. -/
structure DetectionResult where
  success : Bool := false
  data : CString := []
  bounding_box : List Point := []
  confidence : Dbl := Dbl.fin 0
  processed_image : Mat := {}
  error_message : CString := []
  deriving DecidableEq, Repr

/-- A call that leaves the process, as an observer of the run sees it. -/
inductive Event where
  | detectAndDecode (image : Mat)
  | enhanceForQRDetection (image : Mat)
  | imwrite (path : CString) (image : Mat)
  deriving DecidableEq, Repr

/-- The method `QRDetector::processDetection`: one decoder call inside
`try`/`catch (const cv::Exception&)`. -/
def processDetection (env : Env) (image : Mat) : DetectionResult × List Event :=
  let result : DetectionResult := {}
  match env.detectAndDecode image with
  | Except.ok (data, points) =>
    if !data.isEmpty && validateQRData data then
      ({ result with
          success := true, data := data, bounding_box := points,
          confidence := calculateConfidence env points image },
        [Event.detectAndDecode image])
    else
      ({ result with
          success := false,
          error_message :=
            if data.isEmpty then lit "No QR code detected in image"
            else lit "QR code found but data validation failed" },
        [Event.detectAndDecode image])
  | Except.error what =>
    ({ result with success := false, error_message := lit "OpenCV error: " ++ what },
      [Event.detectAndDecode image])

/-- The data members of `QRDetector`, with the defaults of the header. -/
structure QRDetector where
  preprocessing_enabled_ : Bool := true
  multiple_qr_enabled_ : Bool := false
  total_detections_ : Int := 0
  successful_detections_ : Int := 0
  deriving DecidableEq, Repr

/-- What one call of `detectFromImage` leaves behind: the returned record, the
detector afterwards, and the external calls made, in order. -/
structure Run where
  result : DetectionResult
  self : QRDetector
  events : List Event

/-- The method `QRDetector::detectFromImage`. -/
def detectFromImage (env : Env) (self : QRDetector) (image : Mat) : Run :=
  let self := { self with total_detections_ := wrapInt32 (self.total_detections_ + 1) }
  if image.empty then
    { result :=
        { success := false, data := [], bounding_box := [], confidence := Dbl.fin 0,
          processed_image := {}, error_message := lit "Empty input image" },
      self := self, events := [] }
  else
    let processed_image := image.clone
    let (original_result, ev1) := processDetection env processed_image
    let finish (self : QRDetector) (ev : List Event) : Run :=
      if original_result.success then
        { result := { original_result with processed_image := processed_image },
          self := { self with
            successful_detections_ := wrapInt32 (self.successful_detections_ + 1) },
          events := ev }
      else
        { result := original_result, self := self,
          events := ev ++ [Event.imwrite (lit "debug_original.png") processed_image] }
    if !original_result.success && self.preprocessing_enabled_ then
      let enhanced_image := enhanceForQRDetection env image
      let (enhanced_result, ev2) := processDetection env enhanced_image
      let ev := ev1 ++ [Event.enhanceForQRDetection image] ++ ev2
      if enhanced_result.success then
        { result := { enhanced_result with processed_image := enhanced_image },
          self := { self with
            successful_detections_ := wrapInt32 (self.successful_detections_ + 1) },
          events := ev }
      else
        finish self (ev ++ [Event.imwrite (lit "debug_enhanced.png") enhanced_image])
    else
      finish self ev1

/-- How a call of `detectFromImage` ends: it returns, or a `cv::Exception`
raised outside the `try` block leaves it. In the second case the description of
the fault, the detector as the call left it and the external calls made so far
are given. -/
inductive Outcome where
  | returned (run : Run)
  | thrown (what : CString) (self : QRDetector) (events : List Event)

/-- The method `QRDetector::detectFromImage`, with the faults of the calls that
run outside the `try` block: `ImageProcessor::enhanceForQRDetection` (source
line 24) and the two `cv::imwrite` (source lines 35 and 45). -/
def detectFromImageThrowing (env : Env) (self : QRDetector) (image : Mat) : Outcome :=
  let self := { self with total_detections_ := wrapInt32 (self.total_detections_ + 1) }
  if image.empty then
    Outcome.returned
      { result :=
          { success := false, data := [], bounding_box := [], confidence := Dbl.fin 0,
            processed_image := {}, error_message := lit "Empty input image" },
        self := self, events := [] }
  else
    let processed_image := image.clone
    let (original_result, ev1) := processDetection env processed_image
    let finish (self : QRDetector) (ev : List Event) : Outcome :=
      if original_result.success then
        Outcome.returned
          { result := { original_result with processed_image := processed_image },
            self := { self with
              successful_detections_ := wrapInt32 (self.successful_detections_ + 1) },
            events := ev }
      else
        match env.imwriteFault (lit "debug_original.png") processed_image with
        | some what =>
          Outcome.thrown what self
            (ev ++ [Event.imwrite (lit "debug_original.png") processed_image])
        | none =>
          Outcome.returned
            { result := original_result, self := self,
              events := ev ++ [Event.imwrite (lit "debug_original.png") processed_image] }
    if !original_result.success && self.preprocessing_enabled_ then
      match env.enhanceFault image with
      | some what => Outcome.thrown what self (ev1 ++ [Event.enhanceForQRDetection image])
      | none =>
        let enhanced_image := enhanceForQRDetection env image
        let (enhanced_result, ev2) := processDetection env enhanced_image
        let ev := ev1 ++ [Event.enhanceForQRDetection image] ++ ev2
        if enhanced_result.success then
          Outcome.returned
            { result := { enhanced_result with processed_image := enhanced_image },
              self := { self with
                successful_detections_ := wrapInt32 (self.successful_detections_ + 1) },
              events := ev }
        else
          match env.imwriteFault (lit "debug_enhanced.png") enhanced_image with
          | some what =>
            Outcome.thrown what self
              (ev ++ [Event.imwrite (lit "debug_enhanced.png") enhanced_image])
          | none =>
            finish self (ev ++ [Event.imwrite (lit "debug_enhanced.png") enhanced_image])
    else
      finish self ev1

/-- The method `QRDetector::setPreprocessingEnabled`. -/
def setPreprocessingEnabled (self : QRDetector) (enabled : Bool) : QRDetector :=
  { self with preprocessing_enabled_ := enabled }

/-- The method `QRDetector::setMultipleQRDetection`. -/
def setMultipleQRDetection (self : QRDetector) (enabled : Bool) : QRDetector :=
  { self with multiple_qr_enabled_ := enabled }

/-- The method `QRDetector::getTotalDetections`. -/
def getTotalDetections (self : QRDetector) : Int := self.total_detections_

/-- The method `QRDetector::getSuccessfulDetections`. -/
def getSuccessfulDetections (self : QRDetector) : Int := self.successful_detections_

/-- The method `QRDetector::getSuccessRate`. -/
def getSuccessRate (self : QRDetector) : Dbl :=
  if self.total_detections_ = 0 then Dbl.fin 0
  else Dbl.div (Dbl.ofInt self.successful_detections_) (Dbl.ofInt self.total_detections_)

/-! ## Call sequences -/

/-- A public call on a `QRDetector`. -/
inductive Call where
  | detect (image : Mat)
  | setPreprocessing (enabled : Bool)
  | setMultipleQR (enabled : Bool)
  deriving DecidableEq, Repr

/-- The detector after one public call. -/
def step (env : Env) (self : QRDetector) : Call → QRDetector
  | Call.detect image => (detectFromImage env self image).self
  | Call.setPreprocessing b => setPreprocessingEnabled self b
  | Call.setMultipleQR b => setMultipleQRDetection self b

/-- The detector after a sequence of public calls, first call first. -/
def runCalls (env : Env) (self : QRDetector) (calls : List Call) : QRDetector :=
  calls.foldl (step env) self

/-- Whether a public call is a `detectFromImage` call. -/
def Call.isDetect : Call → Bool
  | Call.detect _ => true
  | _ => false

/-- Whether a public call is a `detectFromImage` call that returns `success = true`
when made on the detector `self`. -/
def callSucceeds (env : Env) (self : QRDetector) : Call → Bool
  | Call.detect image => (detectFromImage env self image).result.success
  | _ => false

/-- Number of calls of a sequence that return `success = true`, each made on the
detector the calls before it left. -/
def countSuccesses (env : Env) : QRDetector → List Call → Nat
  | _, [] => 0
  | self, c :: rest =>
    (if callSucceeds env self c then 1 else 0) + countSuccesses env (step env self c) rest

/-- The detector after the unconditional increment of `total_detections_`. -/
def counted (self : QRDetector) : QRDetector :=
  { self with total_detections_ := wrapInt32 (self.total_detections_ + 1) }

/-- The detector after a call that also incremented `successful_detections_`. -/
def succeeded (self : QRDetector) : QRDetector :=
  { counted self with
    successful_detections_ := wrapInt32 (self.successful_detections_ + 1) }

/-! ## Concrete environments and inputs used by the examples -/

/-- An environment whose decoder is the given function and whose image
operations return fixed values. -/
def envOf (decoder : Mat → Except CString (CString × List Point)) : Env :=
  { detectAndDecode := decoder
    contourArea := fun _ => 0
    grayPixels := fun _ => [1]
    otsuPixels := fun _ => [2]
    clahePixels := fun _ => [3]
    scaledPixels := fun _ => [4]
    closePixels := fun _ => [5]
    resizePixels := fun _ _ _ => [6]
    laplacianStdDev := fun _ => 0 }

/-- A 400 x 400 single-channel image. -/
def img400 : Mat := { rows := 400, cols := 400, channels := 1, pixels := [0] }

/-- The text `HELLO`. -/
def hello : CString := lit "HELLO"

/-- A decoder that finds `HELLO` with no corner points in every image. -/
def envHello : Env := envOf (fun _ => Except.ok (hello, []))

/-- A decoder that finds nothing in any image. -/
def envNothing : Env := envOf (fun _ => Except.ok ([], []))

/-- The fault description `boom`. -/
def boom : CString := lit "boom"

/-- A decoder that raises `boom` on `img400` and finds `HELLO` in every other image. -/
def envFaultOnRaw : Env :=
  envOf (fun m => if m = img400 then Except.error boom else Except.ok (hello, []))

/-- A decoder that finds nothing in `img400` and raises `boom` on every other image. -/
def envFaultOnEnhanced : Env :=
  envOf (fun m => if m = img400 then Except.ok ([], []) else Except.error boom)

/-! ## `ImageLoader` -/

/-- The table `SUPPORTED_FORMATS`. -/
def SUPPORTED_FORMATS : List CString :=
  [lit ".jpg", lit ".jpeg", lit ".png", lit ".bmp", lit ".tiff", lit ".tif", lit ".webp"]

/-- The function `std::tolower` in the "C" locale: the upper-case letters `A`..`Z`
(codes 65..90) go to `a`..`z`, every other code is returned unchanged. -/
def tolower (c : Int) : Int := if 65 ≤ c ∧ c ≤ 90 then c + 32 else c

/-- The call `s.find_last_of(ch)` of `std::string` for a single character: the
position of the last occurrence, `none` standing for `std::string::npos`. -/
def find_last_of : CString → Int → Option Nat
  | [], _ => none
  | c :: rest, ch =>
    match find_last_of rest ch with
    | some i => some (i + 1)
    | none => if c = ch then some 0 else none

/-- The method `ImageLoader::getFileExtension`; code 46 is the character `.`. -/
def getFileExtension (file_path : CString) : CString :=
  match find_last_of file_path 46 with
  | none => lit ""
  | some dot_pos =>
    let extension := file_path.drop dot_pos
    extension.map tolower

/-- The loop of `isSupportedFormat` over a table of formats. -/
def isSupportedLoop (extension : CString) : List CString → Bool
  | [] => false
  | supported :: rest =>
    if extension = supported then true else isSupportedLoop extension rest

/-- The method `ImageLoader::isSupportedFormat`. -/
def isSupportedFormat (extension : CString) : Bool :=
  isSupportedLoop extension SUPPORTED_FORMATS

/-- Whether two characters are the same up to the case of a letter: equal, or
one is an upper-case letter `A`..`Z` (codes 65..90) and the other the
corresponding lower-case letter, 32 codes higher. -/
def charEqIgnoreCase (a b : Int) : Bool :=
  decide (a = b) || (decide (65 ≤ a) && decide (a ≤ 90) && decide (b = a + 32)) ||
    (decide (65 ≤ b) && decide (b ≤ 90) && decide (a = b + 32))

/-- Case-insensitive equality of two strings, as the specification words the
comparison: the same length, and character by character the same up to the
case of a letter. -/
def eqIgnoreCase : CString → CString → Bool
  | [], [] => true
  | a :: as, b :: bs => charEqIgnoreCase a b && eqIgnoreCase as bs
  | _, _ => false

/-- The code's `size_ratio`: the contour area over the `int` product
`image.cols * image.rows`, both as doubles (source lines 137-139). -/
def sizeRatio (env : Env) (bbox : List Point) (image : Mat) : Dbl :=
  Dbl.div (Dbl.fin (env.contourArea bbox))
    (Dbl.ofInt (wrapInt32 ((image.cols : Int) * (image.rows : Int))))

/-- The code's `side_length` for two consecutive corners: `cv::norm(p1 - p2)`. -/
def sideLength (p1 p2 : Point) : Dbl := norm (p1.sub p2)

/-- Twice the signed area of a polygon by the shoelace formula. -/
def shoelaceTwice (pts : List Point) : Int :=
  ((pts.zip (pts.rotate 1)).map (fun ab => ab.1.x * ab.2.y - ab.2.x * ab.1.y)).sum

/-- The area of a polygon by the shoelace formula, which is what
`cv::contourArea` computes for a contour. -/
def shoelaceArea (pts : List Point) : ℚ := |(shoelaceTwice pts : ℚ)| / 2

/-- An environment with the shoelace area, a Laplacian standard deviation of
12.5 (quality score 156.25) and a decoder that finds nothing. -/
def envGeom : Env :=
  { detectAndDecode := fun _ => Except.ok ([], [])
    contourArea := shoelaceArea
    grayPixels := fun _ => [1]
    otsuPixels := fun _ => [2]
    clahePixels := fun _ => [3]
    scaledPixels := fun _ => [4]
    closePixels := fun _ => [5]
    resizePixels := fun _ _ _ => [6]
    laplacianStdDev := fun _ => 25 / 2 }

/-- A 50000 x 50000 single-channel image: 2 500 000 000 pixels. -/
def imgHuge : Mat := { rows := 50000, cols := 50000, channels := 1, pixels := [] }

/-- A 25000 x 20000 rectangle at the origin: a fifth of `imgHuge`. -/
def boxFifth : List Point :=
  [Point.mk 0 0, Point.mk 25000 0, Point.mk 25000 20000, Point.mk 0 20000]

/-- A square of side 200 with the corners (100,100) and (300,300). -/
def boxSquare200 : List Point :=
  [Point.mk 100 100, Point.mk 300 100, Point.mk 300 300, Point.mk 100 300]

/-- Squared Euclidean distance of two points, with exact differences. -/
def sqDist (p q : Point) : ℚ :=
  ((p.x - q.x : Int) : ℚ) * ((p.x - q.x : Int) : ℚ) +
    ((p.y - q.y : Int) : ℚ) * ((p.y - q.y : Int) : ℚ)

/-- The squared length `x*x + y*y` of the `int` difference `p - q` that
`cv::norm` receives. -/
def sqLength (p q : Point) : Int :=
  (p.sub q).x * (p.sub q).x + (p.sub q).y * (p.sub q).y

/-- Whether both coordinate differences of two points fit a 32-bit `int`. -/
def fitsInt (p q : Point) : Bool :=
  decide (-2147483648 ≤ p.x - q.x) && decide (p.x - q.x ≤ 2147483647) &&
    decide (-2147483648 ≤ p.y - q.y) && decide (p.y - q.y ≤ 2147483647)

/-- The code's `avg_side` from four side lengths: `(s0 + s1 + s2 + s3) / 4.0`,
summed from the left, each operation rounded. -/
def avgSide (s0 s1 s2 s3 : ℚ) : ℚ := rnd (rnd (rnd (rnd (s0 + s1) + s2) + s3) / 4)

/-- The code's `variance` before the division: the absolute deviations
`std::abs(side - avg_side)` of the four sides, accumulated from 0.0 in order,
each operation rounded. -/
def sideDeviation (s0 s1 s2 s3 : ℚ) : ℚ :=
  rnd (rnd (rnd (rnd (0 + |rnd (s0 - avgSide s0 s1 s2 s3)|) +
    |rnd (s1 - avgSide s0 s1 s2 s3)|) + |rnd (s2 - avgSide s0 s1 s2 s3)|) +
    |rnd (s3 - avgSide s0 s1 s2 s3)|)

/-- A tilted rectangle with sides of Euclidean length `41 * sqrt 10` and
`39 * sqrt 10`. -/
def boxTilted : List Point :=
  [Point.mk 117 0, Point.mk 158 123, Point.mk 41 162, Point.mk 0 39]

/-- A tilted rectangle with sides of Euclidean length `41 * sqrt 65` and
`39 * sqrt 65`. -/
def boxTall : List Point :=
  [Point.mk 312 0, Point.mk 353 328, Point.mk 41 367, Point.mk 0 39]

/-- The value of the double `side_length` for two consecutive corners: what
`cv::norm` returns for the `int` difference `p - q`. -/
def sideValue (p q : Point) : ℚ :=
  sqrt64 (rnd (rnd (((p.sub q).x : ℚ) * (p.sub q).x) + rnd (((p.sub q).y : ℚ) * (p.sub q).y)))

/-- A rhombus with four sides of Euclidean length 2 500 000 000, two of whose
corners are more than `2 ^ 31` apart in `x`. -/
def boxRhombus : List Point :=
  [Point.mk (-2000000000) (-1000000000), Point.mk 500000000 (-1000000000),
    Point.mk 2000000000 1000000000, Point.mk (-500000000) 1000000000]

/-- A square of side 25000 at the origin: a quarter of `imgHuge`. -/
def boxQuarter : List Point :=
  [Point.mk 0 0, Point.mk 25000 0, Point.mk 25000 25000, Point.mk 0 25000]

/-- A decoder that finds `HELLO` with the four corners of `boxSquare200` in
every image. -/
def envFourCorners : Env := envOf (fun _ => Except.ok (hello, boxSquare200))

/-- A 400 x 400 image with two channels. -/
def img2ch : Mat := { rows := 400, cols := 400, channels := 2, pixels := [0] }

/-- An OpenCV that rejects two-channel images everywhere: the decoder, the
colour conversion of the enhancement and `cv::imwrite` each raise a fault on
them. -/
def envTwoChannel : Env :=
  { envOf (fun m =>
      if m.channels = 2 then Except.error (lit "decoder: 2 channels")
      else Except.ok ([], [])) with
    enhanceFault := fun m => if m.channels = 2 then some (lit "cvtColor: 2 channels") else none
    imwriteFault := fun _ m =>
      if m.channels = 2 then some (lit "imwrite: 2 channels") else none }

/-! ## Payload validation -/

theorem validateLoop_iff (s : CString) :
    validateLoop s = true ↔ ∀ c ∈ s, 32 ≤ c ∨ c = 10 ∨ c = 13 := by
  induction s with
  | nil => simp [validateLoop]
  | cons c rest ih =>
    simp only [validateLoop, List.mem_cons, forall_eq_or_imp]
    by_cases hc : (c < 32 && c != 10 && c != 13) = true
    · simp only [hc, if_true]
      simp only [Bool.and_eq_true, decide_eq_true_eq, bne_iff_ne] at hc
      constructor
      · intro h; cases h
      · rintro ⟨h, -⟩; omega
    · simp only [hc, if_false, Bool.false_eq_true]
      simp only [Bool.and_eq_true, decide_eq_true_eq, bne_iff_ne] at hc
      rw [ih]
      constructor
      · intro h; exact ⟨by omega, h⟩
      · rintro ⟨-, h⟩; exact h

theorem validateQRData_eq_loop (s : CString) (h : s ≠ []) :
    validateQRData s = validateLoop s := by
  cases s with
  | nil => exact absurd rfl h
  | cons c rest => simp [validateQRData]

/-- The payload check on `char` values: true exactly for a non-empty string
whose `char`s all have a value of at least 32 or the value 10 or 13. -/
theorem validateQRData_chars (s : CString) :
    validateQRData s = true ↔ s ≠ [] ∧ ∀ c ∈ s, 32 ≤ c ∨ c = 10 ∨ c = 13 := by
  by_cases hs : s = []
  · subst hs; simp [validateQRData]
  · rw [validateQRData_eq_loop s hs, validateLoop_iff]
    exact ⟨fun h => ⟨hs, h⟩, fun h => h.2⟩

theorem charOfByte_ok (b : Nat) (hb : b < 256) :
    (32 ≤ charOfByte b ∨ charOfByte b = 10 ∨ charOfByte b = 13) ↔
      ((32 ≤ b ∧ b ≤ 127) ∨ b = 10 ∨ b = 13) := by
  unfold charOfByte
  rw [Nat.mod_eq_of_lt hb]
  split <;> omega

/-- The payload check on bytes: true exactly for a non-empty string whose bytes
all lie in 32..127 or are 10 or 13. A byte of 128 or more is rejected. -/
theorem validateQRData_ofBytes (bs : List Nat) (hb : ∀ b ∈ bs, b < 256) :
    validateQRData (ofBytes bs) = true ↔
      bs ≠ [] ∧ ∀ b ∈ bs, (32 ≤ b ∧ b ≤ 127) ∨ b = 10 ∨ b = 13 := by
  rw [validateQRData_chars]
  unfold ofBytes
  constructor
  · rintro ⟨hne, h⟩
    refine ⟨fun e => hne (by rw [e]; rfl), fun b hmem => ?_⟩
    exact (charOfByte_ok b (hb b hmem)).1 (h _ (List.mem_map_of_mem _ hmem))
  · rintro ⟨hne, h⟩
    refine ⟨fun e => hne (List.map_eq_nil_iff.1 e), fun c hc => ?_⟩
    obtain ⟨b, hmem, rfl⟩ := List.mem_map.1 hc
    exact (charOfByte_ok b (hb b hmem)).2 (h b hmem)

/-- The cases the specification singles out: a string containing code 7 is
rejected, LF and CR among printable ASCII characters are accepted, the empty
string is rejected. -/
theorem validateQRData_examples :
    (∀ a b : CString, validateQRData (a ++ 7 :: b) = false) ∧
    (∀ a b : CString, (∀ c ∈ a ++ b, 32 ≤ c) →
      validateQRData (a ++ 10 :: b) = true ∧ validateQRData (a ++ 13 :: b) = true) ∧
    validateQRData [] = false := by
  refine ⟨?_, ?_, by simp [validateQRData]⟩
  · intro a b
    rw [Bool.eq_false_iff]
    intro h
    have h7 := ((validateQRData_chars _).1 h).2 7 (by simp)
    omega
  · intro a b hab
    constructor
    · refine (validateQRData_chars _).2 ⟨by simp, ?_⟩
      intro c hc
      simp only [List.mem_append, List.mem_cons] at hc
      rcases hc with hc | hc | hc
      · exact Or.inl (hab c (by simp [hc]))
      · exact Or.inr (Or.inl hc)
      · exact Or.inl (hab c (by simp [hc]))
    · refine (validateQRData_chars _).2 ⟨by simp, ?_⟩
      intro c hc
      simp only [List.mem_append, List.mem_cons] at hc
      rcases hc with hc | hc | hc
      · exact Or.inl (hab c (by simp [hc]))
      · exact Or.inr (Or.inr hc)
      · exact Or.inl (hab c (by simp [hc]))

/-- C5 at the UTF-8 text `café`, bytes 99 97 102 195 169: the string is
non-empty and every character has a code of at least 32, so the claim makes it
valid, yet `validateQRData` returns false: the bytes 195 and 169 are the
negative values -61 and -87 as signed `char`s and fail the test `c < 32`. -/
theorem validateQRData_high_byte :
    [99, 97, 102, 195, 169] ≠ ([] : List Nat) ∧
    (∀ b ∈ [99, 97, 102, 195, 169], 32 ≤ b) ∧
    ofBytes [99, 97, 102, 195, 169] = [99, 97, 102, -61, -87] ∧
    validateQRData (ofBytes [99, 97, 102, 195, 169]) = false := by
  refine ⟨by decide, by decide, by decide, by decide⟩

/-! ## The single-pass procedure -/

theorem processDetection_events (env : Env) (image : Mat) :
    (processDetection env image).2 = [Event.detectAndDecode image] := by
  unfold processDetection
  split
  · split <;> rfl
  · rfl

theorem processDetection_of_error (env : Env) (image : Mat) (what : CString)
    (h : env.detectAndDecode image = Except.error what) :
    (processDetection env image).1 =
      { success := false, error_message := lit "OpenCV error: " ++ what } := by
  simp [processDetection, h]

theorem processDetection_of_valid (env : Env) (image : Mat) (text : CString)
    (points : List Point) (h : env.detectAndDecode image = Except.ok (text, points))
    (hv : validateQRData text = true) :
    (processDetection env image).1 =
      { success := true, data := text, bounding_box := points,
        confidence := calculateConfidence env points image } := by
  have hne : text.isEmpty = false := by
    cases text with
    | nil => simp [validateQRData] at hv
    | cons c rest => rfl
  simp [processDetection, h, hv, hne]

theorem processDetection_of_empty (env : Env) (image : Mat) (points : List Point)
    (h : env.detectAndDecode image = Except.ok ([], points)) :
    (processDetection env image).1 =
      { success := false, error_message := lit "No QR code detected in image" } := by
  simp [processDetection, h]

theorem processDetection_of_invalid (env : Env) (image : Mat) (text : CString)
    (points : List Point) (h : env.detectAndDecode image = Except.ok (text, points))
    (hne : text ≠ []) (hv : validateQRData text = false) :
    (processDetection env image).1 =
      { success := false,
        error_message := lit "QR code found but data validation failed" } := by
  have hne2 : text.isEmpty = false := by
    cases text with
    | nil => exact absurd rfl hne
    | cons c rest => rfl
  simp [processDetection, h, hv, hne2]

/-- C6: when the decoder returns `(text, points)` without a fault,
`processDetection` returns `success = true` exactly when `text` is non-empty and
passes payload validation, and then `data = text`, `boundingBox = points` and
`confidence = calculateConfidence(points, image)`; otherwise `success = false`
with the message "No QR code detected in image" for an empty text and
"QR code found but data validation failed" for a non-empty invalid one. -/
theorem processDetection_spec (env : Env) (image : Mat) (text : CString)
    (points : List Point) (h : env.detectAndDecode image = Except.ok (text, points)) :
    ((processDetection env image).1.success = true ↔
      (text ≠ [] ∧ validateQRData text = true)) ∧
    (text ≠ [] ∧ validateQRData text = true →
      (processDetection env image).1.success = true ∧
      (processDetection env image).1.data = text ∧
      (processDetection env image).1.bounding_box = points ∧
      (processDetection env image).1.confidence = calculateConfidence env points image) ∧
    (text = [] →
      (processDetection env image).1.success = false ∧
      (processDetection env image).1.error_message =
        lit "No QR code detected in image") ∧
    (text ≠ [] ∧ validateQRData text = false →
      (processDetection env image).1.success = false ∧
      (processDetection env image).1.error_message =
        lit "QR code found but data validation failed") := by
  by_cases hne : text = []
  · subst hne
    rw [processDetection_of_empty env image points h]
    simp
  · cases hv : validateQRData text with
    | true =>
      rw [processDetection_of_valid env image text points h hv]
      simp [hne]
    | false =>
      rw [processDetection_of_invalid env image text points h hne hv]
      simp [hne]

/-- Witness for C6: the decoder finds `HELLO` with no corners in a 400 x 400 image. -/
theorem processDetection_spec_witness :
    envHello.detectAndDecode img400 = Except.ok (hello, []) ∧
    (processDetection envHello img400).1.success = true ∧
    (processDetection envHello img400).1.data = hello :=
  ⟨rfl,
   ((processDetection_spec envHello img400 hello [] rfl).2.1
      ⟨by decide, by decide⟩).1,
   ((processDetection_spec envHello img400 hello [] rfl).2.1
      ⟨by decide, by decide⟩).2.1⟩

/-! ## The confidence scorer's guard -/

/-- C10: for every image, empty or not, and every bounding box whose number of
points is not exactly 4, `calculateConfidence` returns exactly 0.0. -/
theorem calculateConfidence_of_length_ne_four (env : Env) (bbox : List Point)
    (image : Mat) (h : bbox.length ≠ 4) :
    calculateConfidence env bbox image = Dbl.fin 0 := by
  unfold calculateConfidence
  split
  · simp at h
  · rfl

/-- Witness for C10: three corner points on an empty image. -/
theorem calculateConfidence_of_length_ne_four_witness :
    [Point.mk 0 0, Point.mk 5 0, Point.mk 5 5].length ≠ 4 ∧
    calculateConfidence envHello [Point.mk 0 0, Point.mk 5 0, Point.mk 5 5] {} =
      Dbl.fin 0 :=
  ⟨by decide, calculateConfidence_of_length_ne_four envHello _ {} (by decide)⟩

/-! ## The five paths of `detectFromImage` -/

theorem detectFromImage_of_empty (env : Env) (self : QRDetector) (image : Mat)
    (h : image.empty = true) :
    detectFromImage env self image =
      { result := { success := false, data := [], bounding_box := [],
                    confidence := Dbl.fin 0, processed_image := {},
                    error_message := lit "Empty input image" },
        self := counted self, events := [] } := by
  simp [detectFromImage, h, counted]

theorem detectFromImage_of_raw_success (env : Env) (self : QRDetector) (image : Mat)
    (h : image.empty = false) (hr : (processDetection env image).1.success = true) :
    detectFromImage env self image =
      { result := { (processDetection env image).1 with processed_image := image },
        self := succeeded self, events := [Event.detectAndDecode image] } := by
  have hev := processDetection_events env image
  simp [detectFromImage, h, counted, succeeded, Mat.clone, hr, hev]

theorem detectFromImage_of_enhanced_success (env : Env) (self : QRDetector) (image : Mat)
    (h : image.empty = false) (hr : (processDetection env image).1.success = false)
    (hp : self.preprocessing_enabled_ = true)
    (he : (processDetection env (enhanceForQRDetection env image)).1.success = true) :
    detectFromImage env self image =
      { result := { (processDetection env (enhanceForQRDetection env image)).1 with
                    processed_image := enhanceForQRDetection env image },
        self := succeeded self,
        events := [Event.detectAndDecode image, Event.enhanceForQRDetection image,
                   Event.detectAndDecode (enhanceForQRDetection env image)] } := by
  have hev := processDetection_events env image
  have hev2 := processDetection_events env (enhanceForQRDetection env image)
  simp [detectFromImage, h, counted, succeeded, Mat.clone, hr, hev, hev2, hp, he]

theorem detectFromImage_of_both_fail (env : Env) (self : QRDetector) (image : Mat)
    (h : image.empty = false) (hr : (processDetection env image).1.success = false)
    (hp : self.preprocessing_enabled_ = true)
    (he : (processDetection env (enhanceForQRDetection env image)).1.success = false) :
    detectFromImage env self image =
      { result := (processDetection env image).1,
        self := counted self,
        events := [Event.detectAndDecode image, Event.enhanceForQRDetection image,
                   Event.detectAndDecode (enhanceForQRDetection env image),
                   Event.imwrite (lit "debug_enhanced.png") (enhanceForQRDetection env image),
                   Event.imwrite (lit "debug_original.png") image] } := by
  have hev := processDetection_events env image
  have hev2 := processDetection_events env (enhanceForQRDetection env image)
  simp [detectFromImage, h, counted, Mat.clone, hr, hev, hev2, hp, he]

theorem detectFromImage_of_raw_fail_disabled (env : Env) (self : QRDetector) (image : Mat)
    (h : image.empty = false) (hr : (processDetection env image).1.success = false)
    (hp : self.preprocessing_enabled_ = false) :
    detectFromImage env self image =
      { result := (processDetection env image).1,
        self := counted self,
        events := [Event.detectAndDecode image,
                   Event.imwrite (lit "debug_original.png") image] } := by
  have hev := processDetection_events env image
  simp [detectFromImage, h, counted, Mat.clone, hr, hev, hp]

/-- C4: on an empty image `detectFromImage` returns `success = false` with the
message "Empty input image", empty data, empty bounding box and confidence 0.0;
it makes no external call (no decoder invocation, no enhancement, no debug
artifact) and leaves `successful_detections_` unchanged. -/
theorem detectFromImage_empty_image (env : Env) (self : QRDetector) (image : Mat)
    (h : image.empty = true) :
    (detectFromImage env self image).result.success = false ∧
    (detectFromImage env self image).result.error_message = lit "Empty input image" ∧
    (detectFromImage env self image).result.data = [] ∧
    (detectFromImage env self image).result.bounding_box = [] ∧
    (detectFromImage env self image).result.confidence = Dbl.fin 0 ∧
    (detectFromImage env self image).events = [] ∧
    (detectFromImage env self image).self.successful_detections_ =
      self.successful_detections_ := by
  rw [detectFromImage_of_empty env self image h]
  simp [counted]

/-- Witness for C4: the default matrix `cv::Mat()` on a fresh detector. -/
theorem detectFromImage_empty_image_witness :
    Mat.empty {} = true ∧
    (detectFromImage envHello {} {}).result.error_message = lit "Empty input image" ∧
    (detectFromImage envHello {} {}).events = [] :=
  ⟨by decide,
   (detectFromImage_empty_image envHello {} {} (by decide)).2.1,
   (detectFromImage_empty_image envHello {} {} (by decide)).2.2.2.2.2.1⟩

/-! ## Counters -/

theorem wrapInt32_of_inRange (z : Int) (h1 : -2147483648 ≤ z) (h2 : z ≤ 2147483647) :
    wrapInt32 z = z := by
  unfold wrapInt32; omega

theorem wrapInt32_idem (z : Int) : wrapInt32 (wrapInt32 z) = wrapInt32 z := by
  unfold wrapInt32; omega

theorem wrapInt32_wrap_add (a b : Int) : wrapInt32 (wrapInt32 a + b) = wrapInt32 (a + b) := by
  unfold wrapInt32; omega

theorem detectFromImage_self (env : Env) (self : QRDetector) (image : Mat) :
    (detectFromImage env self image).self =
      if (detectFromImage env self image).result.success = true then succeeded self
      else counted self := by
  rcases Bool.eq_false_or_eq_true image.empty with h | h
  · rw [detectFromImage_of_empty env self image h]; simp
  rcases Bool.eq_false_or_eq_true (processDetection env image).1.success with hr | hr
  · rw [detectFromImage_of_raw_success env self image h hr]; simp [hr]
  rcases Bool.eq_false_or_eq_true self.preprocessing_enabled_ with hp | hp
  · rcases Bool.eq_false_or_eq_true
      (processDetection env (enhanceForQRDetection env image)).1.success with he | he
    · rw [detectFromImage_of_enhanced_success env self image h hr hp he]; simp [he]
    · rw [detectFromImage_of_both_fail env self image h hr hp he]; simp [hr]
  · rw [detectFromImage_of_raw_fail_disabled env self image h hr hp]; simp [hr]

theorem step_total (env : Env) (self : QRDetector) (c : Call) :
    (step env self c).total_detections_ =
      if c.isDetect = true then wrapInt32 (self.total_detections_ + 1)
      else self.total_detections_ := by
  cases c with
  | detect image =>
    simp only [step, Call.isDetect, if_true]
    rw [detectFromImage_self]
    split <;> simp [succeeded, counted]
  | setPreprocessing b => simp [step, Call.isDetect, setPreprocessingEnabled]
  | setMultipleQR b => simp [step, Call.isDetect, setMultipleQRDetection]

theorem step_successful (env : Env) (self : QRDetector) (c : Call) :
    (step env self c).successful_detections_ =
      if callSucceeds env self c = true then wrapInt32 (self.successful_detections_ + 1)
      else self.successful_detections_ := by
  cases c with
  | detect image =>
    simp only [step, callSucceeds]
    rw [detectFromImage_self]
    split <;> simp [succeeded, counted]
  | setPreprocessing b => simp [step, callSucceeds, setPreprocessingEnabled]
  | setMultipleQR b => simp [step, callSucceeds, setMultipleQRDetection]

theorem runCalls_cons (env : Env) (self : QRDetector) (c : Call) (rest : List Call) :
    runCalls env self (c :: rest) = runCalls env (step env self c) rest := rfl

theorem runCalls_total_wrap (env : Env) (calls : List Call) :
    ∀ self : QRDetector,
      wrapInt32 (runCalls env self calls).total_detections_ =
        wrapInt32 (self.total_detections_ + (calls.countP Call.isDetect : Nat)) := by
  induction calls with
  | nil => intro self; simp [runCalls]
  | cons c rest ih =>
    intro self
    rw [runCalls_cons, ih, step_total, List.countP_cons]
    by_cases hc : c.isDetect = true
    · simp only [hc, if_true, Nat.cast_add, Nat.cast_one]
      rw [wrapInt32_wrap_add]
      congr 1; ring
    · simp [hc]

theorem runCalls_successful_wrap (env : Env) (calls : List Call) :
    ∀ self : QRDetector,
      wrapInt32 (runCalls env self calls).successful_detections_ =
        wrapInt32 (self.successful_detections_ + (countSuccesses env self calls : Nat)) := by
  induction calls with
  | nil => intro self; simp [runCalls, countSuccesses]
  | cons c rest ih =>
    intro self
    rw [runCalls_cons, ih, step_successful, countSuccesses]
    by_cases hc : callSucceeds env self c = true
    · simp only [hc, if_true, Nat.cast_add, Nat.cast_one]
      rw [wrapInt32_wrap_add]
      congr 1; ring
    · simp [hc]

theorem runCalls_inRange (env : Env) (calls : List Call) :
    ∀ self : QRDetector,
      wrapInt32 self.total_detections_ = self.total_detections_ →
      wrapInt32 self.successful_detections_ = self.successful_detections_ →
      wrapInt32 (runCalls env self calls).total_detections_ =
        (runCalls env self calls).total_detections_ ∧
      wrapInt32 (runCalls env self calls).successful_detections_ =
        (runCalls env self calls).successful_detections_ := by
  induction calls with
  | nil => intro self h1 h2; exact ⟨h1, h2⟩
  | cons c rest ih =>
    intro self h1 h2
    rw [runCalls_cons]
    apply ih
    · rw [step_total]; split
      · exact wrapInt32_idem _
      · exact h1
    · rw [step_successful]; split
      · exact wrapInt32_idem _
      · exact h2

theorem countSuccesses_le (env : Env) (calls : List Call) :
    ∀ self : QRDetector, countSuccesses env self calls ≤ calls.countP Call.isDetect := by
  induction calls with
  | nil => intro self; simp [countSuccesses]
  | cons c rest ih =>
    intro self
    rw [countSuccesses, List.countP_cons]
    have := ih (step env self c)
    cases c with
    | detect image => simp only [Call.isDetect, if_true]; split <;> omega
    | setPreprocessing b => simp [callSucceeds, Call.isDetect]; omega
    | setMultipleQR b => simp [callSucceeds, Call.isDetect]; omega

theorem runCalls_total_fresh (env : Env) (calls : List Call) :
    (runCalls env {} calls).total_detections_ =
      wrapInt32 (calls.countP Call.isDetect : Nat) := by
  have h1 := runCalls_total_wrap env calls {}
  have h2 := (runCalls_inRange env calls {} (by decide) (by decide)).1
  rw [h2] at h1
  simpa using h1

theorem runCalls_successful_fresh (env : Env) (calls : List Call) :
    (runCalls env {} calls).successful_detections_ =
      wrapInt32 (countSuccesses env {} calls : Nat) := by
  have h1 := runCalls_successful_wrap env calls {}
  have h2 := (runCalls_inRange env calls {} (by decide) (by decide)).2
  rw [h2] at h1
  simpa using h1


theorem countP_isDetect_replicate (n : Nat) (image : Mat) :
    (List.replicate n (Call.detect image)).countP Call.isDetect = n := by
  induction n with
  | zero => rfl
  | succ k ih => rw [List.replicate_succ, List.countP_cons, ih]; simp [Call.isDetect]

theorem countSuccesses_replicate_empty (env : Env) (n : Nat) :
    ∀ self : QRDetector,
      countSuccesses env self (List.replicate n (Call.detect {})) = 0 := by
  induction n with
  | zero => intro self; rfl
  | succ k ih =>
    intro self
    rw [List.replicate_succ, countSuccesses, ih]
    simp [callSucceeds, detectFromImage_of_empty env self {} (by decide)]

theorem countSuccesses_replicate_hello (n : Nat) :
    ∀ self : QRDetector,
      countSuccesses envHello self (List.replicate n (Call.detect img400)) = n := by
  induction n with
  | zero => intro self; rfl
  | succ k ih =>
    intro self
    rw [List.replicate_succ, countSuccesses, ih]
    have hs : callSucceeds envHello self (Call.detect img400) = true := by
      simp only [callSucceeds]
      rw [detectFromImage_of_raw_success envHello self img400 (by decide) (by decide)]
      show (processDetection envHello img400).1.success = true
      decide
    simp [hs]; omega

theorem wrapInt32_two_pow_31 : wrapInt32 ((2147483648 : Nat) : Int) = -2147483648 := by
  unfold wrapInt32
  norm_num

theorem getTotalDetections_replicate (env : Env) (n : Nat) (image : Mat) :
    getTotalDetections (runCalls env {} (List.replicate n (Call.detect image))) =
      wrapInt32 n := by
  unfold getTotalDetections
  rw [runCalls_total_fresh, countP_isDetect_replicate]

theorem getSuccessfulDetections_replicate_hello (n : Nat) :
    getSuccessfulDetections
      (runCalls envHello {} (List.replicate n (Call.detect img400))) = wrapInt32 n := by
  unfold getSuccessfulDetections
  rw [runCalls_successful_fresh, countSuccesses_replicate_hello]

/-- C2, as stated, fails: after 2147483648 calls of `detectFromImage` on a fresh
detector (here all on the empty image) the `int` counter has wrapped and
`getTotalDetections` returns -2147483648, not the number of calls. -/
theorem getTotalDetections_wraps :
    (List.replicate 2147483648 (Call.detect {})).length = 2147483648 ∧
    getTotalDetections
      (runCalls envNothing {} (List.replicate 2147483648 (Call.detect {}))) =
        -2147483648 ∧
    getTotalDetections
      (runCalls envNothing {} (List.replicate 2147483648 (Call.detect {}))) ≠
        2147483648 :=
  ⟨List.length_replicate _ _,
   (getTotalDetections_replicate envNothing 2147483648 {}).trans wrapInt32_two_pow_31,
   fun h => absurd
     (((getTotalDetections_replicate envNothing 2147483648 {}).trans
        wrapInt32_two_pow_31).symm.trans h)
     (by norm_num)⟩

/-- C2, amended: for every sequence of public calls on a fresh detector that
contains at most 2147483647 (`INT_MAX`) calls of `detectFromImage`, with any
images and any decoder, `getTotalDetections` afterwards returns exactly the
number of `detectFromImage` calls; and a single call made while the counter is
below `INT_MAX` increments it by exactly one. -/
theorem getTotalDetections_runCalls (env : Env) (calls : List Call)
    (hN : calls.countP Call.isDetect ≤ 2147483647) :
    getTotalDetections (runCalls env {} calls) = (calls.countP Call.isDetect : Nat) ∧
    (∀ (self : QRDetector) (image : Mat),
      -2147483648 ≤ self.total_detections_ → self.total_detections_ < 2147483647 →
      getTotalDetections (detectFromImage env self image).self =
        getTotalDetections self + 1) := by
  constructor
  · unfold getTotalDetections
    rw [runCalls_total_fresh]
    apply wrapInt32_of_inRange <;> omega
  · intro self image h1 h2
    have := step_total env self (Call.detect image)
    simp only [step, Call.isDetect, if_true] at this
    unfold getTotalDetections
    rw [this]
    apply wrapInt32_of_inRange <;> omega

/-- Witness for C2 (amended): three `detectFromImage` calls, one of them on the
empty image, with a setter call in between. -/
theorem getTotalDetections_runCalls_witness :
    [Call.detect {}, Call.setPreprocessing false, Call.detect img400,
      Call.detect img400].countP Call.isDetect ≤ 2147483647 ∧
    getTotalDetections
      (runCalls envNothing {}
        [Call.detect {}, Call.setPreprocessing false, Call.detect img400,
          Call.detect img400]) = 3 :=
  ⟨by decide, (getTotalDetections_runCalls envNothing _ (by decide)).1⟩

/-- C3, as stated, fails: after 2147483648 calls that all return
`success = true` the `int` counter has wrapped and `getSuccessfulDetections`
returns -2147483648, not the number of successful calls. -/
theorem getSuccessfulDetections_wraps :
    countSuccesses envHello {} (List.replicate 2147483648 (Call.detect img400)) =
      2147483648 ∧
    getSuccessfulDetections
      (runCalls envHello {} (List.replicate 2147483648 (Call.detect img400))) =
        -2147483648 :=
  ⟨countSuccesses_replicate_hello 2147483648 {},
   (getSuccessfulDetections_replicate_hello 2147483648).trans wrapInt32_two_pow_31⟩

/-- C3, amended: a call of `detectFromImage` that returns `success = false`
(the empty-image case included) leaves `successful_detections_` unchanged, and
one that returns `success = true` while the counter is below `INT_MAX`
increments it by exactly 1; so after any sequence of public calls on a fresh
detector in which at most 2147483647 calls returned `success = true`,
`getSuccessfulDetections` equals the number of calls that returned
`success = true`. -/
theorem getSuccessfulDetections_runCalls (env : Env) (calls : List Call)
    (hN : countSuccesses env {} calls ≤ 2147483647) :
    getSuccessfulDetections (runCalls env {} calls) = (countSuccesses env {} calls : Nat) ∧
    (∀ (self : QRDetector) (image : Mat),
      (detectFromImage env self image).result.success = false →
      getSuccessfulDetections (detectFromImage env self image).self =
        getSuccessfulDetections self) ∧
    (∀ (self : QRDetector) (image : Mat),
      (detectFromImage env self image).result.success = true →
      -2147483648 ≤ self.successful_detections_ →
      self.successful_detections_ < 2147483647 →
      getSuccessfulDetections (detectFromImage env self image).self =
        getSuccessfulDetections self + 1) := by
  refine ⟨?_, ?_, ?_⟩
  · unfold getSuccessfulDetections
    rw [runCalls_successful_fresh]
    apply wrapInt32_of_inRange <;> omega
  · intro self image hf
    have := step_successful env self (Call.detect image)
    simp only [step, callSucceeds, hf, Bool.false_eq_true, if_false] at this
    exact this
  · intro self image hs h1 h2
    have := step_successful env self (Call.detect image)
    simp only [step, callSucceeds, hs, if_true] at this
    unfold getSuccessfulDetections
    rw [this]
    apply wrapInt32_of_inRange <;> omega

/-- Witness for C3 (amended): two successful calls around a call on the empty image. -/
theorem getSuccessfulDetections_runCalls_witness :
    countSuccesses envHello {}
      [Call.detect img400, Call.detect {}, Call.detect img400] ≤ 2147483647 ∧
    getSuccessfulDetections
      (runCalls envHello {} [Call.detect img400, Call.detect {}, Call.detect img400]) =
        (countSuccesses envHello {}
          [Call.detect img400, Call.detect {}, Call.detect img400] : Nat) :=
  ⟨by decide, (getSuccessfulDetections_runCalls envHello _ (by decide)).1⟩

/-! ## Success rate -/

theorem getSuccessRate_of_ne_zero (self : QRDetector) (h : self.total_detections_ ≠ 0) :
    getSuccessRate self =
      Dbl.fin ((self.successful_detections_ : ℚ) / (self.total_detections_ : ℚ)) := by
  have hq : (self.total_detections_ : ℚ) ≠ 0 := by exact_mod_cast h
  simp [getSuccessRate, h, Dbl.ofInt, Dbl.div, hq]

theorem counters_hello_then_empty (n : Nat) :
    (runCalls envHello {}
      (Call.detect img400 :: List.replicate n (Call.detect {}))).total_detections_ =
        wrapInt32 ((n + 1 : Nat) : Int) ∧
    (runCalls envHello {}
      (Call.detect img400 :: List.replicate n (Call.detect {}))).successful_detections_ =
        1 := by
  constructor
  · rw [runCalls_total_fresh, List.countP_cons, countP_isDetect_replicate]
    simp [Call.isDetect]
  · rw [runCalls_successful_fresh, countSuccesses, countSuccesses_replicate_empty]
    have hs : callSucceeds envHello {} (Call.detect img400) = true := by
      simp only [callSucceeds]
      rw [detectFromImage_of_raw_success envHello {} img400 (by decide) (by decide)]
      show (processDetection envHello img400).1.success = true
      decide
    rw [hs]
    decide

/-- C9, as stated, fails: one successful call followed by 2147483647 calls on
the empty image leaves `total_detections_` wrapped to -2147483648 with
`successful_detections_ = 1`, so `successful_detections_` exceeds
`total_detections_` and `getSuccessRate` returns a negative value. -/
theorem getSuccessRate_negative :
    (runCalls envHello {}
      (Call.detect img400 :: List.replicate 2147483647 (Call.detect {}))).total_detections_ <
    (runCalls envHello {}
      (Call.detect img400 ::
        List.replicate 2147483647 (Call.detect {}))).successful_detections_ ∧
    ∃ q : ℚ,
      getSuccessRate
        (runCalls envHello {}
          (Call.detect img400 :: List.replicate 2147483647 (Call.detect {}))) =
        Dbl.fin q ∧ q < 0 := by
  have ht := ((counters_hello_then_empty 2147483647).1).trans wrapInt32_two_pow_31
  have hs := (counters_hello_then_empty 2147483647).2
  refine ⟨?_, (1 : ℚ) / (-2147483648), ?_, by norm_num⟩
  · rw [ht, hs]; norm_num
  · rw [getSuccessRate_of_ne_zero _ (by rw [ht]; norm_num), ht, hs]
    norm_num

/-- C9, amended: in every state reached from a fresh detector by a sequence of
`detectFromImage` and setter calls with at most 2147483647 (`INT_MAX`)
`detectFromImage` calls, `getSuccessRate` returns exactly 0.0 when
`total_detections_` is 0 and otherwise the quotient
`successful_detections_ / total_detections_` (division taken exactly);
`successful_detections_` lies between 0 and `total_detections_`, and the
returned value lies in [0, 1]. -/
theorem getSuccessRate_runCalls (env : Env) (calls : List Call)
    (hN : calls.countP Call.isDetect ≤ 2147483647) :
    (getTotalDetections (runCalls env {} calls) = 0 →
      getSuccessRate (runCalls env {} calls) = Dbl.fin 0) ∧
    (getTotalDetections (runCalls env {} calls) ≠ 0 →
      getSuccessRate (runCalls env {} calls) =
        Dbl.fin ((getSuccessfulDetections (runCalls env {} calls) : ℚ) /
          (getTotalDetections (runCalls env {} calls) : ℚ))) ∧
    0 ≤ getSuccessfulDetections (runCalls env {} calls) ∧
    getSuccessfulDetections (runCalls env {} calls) ≤
      getTotalDetections (runCalls env {} calls) ∧
    ∃ q : ℚ, getSuccessRate (runCalls env {} calls) = Dbl.fin q ∧ 0 ≤ q ∧ q ≤ 1 := by
  have hle := countSuccesses_le env calls {}
  have ht : (runCalls env {} calls).total_detections_ =
      (calls.countP Call.isDetect : Nat) := by
    rw [runCalls_total_fresh]; apply wrapInt32_of_inRange <;> omega
  have hs : (runCalls env {} calls).successful_detections_ =
      (countSuccesses env {} calls : Nat) := by
    rw [runCalls_successful_fresh]; apply wrapInt32_of_inRange <;> omega
  unfold getTotalDetections getSuccessfulDetections
  generalize runCalls env {} calls = s at ht hs
  have h0 : 0 ≤ s.successful_detections_ := by rw [hs]; exact Int.natCast_nonneg _
  have h1 : s.successful_detections_ ≤ s.total_detections_ := by
    rw [hs, ht]; exact_mod_cast hle
  refine ⟨?_, getSuccessRate_of_ne_zero s, h0, h1, ?_⟩
  · intro hz; simp [getSuccessRate, hz]
  · by_cases hz : s.total_detections_ = 0
    · exact ⟨0, by simp [getSuccessRate, hz], le_refl _, zero_le_one⟩
    · refine ⟨_, getSuccessRate_of_ne_zero s hz, ?_, ?_⟩
      · apply div_nonneg
        · exact_mod_cast h0
        · exact_mod_cast h0.trans h1
      · have hpos : (0 : ℚ) < (s.total_detections_ : ℚ) := by
          have : 0 < s.total_detections_ := lt_of_le_of_ne (h0.trans h1) (Ne.symm hz)
          exact_mod_cast this
        rw [div_le_one hpos]
        exact_mod_cast h1

/-- Witness for C9 (amended): one success and one failure give the rate 1/2. -/
theorem getSuccessRate_runCalls_witness :
    [Call.detect img400, Call.setMultipleQR true, Call.detect {}].countP
      Call.isDetect ≤ 2147483647 ∧
    ∃ q : ℚ,
      getSuccessRate
        (runCalls envHello {}
          [Call.detect img400, Call.setMultipleQR true, Call.detect {}]) = Dbl.fin q ∧
      0 ≤ q ∧ q ≤ 1 :=
  ⟨by decide, (getSuccessRate_runCalls envHello _ (by decide)).2.2.2.2⟩

/-! ## Faults of the decoder -/

theorem processDetection_cases (env : Env) (image : Mat) :
    (∃ text points, env.detectAndDecode image = Except.ok (text, points) ∧
      text ≠ [] ∧ validateQRData text = true ∧
      (processDetection env image).1 =
        { success := true, data := text, bounding_box := points,
          confidence := calculateConfidence env points image }) ∨
    ((processDetection env image).1.success = false ∧
      (processDetection env image).1.data = [] ∧
      (processDetection env image).1.bounding_box = [] ∧
      (processDetection env image).1.confidence = Dbl.fin 0) := by
  rcases hd : env.detectAndDecode image with what | ⟨text, points⟩
  · right
    rw [processDetection_of_error env image what hd]
    simp
  · by_cases hne : text = []
    · right
      subst hne
      rw [processDetection_of_empty env image points hd]
      simp
    · rcases Bool.eq_false_or_eq_true (validateQRData text) with hv | hv
      · left
        exact ⟨text, points, rfl, hne, hv, processDetection_of_valid env image text points hd hv⟩
      · right
        rw [processDetection_of_invalid env image text points hd hne hv]
        simp

theorem detectFromImageThrowing_of_no_fault (env : Env) (self : QRDetector) (image : Mat)
    (hE : env.enhanceFault image = none)
    (hWo : env.imwriteFault (lit "debug_original.png") image.clone = none)
    (hWe : env.imwriteFault (lit "debug_enhanced.png") (enhanceForQRDetection env image)
      = none) :
    detectFromImageThrowing env self image =
      Outcome.returned (detectFromImage env self image) := by
  simp only [Mat.clone] at hWo
  unfold detectFromImageThrowing detectFromImage
  simp only [Mat.clone, hE, hWo, hWe]
  split_ifs <;> rfl

/-- A fault that leaves `detectFromImage` was raised by the enhancement or by
one of the two debug writes, never by the decoder. -/
theorem detectFromImageThrowing_thrown (env : Env) (self : QRDetector) (image : Mat)
    (what : CString) (self2 : QRDetector) (ev : List Event)
    (h : detectFromImageThrowing env self image = Outcome.thrown what self2 ev) :
    env.enhanceFault image = some what ∨
    env.imwriteFault (lit "debug_original.png") image.clone = some what ∨
    env.imwriteFault (lit "debug_enhanced.png") (enhanceForQRDetection env image) =
      some what := by
  simp only [Mat.clone]
  cases hE : env.enhanceFault image <;>
    cases hWo : env.imwriteFault (lit "debug_original.png") image <;>
    cases hWe : env.imwriteFault (lit "debug_enhanced.png")
      (enhanceForQRDetection env image) <;>
    simp only [detectFromImageThrowing, Mat.clone, hE, hWo, hWe] at h <;>
    split_ifs at h <;>
    first
      | exact Outcome.noConfusion h
      | simp [(Outcome.thrown.inj h).1]

/-- The record of a returning call when the decoder faulted, for any decoder. -/
theorem detectFromImage_record_of_fault (env : Env) (self : QRDetector) (image : Mat)
    (h : image.empty = false) :
    (∀ what : CString, env.detectAndDecode image = Except.error what →
      (processDetection env image).1 =
        { success := false, error_message := lit "OpenCV error: " ++ what } ∧
      ((self.preprocessing_enabled_ = true ∧
          (processDetection env (enhanceForQRDetection env image)).1.success = true) →
        (detectFromImage env self image).result =
          { (processDetection env (enhanceForQRDetection env image)).1 with
            processed_image := enhanceForQRDetection env image }) ∧
      (¬ (self.preprocessing_enabled_ = true ∧
          (processDetection env (enhanceForQRDetection env image)).1.success = true) →
        (detectFromImage env self image).result.success = false ∧
        (detectFromImage env self image).result.error_message =
          lit "OpenCV error: " ++ what ∧
        what <:+: (detectFromImage env self image).result.error_message)) ∧
    (∀ what : CString,
      env.detectAndDecode (enhanceForQRDetection env image) = Except.error what →
      (processDetection env image).1.success = false →
      (detectFromImage env self image).result = (processDetection env image).1) := by
  constructor
  · intro what hf
    have hraw := processDetection_of_error env image what hf
    have hr : (processDetection env image).1.success = false := by rw [hraw]
    refine ⟨hraw, ?_, ?_⟩
    · rintro ⟨hp, he⟩
      rw [detectFromImage_of_enhanced_success env self image h hr hp he]
    · intro hn
      have hres : (detectFromImage env self image).result = (processDetection env image).1 := by
        rcases Bool.eq_false_or_eq_true self.preprocessing_enabled_ with hp | hp
        · rcases Bool.eq_false_or_eq_true
            (processDetection env (enhanceForQRDetection env image)).1.success with he | he
          · exact absurd ⟨hp, he⟩ hn
          · rw [detectFromImage_of_both_fail env self image h hr hp he]
        · rw [detectFromImage_of_raw_fail_disabled env self image h hr hp]
      rw [hres, hraw]
      exact ⟨rfl, rfl, List.suffix_append _ _ |>.isInfix⟩
  · intro what hf hr
    have he : (processDetection env (enhanceForQRDetection env image)).1.success = false := by
      rw [processDetection_of_error env _ what hf]
    rcases Bool.eq_false_or_eq_true self.preprocessing_enabled_ with hp | hp
    · rw [detectFromImage_of_both_fail env self image h hr hp he]
    · rw [detectFromImage_of_raw_fail_disabled env self image h hr hp]

/-- C7, as stated, fails. With a decoder that raises `boom` on the raw image
and finds `HELLO` in the enhanced one, `detectFromImage` returns
`success = true`. With a decoder that finds nothing in the raw image and raises
`boom` on the enhanced one, the returned message is the raw attempt's
"No QR code detected in image", which does not contain `boom`. On a
two-channel image, where the decoder and the enhancement both raise a fault,
the decoder's fault is caught but the enhancement's leaves the call; with
preprocessing disabled the fault of `cv::imwrite` leaves it. -/
theorem detectFromImage_fault_not_reported :
    (envFaultOnRaw.detectAndDecode img400 = Except.error boom ∧
      detectFromImageThrowing envFaultOnRaw {} img400 =
        Outcome.returned (detectFromImage envFaultOnRaw {} img400) ∧
      (detectFromImage envFaultOnRaw {} img400).result.success = true) ∧
    (envFaultOnEnhanced.detectAndDecode
        (enhanceForQRDetection envFaultOnEnhanced img400) = Except.error boom ∧
      detectFromImageThrowing envFaultOnEnhanced {} img400 =
        Outcome.returned (detectFromImage envFaultOnEnhanced {} img400) ∧
      (detectFromImage envFaultOnEnhanced {} img400).result.error_message =
        lit "No QR code detected in image" ∧
      ¬ boom <:+: (detectFromImage envFaultOnEnhanced {} img400).result.error_message) ∧
    (img2ch.empty = false ∧
      detectFromImageThrowing envTwoChannel {} img2ch =
        Outcome.thrown (lit "cvtColor: 2 channels") { total_detections_ := 1 }
          [Event.detectAndDecode img2ch, Event.enhanceForQRDetection img2ch] ∧
      detectFromImageThrowing envTwoChannel { preprocessing_enabled_ := false } img2ch =
        Outcome.thrown (lit "imwrite: 2 channels")
          { preprocessing_enabled_ := false, total_detections_ := 1 }
          [Event.detectAndDecode img2ch,
            Event.imwrite (lit "debug_original.png") img2ch]) := by
  refine ⟨⟨rfl, detectFromImageThrowing_of_no_fault _ _ _ rfl rfl rfl, by decide⟩,
    ⟨rfl, detectFromImageThrowing_of_no_fault _ _ _ rfl rfl rfl, by decide, by decide⟩,
    ⟨by decide, rfl, rfl⟩⟩

/-- C7, amended: a fault raised by the decoder call never reaches the caller:
`processDetection` turns it into `success = false` with the message
"OpenCV error: " followed by the fault's description. When the enhancement and
the debug writes raise no fault themselves, `detectFromImage` returns a record.
If the raw attempt faulted, that record is the enhanced attempt's success when
preprocessing is enabled and that attempt succeeds, and otherwise a failure
whose message is "OpenCV error: " followed by the raw fault's description. A
decoder fault in the enhanced attempt is discarded: the raw attempt's failure
record is returned. -/
theorem detectFromImage_decoder_fault (env : Env) (self : QRDetector) (image : Mat)
    (h : image.empty = false)
    (hE : env.enhanceFault image = none)
    (hWo : env.imwriteFault (lit "debug_original.png") image.clone = none)
    (hWe : env.imwriteFault (lit "debug_enhanced.png") (enhanceForQRDetection env image)
      = none) :
    detectFromImageThrowing env self image =
      Outcome.returned (detectFromImage env self image) ∧
    (∀ what : CString, env.detectAndDecode image = Except.error what →
      (processDetection env image).1 =
        { success := false, error_message := lit "OpenCV error: " ++ what } ∧
      ((self.preprocessing_enabled_ = true ∧
          (processDetection env (enhanceForQRDetection env image)).1.success = true) →
        (detectFromImage env self image).result =
          { (processDetection env (enhanceForQRDetection env image)).1 with
            processed_image := enhanceForQRDetection env image }) ∧
      (¬ (self.preprocessing_enabled_ = true ∧
          (processDetection env (enhanceForQRDetection env image)).1.success = true) →
        (detectFromImage env self image).result.success = false ∧
        (detectFromImage env self image).result.error_message =
          lit "OpenCV error: " ++ what ∧
        what <:+: (detectFromImage env self image).result.error_message)) ∧
    (∀ what : CString,
      env.detectAndDecode (enhanceForQRDetection env image) = Except.error what →
      (processDetection env image).1.success = false →
      (detectFromImage env self image).result = (processDetection env image).1) :=
  ⟨detectFromImageThrowing_of_no_fault env self image hE hWo hWe,
   (detectFromImage_record_of_fault env self image h).1,
   (detectFromImage_record_of_fault env self image h).2⟩

/-- Witness for C7 (amended): the decoder raises `boom` on the raw image,
preprocessing is disabled and no image operation faults. -/
theorem detectFromImage_decoder_fault_witness :
    img400.empty = false ∧
    envFaultOnRaw.detectAndDecode img400 = Except.error boom ∧
    detectFromImageThrowing envFaultOnRaw { preprocessing_enabled_ := false } img400 =
      Outcome.returned
        (detectFromImage envFaultOnRaw { preprocessing_enabled_ := false } img400) ∧
    (detectFromImage envFaultOnRaw { preprocessing_enabled_ := false } img400).result.success
      = false ∧
    (detectFromImage envFaultOnRaw
      { preprocessing_enabled_ := false } img400).result.error_message =
        lit "OpenCV error: boom" :=
  ⟨by decide, rfl,
   (detectFromImage_decoder_fault envFaultOnRaw { preprocessing_enabled_ := false }
      img400 (by decide) rfl rfl rfl).1,
   (((detectFromImage_decoder_fault envFaultOnRaw { preprocessing_enabled_ := false }
      img400 (by decide) rfl rfl rfl).2.1 boom rfl).2.2 (by decide)).1,
   (((detectFromImage_decoder_fault envFaultOnRaw { preprocessing_enabled_ := false }
      img400 (by decide) rfl rfl rfl).2.1 boom rfl).2.2 (by decide)).2.1.trans (by decide)⟩

/-! ## Invariant of the returned record -/

/-- The record `detectFromImage` returns, for any decoder: a success carries
non-empty data, an empty message and exactly the corner points the decoder
returned for the image in `processedImage`; a failure carries empty data and
confidence 0.0. -/
theorem detectFromImage_record_facts (env : Env) (self : QRDetector) (image : Mat) :
    ((detectFromImage env self image).result.success = true →
      (detectFromImage env self image).result.data ≠ [] ∧
      (detectFromImage env self image).result.error_message = [] ∧
      env.detectAndDecode (detectFromImage env self image).result.processed_image =
        Except.ok ((detectFromImage env self image).result.data,
          (detectFromImage env self image).result.bounding_box)) ∧
    ((detectFromImage env self image).result.success = false →
      (detectFromImage env self image).result.data = [] ∧
      (detectFromImage env self image).result.confidence = Dbl.fin 0) ∧
    ((∀ img text pts, env.detectAndDecode img = Except.ok (text, pts) →
        pts.length = 0 ∨ pts.length = 4) →
      (detectFromImage env self image).result.bounding_box.length = 0 ∨
      (detectFromImage env self image).result.bounding_box.length = 4) := by
  have key : ∀ (m : Mat) (r : DetectionResult),
      r = { (processDetection env m).1 with processed_image := m } ∨
        (r = (processDetection env m).1 ∧ (processDetection env m).1.success = false) →
      (r.success = true → r.data ≠ [] ∧ r.error_message = [] ∧
        env.detectAndDecode r.processed_image = Except.ok (r.data, r.bounding_box)) ∧
      (r.success = false → r.data = [] ∧ r.confidence = Dbl.fin 0) ∧
      ((∀ img text pts, env.detectAndDecode img = Except.ok (text, pts) →
          pts.length = 0 ∨ pts.length = 4) →
        r.bounding_box.length = 0 ∨ r.bounding_box.length = 4) := by
    intro m r hr
    rcases processDetection_cases env m with ⟨text, points, hd, hne, -, hp⟩ | ⟨hs, hdata, hbb, hc⟩
    · rcases hr with hr | ⟨-, hf⟩
      · subst hr
        rw [hp]
        refine ⟨fun _ => ⟨hne, rfl, hd⟩, fun hf => Bool.noConfusion hf, fun hc => hc m text points hd⟩
      · rw [hp] at hf; simp at hf
    · have hr2 : r.success = false ∧ r.data = [] ∧ r.bounding_box = [] ∧
          r.confidence = Dbl.fin 0 := by
        rcases hr with hr | ⟨hr, -⟩
        · subst hr; exact ⟨hs, hdata, hbb, hc⟩
        · subst hr; exact ⟨hs, hdata, hbb, hc⟩
      obtain ⟨h1, h2, h3, h4⟩ := hr2
      refine ⟨fun ht => absurd (h1.symm.trans ht) (by decide), fun _ => ⟨h2, h4⟩, fun _ => ?_⟩
      left; rw [h3]; rfl
  rcases Bool.eq_false_or_eq_true image.empty with h | h
  · rw [detectFromImage_of_empty env self image h]
    simp
  rcases Bool.eq_false_or_eq_true (processDetection env image).1.success with hr | hr
  · rw [detectFromImage_of_raw_success env self image h hr]
    exact key image _ (Or.inl rfl)
  rcases Bool.eq_false_or_eq_true self.preprocessing_enabled_ with hp | hp
  · rcases Bool.eq_false_or_eq_true
      (processDetection env (enhanceForQRDetection env image)).1.success with he | he
    · rw [detectFromImage_of_enhanced_success env self image h hr hp he]
      exact key (enhanceForQRDetection env image) _ (Or.inl rfl)
    · rw [detectFromImage_of_both_fail env self image h hr hp he]
      exact key image _ (Or.inr ⟨rfl, hr⟩)
  · rw [detectFromImage_of_raw_fail_disabled env self image h hr hp]
    exact key image _ (Or.inr ⟨rfl, hr⟩)

/-- C8: with a decoder that returns either no corner point or four of them,
as `cv::QRCodeDetector::detectAndDecode` does, every record `detectFromImage`
returns satisfies: `success = true` implies that `data` is non-empty,
`boundingBox` has length 0 or 4 and `errorMessage` is empty; `success = false`
implies that `data` is empty and `confidence` is 0.0. -/
theorem detectFromImage_record_invariant (env : Env) (self : QRDetector) (image : Mat)
    (hdec : ∀ img text pts, env.detectAndDecode img = Except.ok (text, pts) →
      pts.length = 0 ∨ pts.length = 4) :
    ((detectFromImage env self image).result.success = true →
      (detectFromImage env self image).result.data ≠ [] ∧
      ((detectFromImage env self image).result.bounding_box.length = 0 ∨
        (detectFromImage env self image).result.bounding_box.length = 4) ∧
      (detectFromImage env self image).result.error_message = []) ∧
    ((detectFromImage env self image).result.success = false →
      (detectFromImage env self image).result.data = [] ∧
      (detectFromImage env self image).result.confidence = Dbl.fin 0) := by
  obtain ⟨h1, h2, h3⟩ := detectFromImage_record_facts env self image
  exact ⟨fun hs => ⟨(h1 hs).1, h3 hdec, (h1 hs).2.1⟩, h2⟩

/-- Witness for C8: the decoder finds `HELLO` with the four corners of
`boxSquare200` in a 400 x 400 image. -/
theorem detectFromImage_record_invariant_witness :
    (∀ img text pts, envFourCorners.detectAndDecode img = Except.ok (text, pts) →
      pts.length = 0 ∨ pts.length = 4) ∧
    (detectFromImage envFourCorners {} img400).result.success = true ∧
    (detectFromImage envFourCorners {} img400).result.data ≠ [] ∧
    ((detectFromImage envFourCorners {} img400).result.bounding_box.length = 0 ∨
      (detectFromImage envFourCorners {} img400).result.bounding_box.length = 4) ∧
    (detectFromImage envFourCorners {} img400).result.error_message = [] :=
  have hdec : ∀ img text pts, envFourCorners.detectAndDecode img = Except.ok (text, pts) →
      pts.length = 0 ∨ pts.length = 4 := by
    intro img text pts h
    have h2 : (hello, boxSquare200) = (text, pts) := Except.ok.inj h
    rw [← (Prod.mk.inj h2).2]
    exact Or.inr rfl
  have hs : (detectFromImage envFourCorners {} img400).result.success = true := by
    rw [detectFromImage_of_raw_success envFourCorners {} img400 (by decide) rfl]
    rfl
  ⟨hdec, hs, (detectFromImage_record_invariant envFourCorners {} img400 hdec).1 hs⟩

/-! ## The loader's format check -/

theorem find_last_of_eq_none (s : CString) (ch : Int) :
    find_last_of s ch = none ↔ ch ∉ s := by
  induction s with
  | nil => simp [find_last_of]
  | cons c rest ih =>
    rw [find_last_of]
    cases h : find_last_of rest ch with
    | some i =>
      have : ¬ ch ∉ rest := fun hn => by rw [ih.2 hn] at h; cases h
      simp only [List.mem_cons, not_or]
      constructor
      · intro h2; cases h2
      · intro h2; exact absurd h2.2 this
    | none =>
      have hr := ih.1 h
      simp only [List.mem_cons, not_or]
      by_cases hc : c = ch
      · simp [hc]
      · simp only [hc, if_false, true_iff]
        exact ⟨fun e => hc e.symm, hr⟩

theorem find_last_of_append (pre suf : CString) (ch : Int) (h : ch ∉ suf) :
    find_last_of (pre ++ ch :: suf) ch = some pre.length := by
  induction pre with
  | nil =>
    simp only [List.nil_append, find_last_of, (find_last_of_eq_none suf ch).2 h]
    simp
  | cons c rest ih =>
    rw [List.cons_append, find_last_of, ih, List.length_cons]

theorem find_last_of_eq_some (s : CString) (ch : Int) :
    ∀ i, find_last_of s ch = some i →
      ∃ pre suf, s = pre ++ ch :: suf ∧ ch ∉ suf ∧ pre.length = i := by
  induction s with
  | nil => intro i h; simp [find_last_of] at h
  | cons c rest ih =>
    intro i h
    rw [find_last_of] at h
    cases hr : find_last_of rest ch with
    | some j =>
      rw [hr] at h
      obtain ⟨pre, suf, hs, hn, hl⟩ := ih j hr
      refine ⟨c :: pre, suf, by rw [hs]; rfl, hn, ?_⟩
      simp only [Option.some.injEq] at h
      simp [hl, h]
    | none =>
      rw [hr] at h
      by_cases hc : c = ch
      · simp only [hc, if_true, Option.some.injEq] at h
        exact ⟨[], rest, by simp [hc], (find_last_of_eq_none rest ch).1 hr, by simp [h]⟩
      · simp [hc] at h

theorem isSupportedLoop_iff (extension : CString) (table : List CString) :
    isSupportedLoop extension table = true ↔ extension ∈ table := by
  induction table with
  | nil => simp [isSupportedLoop]
  | cons e rest ih =>
    rw [isSupportedLoop]
    by_cases h : extension = e
    · simp [h]
    · simp [h, ih]

theorem supported_formats_lower :
    ∀ e ∈ SUPPORTED_FORMATS, e.map tolower = e := by
  decide

theorem supported_formats_no_upper :
    ∀ e ∈ SUPPORTED_FORMATS, ∀ c ∈ e, ¬ (65 ≤ c ∧ c ≤ 90) := by
  decide

theorem getFileExtension_append (pre suf : CString) (h : (46 : Int) ∉ suf) :
    getFileExtension (pre ++ 46 :: suf) = (46 :: suf).map tolower := by
  unfold getFileExtension
  rw [find_last_of_append pre suf 46 h]
  simp

theorem tolower_eq_iff (a e : Int) (he : ¬ (65 ≤ e ∧ e ≤ 90)) :
    tolower a = e ↔ charEqIgnoreCase a e = true := by
  unfold tolower charEqIgnoreCase
  simp only [Bool.or_eq_true, Bool.and_eq_true, decide_eq_true_eq]
  split <;> omega

theorem map_tolower_eq_iff (a : CString) :
    ∀ e : CString, (∀ c ∈ e, ¬ (65 ≤ c ∧ c ≤ 90)) →
      (a.map tolower = e ↔ eqIgnoreCase a e = true) := by
  induction a with
  | nil =>
    intro e _
    cases e with
    | nil => simp [eqIgnoreCase]
    | cons c rest => simp [eqIgnoreCase]
  | cons x xs ih =>
    intro e he
    cases e with
    | nil => simp [eqIgnoreCase]
    | cons c rest =>
      have hc := he c (by simp)
      have hrest : ∀ c ∈ rest, ¬ (65 ≤ c ∧ c ≤ 90) := fun d hd => he d (by simp [hd])
      simp only [List.map_cons, List.cons.injEq, eqIgnoreCase, Bool.and_eq_true]
      rw [tolower_eq_iff x c hc, ih rest hrest]

/-- C13: `isSupportedFormat(getFileExtension(path))` is true exactly when the
text from the last `.` of the path to its end equals, ignoring the case of
letters, one of `.jpg`, `.jpeg`, `.png`, `.bmp`, `.tiff`, `.tif`, `.webp`; a path
without any `.` is rejected. -/
theorem isSupportedFormat_getFileExtension (path : CString) :
    (isSupportedFormat (getFileExtension path) = true ↔
      ∃ pre suf, path = pre ++ 46 :: suf ∧ (46 : Int) ∉ suf ∧
        ∃ e ∈ [lit ".jpg", lit ".jpeg", lit ".png", lit ".bmp", lit ".tiff",
                lit ".tif", lit ".webp"], eqIgnoreCase (46 :: suf) e = true) ∧
    ((46 : Int) ∉ path → isSupportedFormat (getFileExtension path) = false) := by
  have hno : (46 : Int) ∉ path → isSupportedFormat (getFileExtension path) = false := by
    intro h
    unfold getFileExtension
    rw [(find_last_of_eq_none path 46).2 h]
    show isSupportedFormat (lit "") = false
    decide
  refine ⟨⟨?_, ?_⟩, hno⟩
  · intro hs
    cases hf : find_last_of path 46 with
    | none =>
      rw [hno ((find_last_of_eq_none path 46).1 hf)] at hs
      cases hs
    | some i =>
      obtain ⟨pre, suf, hp, hn, -⟩ := find_last_of_eq_some path 46 i hf
      refine ⟨pre, suf, hp, hn, ?_⟩
      rw [hp, getFileExtension_append pre suf hn] at hs
      have hmem := (isSupportedLoop_iff _ _).1 hs
      exact ⟨_, hmem,
        (map_tolower_eq_iff _ _ (supported_formats_no_upper _ hmem)).1 rfl⟩
  · rintro ⟨pre, suf, hp, hn, e, he, heq⟩
    rw [hp, getFileExtension_append pre suf hn]
    rw [(map_tolower_eq_iff _ e (supported_formats_no_upper e he)).2 heq]
    exact (isSupportedLoop_iff _ _).2 he

/-- Witness for C13: the upper-case extension of `photo.JPG` is accepted, and
so is the mixed-case one of `scan.v2.TiFf`. -/
theorem isSupportedFormat_getFileExtension_witness :
    eqIgnoreCase (lit ".JPG") (lit ".jpg") = true ∧
    isSupportedFormat (getFileExtension (lit "photo.JPG")) = true ∧
    isSupportedFormat (getFileExtension (lit "scan.v2.TiFf")) = true :=
  ⟨by decide,
   (isSupportedFormat_getFileExtension (lit "photo.JPG")).1.2
     ⟨lit "photo", lit "JPG", by decide, by decide, lit ".jpg", by decide, by decide⟩,
   (isSupportedFormat_getFileExtension (lit "scan.v2.TiFf")).1.2
     ⟨lit "scan.v2", lit "TiFf", by decide, by decide, lit ".tiff", by decide, by decide⟩⟩

/-! ## Debug artifacts -/

theorem dbl_add_fin (a b : ℚ) : Dbl.add (Dbl.fin a) (Dbl.fin b) = Dbl.fin (a + b) := rfl

theorem dbl_lt_fin (a b : ℚ) : Dbl.lt (Dbl.fin a) (Dbl.fin b) = decide (a < b) := rfl

theorem dbl_gt_fin (a b : ℚ) : Dbl.gt (Dbl.fin a) (Dbl.fin b) = decide (b < a) := rfl

theorem dbl_min_fin (a b : ℚ) :
    Dbl.min (Dbl.fin a) (Dbl.fin b) = Dbl.fin (min b a) := by
  unfold Dbl.min
  rw [dbl_lt_fin]
  by_cases h : b < a
  · simp [h, min_eq_left (le_of_lt h)]
  · simp [h, min_eq_right (not_lt.1 h)]

theorem areaTerm_eq (env : Env) (bbox : List Point) (image : Mat) :
    areaTerm env bbox image =
      if Dbl.gt (sizeRatio env bbox image) (Dbl.fin (1 / 10)) = true ∧
          Dbl.lt (sizeRatio env bbox image) (Dbl.fin (8 / 10)) = true then Dbl.fin (4 / 10)
      else if Dbl.gt (sizeRatio env bbox image) (Dbl.fin (5 / 100)) = true ∧
          Dbl.lt (sizeRatio env bbox image) (Dbl.fin (9 / 10)) = true then Dbl.fin (2 / 10)
      else Dbl.fin 0 := by
  simp only [areaTerm, sizeRatio, Bool.and_eq_true]

theorem areaTerm_range (env : Env) (bbox : List Point) (image : Mat) :
    ∃ a : ℚ, areaTerm env bbox image = Dbl.fin a ∧ 0 ≤ a ∧ a ≤ 4 / 10 := by
  rw [areaTerm_eq]
  split
  · exact ⟨_, rfl, by norm_num, le_refl _⟩
  · split
    · exact ⟨_, rfl, by norm_num, by norm_num⟩
    · exact ⟨_, rfl, le_refl _, by norm_num⟩

theorem calculateQualityScore_fin (env : Env) (image : Mat) :
    ∃ score : ℚ, calculateQualityScore env image = Dbl.fin score := by
  unfold calculateQualityScore
  split
  · exact ⟨_, rfl⟩
  · exact ⟨_, rfl⟩

theorem qualityTerm_of_score (env : Env) (image : Mat) (score : ℚ)
    (h : calculateQualityScore env image = Dbl.fin score) :
    qualityTerm env image =
      Dbl.fin (if 100 < score then 3 / 10 else if 50 < score then 15 / 100 else 0) := by
  simp only [qualityTerm, h, dbl_gt_fin]
  by_cases h1 : (100 : ℚ) < score
  · simp [h1]
  · by_cases h2 : (50 : ℚ) < score
    · simp [h1, h2]
    · simp [h1, h2]

theorem qualityTerm_range (env : Env) (image : Mat) :
    ∃ q : ℚ, qualityTerm env image = Dbl.fin q ∧ 0 ≤ q ∧ q ≤ 3 / 10 := by
  obtain ⟨score, hs⟩ := calculateQualityScore_fin env image
  refine ⟨_, qualityTerm_of_score env image score hs, ?_, ?_⟩
  · split
    · norm_num
    · split <;> norm_num
  · split
    · norm_num
    · split <;> norm_num

theorem regularityTerm_range (variance : Dbl) :
    ∃ r : ℚ, regularityTerm variance = Dbl.fin r ∧ 0 ≤ r ∧ r ≤ 3 / 10 := by
  unfold regularityTerm
  split
  · exact ⟨_, rfl, by norm_num, le_refl _⟩
  · split
    · exact ⟨_, rfl, by norm_num, by norm_num⟩
    · exact ⟨_, rfl, le_refl _, by norm_num⟩

theorem calculateConfidence_four (env : Env) (p0 p1 p2 p3 : Point) (image : Mat)
    (a q r : ℚ) (ha : areaTerm env [p0, p1, p2, p3] image = Dbl.fin a)
    (hq : qualityTerm env image = Dbl.fin q)
    (hr : regularityTerm (sideVariance p0 p1 p2 p3) = Dbl.fin r) :
    calculateConfidence env [p0, p1, p2, p3] image = Dbl.fin (min 1 (a + q + r)) := by
  simp only [calculateConfidence, ha, hq, hr, dbl_add_fin, dbl_min_fin, zero_add]

theorem length_eq_four (bbox : List Point) (h : bbox.length = 4) :
    ∃ p0 p1 p2 p3, bbox = [p0, p1, p2, p3] := by
  match bbox, h with
  | [p0, p1, p2, p3], _ => exact ⟨p0, p1, p2, p3, rfl⟩

/-- C11: for every bounding box of 4 points, coincident corners included, and
every non-empty image, `calculateConfidence` returns a finite value `c` with
`0.0 <= c <= 1.0`. -/
theorem calculateConfidence_bounds (env : Env) (bbox : List Point) (image : Mat)
    (hb : bbox.length = 4) (_hi : image.empty = false) :
    ∃ c : ℚ, calculateConfidence env bbox image = Dbl.fin c ∧ 0 ≤ c ∧ c ≤ 1 := by
  obtain ⟨p0, p1, p2, p3, rfl⟩ := length_eq_four bbox hb
  obtain ⟨a, ha, ha0, -⟩ := areaTerm_range env [p0, p1, p2, p3] image
  obtain ⟨q, hq, hq0, -⟩ := qualityTerm_range env image
  obtain ⟨r, hr, hr0, -⟩ := regularityTerm_range (sideVariance p0 p1 p2 p3)
  refine ⟨_, calculateConfidence_four env p0 p1 p2 p3 image a q r ha hq hr, ?_, min_le_left _ _⟩
  exact le_min zero_le_one (by linarith)

/-- Witness for C11: four coincident corners on a 400 x 400 image. -/
theorem calculateConfidence_bounds_witness :
    [Point.mk 7 7, Point.mk 7 7, Point.mk 7 7, Point.mk 7 7].length = 4 ∧
    img400.empty = false ∧
    ∃ c : ℚ,
      calculateConfidence envHello
        [Point.mk 7 7, Point.mk 7 7, Point.mk 7 7, Point.mk 7 7] img400 = Dbl.fin c ∧
      0 ≤ c ∧ c ≤ 1 :=
  ⟨by decide, by decide,
   calculateConfidence_bounds envHello _ img400 (by decide) (by decide)⟩

/-! ## The area term -/

theorem areaTerm_of_ratio (env : Env) (bbox : List Point) (image : Mat) (ratio : ℚ)
    (h : sizeRatio env bbox image = Dbl.fin ratio) :
    areaTerm env bbox image =
      if 1 / 10 < ratio ∧ ratio < 8 / 10 then Dbl.fin (4 / 10)
      else if 5 / 100 < ratio ∧ ratio < 9 / 10 then Dbl.fin (2 / 10)
      else Dbl.fin 0 := by
  rw [areaTerm_eq, h]
  simp only [dbl_gt_fin, dbl_lt_fin, decide_eq_true_eq]

theorem sizeRatio_of_inRange (env : Env) (bbox : List Point) (image : Mat)
    (hi : image.empty = false)
    (hr : (image.cols : Int) * (image.rows : Int) ≤ 2147483647) :
    sizeRatio env bbox image =
      Dbl.fin (env.contourArea bbox / ((image.cols : ℚ) * (image.rows : ℚ))) := by
  have hrows : image.rows ≠ 0 := by
    intro h0; simp [Mat.empty, h0] at hi
  have hcols : image.cols ≠ 0 := by
    intro h0; simp [Mat.empty, h0] at hi
  have hpos : (0 : Int) < (image.cols : Int) * (image.rows : Int) :=
    Int.mul_pos (by omega) (by omega)
  have hw : wrapInt32 ((image.cols : Int) * (image.rows : Int)) =
      (image.cols : Int) * (image.rows : Int) :=
    wrapInt32_of_inRange _ (by omega) hr
  have hq : ((image.cols : ℚ) * (image.rows : ℚ)) ≠ 0 := by
    apply mul_ne_zero <;> exact_mod_cast (by assumption)
  unfold sizeRatio
  rw [hw]
  simp only [Dbl.ofInt, Dbl.div, Int.cast_mul, Int.cast_natCast, hq, if_false]

/-- The area term for an image whose pixel count fits an `int`: the bands of
the exact ratio of the contour area to `width * height`. -/
theorem areaTerm_of_inRange (env : Env) (bbox : List Point) (image : Mat)
    (hi : image.empty = false)
    (hr : (image.cols : Int) * (image.rows : Int) ≤ 2147483647) :
    areaTerm env bbox image =
      if 1 / 10 < env.contourArea bbox / ((image.cols : ℚ) * (image.rows : ℚ)) ∧
          env.contourArea bbox / ((image.cols : ℚ) * (image.rows : ℚ)) < 8 / 10 then
        Dbl.fin (4 / 10)
      else if
          (5 / 100 < env.contourArea bbox / ((image.cols : ℚ) * (image.rows : ℚ)) ∧
            env.contourArea bbox / ((image.cols : ℚ) * (image.rows : ℚ)) ≤ 1 / 10) ∨
          (8 / 10 ≤ env.contourArea bbox / ((image.cols : ℚ) * (image.rows : ℚ)) ∧
            env.contourArea bbox / ((image.cols : ℚ) * (image.rows : ℚ)) < 9 / 10) then
        Dbl.fin (2 / 10)
      else Dbl.fin 0 := by
  rw [areaTerm_of_ratio env bbox image _ (sizeRatio_of_inRange env bbox image hi hr)]
  generalize env.contourArea bbox / ((image.cols : ℚ) * (image.rows : ℚ)) = ratio
  by_cases h1 : 1 / 10 < ratio ∧ ratio < 8 / 10
  · simp only [h1, and_self, if_true]
  · rw [if_neg h1, if_neg h1]
    by_cases h2 : 5 / 100 < ratio ∧ ratio < 9 / 10
    · rw [if_pos h2, if_pos]
      rw [not_and_or, not_lt, not_lt] at h1
      rcases h1 with h1 | h1
      · exact Or.inl ⟨h2.1, h1⟩
      · exact Or.inr ⟨h1, h2.2⟩
    · rw [if_neg h2, if_neg]
      rintro (⟨h3, h4⟩ | ⟨h3, h4⟩)
      · exact h2 ⟨h3, lt_of_le_of_lt h4 (by norm_num)⟩
      · exact h2 ⟨lt_of_lt_of_le (by norm_num) h3, h4⟩

theorem shoelaceArea_boxFifth : shoelaceArea boxFifth = 500000000 := by
  have h : shoelaceTwice boxFifth = 1000000000 := by decide
  unfold shoelaceArea
  rw [h]
  norm_num

/-- C14 at a 50000 x 50000 image: the rectangle `boxFifth` covers exactly a
fifth of the frame, a ratio inside `(0.1, 0.8)`, yet the `int` product
`image.cols * image.rows` has wrapped to -1794967296, the computed ratio is
negative and the area term is 0, not 0.4. -/
theorem areaTerm_overflow :
    imgHuge.empty = false ∧ boxFifth.length = 4 ∧
    envGeom.contourArea boxFifth /
      ((imgHuge.cols : ℚ) * (imgHuge.rows : ℚ)) = 1 / 5 ∧
    wrapInt32 ((imgHuge.cols : Int) * (imgHuge.rows : Int)) = -1794967296 ∧
    sizeRatio envGeom boxFifth imgHuge = Dbl.fin (500000000 / (-1794967296)) ∧
    areaTerm envGeom boxFifth imgHuge = Dbl.fin 0 := by
  have hw : wrapInt32 ((imgHuge.cols : Int) * (imgHuge.rows : Int)) = -1794967296 := by
    decide
  have ha : envGeom.contourArea boxFifth = 500000000 := shoelaceArea_boxFifth
  have hs : sizeRatio envGeom boxFifth imgHuge = Dbl.fin (500000000 / (-1794967296)) := by
    unfold sizeRatio
    rw [hw, ha]
    norm_num [Dbl.ofInt, Dbl.div]
  refine ⟨by decide, by decide, ?_, hw, hs, ?_⟩
  · rw [ha]
    norm_num [imgHuge]
  · rw [areaTerm_of_ratio envGeom boxFifth imgHuge _ hs]
    norm_num

/-! ## Output size of the enhancement -/

theorem cvRound_abs_sub_le (q : ℚ) : |(cvRound q : ℚ) - q| ≤ 1 / 2 := by
  have h1 : ((Int.floor q : Int) : ℚ) ≤ q := Int.floor_le q
  have h2 : q < ((Int.floor q : Int) : ℚ) + 1 := Int.lt_floor_add_one q
  unfold cvRound
  simp only
  rw [abs_le]
  split
  · constructor <;> linarith
  · rename_i hlt
    have hge : 1 / 2 ≤ q - ((Int.floor q : Int) : ℚ) := not_lt.1 hlt
    split
    · push_cast; constructor <;> linarith
    · rename_i hgt
      have hle : q - ((Int.floor q : Int) : ℚ) ≤ 1 / 2 := not_lt.1 hgt
      split
      · constructor <;> linarith
      · push_cast; constructor <;> linarith

theorem rnd_zero : rnd 0 = 0 := by simp [rnd]

theorem sqrt64_zero : sqrt64 0 = 0 := by simp [sqrt64]

theorem two_zpow_pos (e : Int) : (0 : ℚ) < (2 : ℚ) ^ e := zpow_pos (by norm_num) e

theorem log_two_eq (x : ℚ) (k : Int) (h1 : (2 : ℚ) ^ k ≤ x) (h2 : x < (2 : ℚ) ^ (k + 1)) :
    Int.log 2 x = k := by
  have hx : 0 < x := lt_of_lt_of_le (two_zpow_pos k) h1
  have a : k ≤ Int.log 2 x := (Int.zpow_le_iff_le_log (by norm_num) hx).1 (by exact_mod_cast h1)
  have b : Int.log 2 x < k + 1 :=
    (Int.lt_zpow_iff_log_lt (by norm_num) hx).1 (by exact_mod_cast h2)
  omega

/-- The relative error of one rounding is at most `2 ^ (-53)`. -/
theorem rnd_abs_sub_le (x : ℚ) : |rnd x - x| ≤ |x| / 2 ^ 53 := by
  unfold rnd
  split
  · rename_i h; simp [h]
  · rename_i h
    simp only
    have hx : 0 < |x| := abs_pos.2 h
    set e : Int := Int.log 2 |x| - 52 with he
    have hp : (0 : ℚ) < (2 : ℚ) ^ e := two_zpow_pos e
    have hlog : ((2 : ℕ) : ℚ) ^ Int.log 2 |x| ≤ |x| := Int.zpow_log_le_self (by norm_num) hx
    have hsplit : ((2 : ℕ) : ℚ) ^ Int.log 2 |x| = (2 : ℚ) ^ e * 2 ^ 52 := by
      have : Int.log 2 |x| = e + 52 := by omega
      rw [this, zpow_add₀ (by norm_num)]
      norm_num
    have hc := cvRound_abs_sub_le (x / (2 : ℚ) ^ e)
    have key : (cvRound (x / (2 : ℚ) ^ e) : ℚ) * (2 : ℚ) ^ e - x =
        ((cvRound (x / (2 : ℚ) ^ e) : ℚ) - x / (2 : ℚ) ^ e) * (2 : ℚ) ^ e := by
      field_simp
    rw [key, abs_mul, abs_of_pos hp]
    have h3 : |(cvRound (x / (2 : ℚ) ^ e) : ℚ) - x / (2 : ℚ) ^ e| * (2 : ℚ) ^ e ≤
        1 / 2 * (2 : ℚ) ^ e := mul_le_mul_of_nonneg_right hc (le_of_lt hp)
    have h4 : 1 / 2 * (2 : ℚ) ^ e ≤ |x| / 2 ^ 53 := by
      rw [le_div_iff₀ (by norm_num)]
      rw [hsplit] at hlog
      linarith
    linarith

theorem cvRound_of_near (q : ℚ) (m : Int) (h1 : (m : ℚ) - 1 / 2 < q) (h2 : q < (m : ℚ) + 1 / 2) :
    cvRound q = m := by
  by_cases hq : (m : ℚ) ≤ q
  · have hf : Int.floor q = m := Int.floor_eq_iff.2 ⟨hq, by linarith⟩
    unfold cvRound
    simp only [hf]
    rw [if_pos (by linarith)]
  · have hq2 : q < (m : ℚ) := not_le.1 hq
    have hf : Int.floor q = m - 1 :=
      Int.floor_eq_iff.2 ⟨by push_cast; linarith, by push_cast; linarith⟩
    unfold cvRound
    simp only [hf]
    rw [if_neg (by push_cast; linarith), if_pos (by push_cast; linarith)]
    ring

theorem cvRound_of_tie_up (m : Int) (hm : m % 2 = 0) : cvRound ((m : ℚ) - 1 / 2) = m := by
  have hf : Int.floor ((m : ℚ) - 1 / 2) = m - 1 :=
    Int.floor_eq_iff.2 ⟨by push_cast; linarith, by push_cast; linarith⟩
  unfold cvRound
  simp only [hf]
  rw [if_neg (by push_cast; linarith), if_neg (by push_cast; linarith), if_neg (by omega)]
  ring

theorem cvRound_of_tie_down (m : Int) (hm : m % 2 = 0) : cvRound ((m : ℚ) + 1 / 2) = m := by
  have hf : Int.floor ((m : ℚ) + 1 / 2) = m :=
    Int.floor_eq_iff.2 ⟨by linarith, by linarith⟩
  unfold cvRound
  simp only [hf]
  rw [if_neg (by linarith), if_neg (by linarith), if_pos hm]

theorem rnd_of_cvRound (x : ℚ) (e m : Int) (h1 : (2 : ℚ) ^ (e + 52) ≤ |x|)
    (h2 : |x| < (2 : ℚ) ^ (e + 52 + 1)) (hm : cvRound (x / (2 : ℚ) ^ e) = m) :
    rnd x = (m : ℚ) * (2 : ℚ) ^ e := by
  have hx : x ≠ 0 := by
    intro h
    rw [h, abs_zero] at h1
    exact absurd h1 (not_le.2 (two_zpow_pos _))
  have hl : Int.log 2 |x| - 52 = e := by
    rw [log_two_eq |x| (e + 52) h1 h2]
    omega
  unfold rnd
  rw [if_neg hx]
  simp only [hl, hm]

/-- One rounding, evaluated: `x` lies in the binade of exponent `e + 52` and
`m` is the integer nearest to `x / 2 ^ e`. -/
theorem rnd_of_near (x : ℚ) (e m : Int) (h1 : (2 : ℚ) ^ (e + 52) ≤ |x|)
    (h2 : |x| < (2 : ℚ) ^ (e + 52 + 1)) (h3 : (m : ℚ) - 1 / 2 < x / (2 : ℚ) ^ e)
    (h4 : x / (2 : ℚ) ^ e < (m : ℚ) + 1 / 2) :
    rnd x = (m : ℚ) * (2 : ℚ) ^ e :=
  rnd_of_cvRound x e m h1 h2 (cvRound_of_near _ m h3 h4)

theorem sqrt64_of_near (x : ℚ) (e : Int) (l m : Nat) (hl : l + 1 = 2 * m)
    (h1 : (2 : ℚ) ^ (2 * (e + 52)) ≤ x) (h2 : x < (2 : ℚ) ^ (2 * (e + 52) + 2))
    (h3 : ((l * l : Nat) : ℚ) ≤ 4 * (x / (4 : ℚ) ^ e))
    (h4 : 4 * (x / (4 : ℚ) ^ e) < (((l + 2) * (l + 2) : Nat) : ℚ)) :
    sqrt64 x = (m : ℚ) * (2 : ℚ) ^ e := by
  have hx : 0 < x := lt_of_lt_of_le (two_zpow_pos _) h1
  have a : 2 * (e + 52) ≤ Int.log 2 x :=
    (Int.zpow_le_iff_le_log (by norm_num) hx).1 (by exact_mod_cast h1)
  have b : Int.log 2 x < 2 * (e + 52) + 2 :=
    (Int.lt_zpow_iff_log_lt (by norm_num) hx).1 (by exact_mod_cast h2)
  have he : Int.log 2 x / 2 - 52 = e := by omega
  have hy : (0 : ℚ) ≤ 4 * (x / (4 : ℚ) ^ e) := by positivity
  have t1 : l ≤ Nat.sqrt (Nat.floor (4 * (x / (4 : ℚ) ^ e))) :=
    Nat.le_sqrt.2 (Nat.le_floor h3)
  have t2 : Nat.sqrt (Nat.floor (4 * (x / (4 : ℚ) ^ e))) < l + 2 :=
    Nat.sqrt_lt.2 ((Nat.floor_lt hy).2 h4)
  have hm : (Nat.sqrt (Nat.floor (4 * (x / (4 : ℚ) ^ e))) + 1) / 2 = m := by omega
  unfold sqrt64
  rw [if_neg (not_le.2 hx)]
  simp only [he, hm]

theorem rnd_le_of_nonneg (x : ℚ) (hx : 0 ≤ x) : rnd x ≤ (1 + 1 / 2 ^ 53) * x := by
  have h := rnd_abs_sub_le x
  rw [abs_of_nonneg hx] at h
  have := (abs_le.1 h).2
  linarith

theorem rnd_ge_of_nonneg (x : ℚ) (hx : 0 ≤ x) : (1 - 1 / 2 ^ 53) * x ≤ rnd x := by
  have h := rnd_abs_sub_le x
  rw [abs_of_nonneg hx] at h
  have := (abs_le.1 h).1
  linarith

theorem rnd_nonneg (x : ℚ) (hx : 0 ≤ x) : 0 ≤ rnd x :=
  le_trans (mul_nonneg (by norm_num) hx) (rnd_ge_of_nonneg x hx)

theorem rnd_le_crude (x : ℚ) (hx : 0 ≤ x) : rnd x ≤ 1001 / 1000 * x := by
  have h := rnd_le_of_nonneg x hx
  have : (1 + 1 / 2 ^ 53) * x ≤ 1001 / 1000 * x :=
    mul_le_mul_of_nonneg_right (by norm_num) hx
  linarith

theorem rnd_ge_crude (x : ℚ) (hx : 0 ≤ x) : 999 / 1000 * x ≤ rnd x := by
  have h := rnd_ge_of_nonneg x hx
  have : 999 / 1000 * x ≤ (1 - 1 / 2 ^ 53) * x :=
    mul_le_mul_of_nonneg_right (by norm_num) hx
  linarith

theorem abs_rnd_le_crude (x : ℚ) : |rnd x| ≤ 1001 / 1000 * |x| := by
  have h := rnd_abs_sub_le x
  have h1 : |rnd x| ≤ |rnd x - x| + |x| := by
    have := abs_add (rnd x - x) x
    simpa using this
  have h2 : |x| / 2 ^ 53 ≤ 1 / 1000 * |x| := by
    have := abs_nonneg x
    rw [div_le_iff₀ (by norm_num)]
    linarith
  linarith

theorem four_zpow (e : Int) : (4 : ℚ) ^ e = (2 : ℚ) ^ e * (2 : ℚ) ^ e := by
  rw [← mul_zpow]
  norm_num

/-- The square of `sqrt64 y` is within relative error `2 ^ (-52)`, squared, of
`y`. -/
theorem sqrt64_sq_bounds (y : ℚ) (hy : 0 < y) :
    0 < sqrt64 y ∧ (1 - 1 / 2 ^ 52) ^ 2 * y ≤ sqrt64 y ^ 2 ∧
      sqrt64 y ^ 2 ≤ (1 + 1 / 2 ^ 52) ^ 2 * y := by
  unfold sqrt64
  rw [if_neg (not_le.2 hy)]
  simp only
  have hlo : ((2 : ℕ) : ℚ) ^ Int.log 2 y ≤ y := Int.zpow_log_le_self (by norm_num) hy
  generalize hL : Int.log 2 y = L at hlo
  generalize he : L / 2 - 52 = e
  have hp : (0 : ℚ) < (2 : ℚ) ^ e := two_zpow_pos e
  have hp4 : (0 : ℚ) < (4 : ℚ) ^ e := zpow_pos (by norm_num) e
  have hY : (2 : ℚ) ^ (104 : ℕ) ≤ y / (4 : ℚ) ^ e := by
    rw [le_div_iff₀ hp4]
    have h1 : (2 : ℚ) ^ (2 * e + 104) ≤ ((2 : ℕ) : ℚ) ^ L := by
      have : 2 * e + 104 ≤ L := by omega
      exact_mod_cast zpow_le_zpow_right₀ (by norm_num : (1 : ℚ) ≤ 2) this
    have h2 : (2 : ℚ) ^ (2 * e + 104) = (2 : ℚ) ^ (104 : ℕ) * (4 : ℚ) ^ e := by
      rw [zpow_add₀ (by norm_num), two_mul, zpow_add₀ (by norm_num), four_zpow]
      norm_cast
      ring
    linarith
  generalize hYd : y / (4 : ℚ) ^ e = Y at hY
  have hy' : y = Y * (4 : ℚ) ^ e := by
    rw [← hYd]
    field_simp
  have hY0 : (0 : ℚ) ≤ 4 * Y := by linarith [pow_pos (by norm_num : (0 : ℚ) < 2) 104]
  have hN1 : ((Nat.floor (4 * Y) : ℕ) : ℚ) ≤ 4 * Y := Nat.floor_le hY0
  have hN2 : 4 * Y < ((Nat.floor (4 * Y) : ℕ) : ℚ) + 1 := Nat.lt_floor_add_one _
  have hN3 : 2 ^ 106 ≤ Nat.floor (4 * Y) := by
    apply Nat.le_floor
    push_cast
    linarith
  generalize Nat.floor (4 * Y) = N at hN1 hN2 hN3
  have ht1 : Nat.sqrt N * Nat.sqrt N ≤ N := Nat.sqrt_le N
  have ht2 : N < (Nat.sqrt N + 1) * (Nat.sqrt N + 1) := Nat.lt_succ_sqrt N
  have ht3 : 2 ^ 53 ≤ Nat.sqrt N := Nat.le_sqrt.2 (le_trans (by norm_num) hN3)
  generalize Nat.sqrt N = t at ht1 ht2 ht3
  obtain ⟨m, hm⟩ : ∃ m, (t + 1) / 2 = m := ⟨_, rfl⟩
  rw [hm]
  have hm1 : 2 * m ≤ t + 1 := by omega
  have hm2 : t ≤ 2 * m := by omega
  have hm3 : 2 ^ 52 ≤ m := by omega
  have hmq : (2 : ℚ) ^ 52 ≤ (m : ℚ) := by exact_mod_cast hm3
  have q1 : ((t : ℚ)) * t ≤ 4 * Y := by
    have : ((t * t : ℕ) : ℚ) ≤ (N : ℚ) := by exact_mod_cast ht1
    push_cast at this
    linarith
  have q2 : 4 * Y < ((t : ℚ) + 1) * (t + 1) := by
    have : ((N + 1 : ℕ) : ℚ) ≤ (((t + 1) * (t + 1) : ℕ) : ℚ) := by exact_mod_cast ht2
    push_cast at this
    linarith
  have r1 : (2 * (m : ℚ) - 1) ≤ t := by
    have : ((2 * m : ℕ) : ℚ) ≤ ((t + 1 : ℕ) : ℚ) := by exact_mod_cast hm1
    push_cast at this
    linarith
  have r2 : (t : ℚ) ≤ 2 * m := by exact_mod_cast hm2
  have b1 : (2 * (m : ℚ) - 1) * (2 * m - 1) ≤ 4 * Y := by
    have : (2 * (m : ℚ) - 1) * (2 * m - 1) ≤ (t : ℚ) * t :=
      mul_self_le_mul_self (by linarith) r1
    linarith
  have b2 : 4 * Y < (2 * (m : ℚ) + 1) * (2 * m + 1) := by
    have : ((t : ℚ) + 1) * (t + 1) ≤ (2 * (m : ℚ) + 1) * (2 * m + 1) :=
      mul_self_le_mul_self (by positivity) (by linarith)
    linarith
  have c1 : (m : ℚ) * m ≤ (1 + 1 / 2 ^ 52) ^ 2 * Y := by
    have h : 2 * (m : ℚ) ≤ (1 + 1 / 2 ^ 52) * (2 * m - 1) := by
      have : (1 : ℚ) ≤ 1 / 2 ^ 52 * (2 * m - 1) := by
        rw [div_mul_eq_mul_div, le_div_iff₀ (by norm_num)]
        linarith
      linarith
    have h2 : (2 * (m : ℚ)) * (2 * m) ≤
        ((1 + 1 / 2 ^ 52) * (2 * m - 1)) * ((1 + 1 / 2 ^ 52) * (2 * m - 1)) :=
      mul_self_le_mul_self (by positivity) h
    have h3 : ((1 + 1 / 2 ^ 52) * (2 * (m : ℚ) - 1)) * ((1 + 1 / 2 ^ 52) * (2 * m - 1)) ≤
        (1 + 1 / 2 ^ 52) ^ 2 * (4 * Y) := by
      have := mul_le_mul_of_nonneg_left b1 (by positivity : (0 : ℚ) ≤ (1 + 1 / 2 ^ 52) ^ 2)
      calc ((1 + 1 / 2 ^ 52) * (2 * (m : ℚ) - 1)) * ((1 + 1 / 2 ^ 52) * (2 * m - 1))
          = (1 + 1 / 2 ^ 52) ^ 2 * ((2 * (m : ℚ) - 1) * (2 * m - 1)) := by ring
        _ ≤ _ := this
    linarith
  have c2 : (1 - 1 / 2 ^ 52) ^ 2 * Y ≤ (m : ℚ) * m := by
    have h : (1 - 1 / 2 ^ 52) * (2 * (m : ℚ) + 1) ≤ 2 * m := by
      have : (0 : ℚ) ≤ 1 / 2 ^ 52 * (2 * m + 1) := by positivity
      have : (1 : ℚ) ≤ 1 / 2 ^ 52 * (2 * m + 1) := by
        rw [div_mul_eq_mul_div, le_div_iff₀ (by norm_num)]
        linarith
      linarith
    have h0 : (0 : ℚ) ≤ (1 - 1 / 2 ^ 52) * (2 * (m : ℚ) + 1) :=
      mul_nonneg (by norm_num) (by positivity)
    have h2 : ((1 - 1 / 2 ^ 52) * (2 * (m : ℚ) + 1)) * ((1 - 1 / 2 ^ 52) * (2 * m + 1)) ≤
        (2 * (m : ℚ)) * (2 * m) := mul_self_le_mul_self h0 h
    have h3 : (1 - 1 / 2 ^ 52) ^ 2 * (4 * Y) ≤
        ((1 - 1 / 2 ^ 52) * (2 * (m : ℚ) + 1)) * ((1 - 1 / 2 ^ 52) * (2 * m + 1)) := by
      have := mul_le_mul_of_nonneg_left (le_of_lt b2)
        (by positivity : (0 : ℚ) ≤ (1 - 1 / 2 ^ 52) ^ 2)
      calc (1 - 1 / 2 ^ 52) ^ 2 * (4 * Y)
          ≤ (1 - 1 / 2 ^ 52) ^ 2 * ((2 * (m : ℚ) + 1) * (2 * m + 1)) := this
        _ = _ := by ring
    linarith
  have hmpos : (0 : ℚ) < (m : ℚ) := lt_of_lt_of_le (by norm_num) hmq
  refine ⟨mul_pos hmpos hp, ?_, ?_⟩
  · rw [hy', mul_pow, ← mul_assoc, sq ((2 : ℚ) ^ e), ← four_zpow, sq (m : ℚ)]
    exact mul_le_mul_of_nonneg_right c2 (le_of_lt hp4)
  · rw [hy', mul_pow, ← mul_assoc, sq ((2 : ℚ) ^ e), ← four_zpow, sq (m : ℚ)]
    exact mul_le_mul_of_nonneg_right c1 (le_of_lt hp4)

/-- Every non-zero double is `m * 2 ^ e` with a significand `m` of 53 bits. -/
theorem rnd_grid (x : ℚ) (hx : x ≠ 0) :
    ∃ e m : Int, rnd x = (m : ℚ) * (2 : ℚ) ^ e ∧
      ((2 ^ 52 ≤ m ∧ m ≤ 2 ^ 53) ∨ (-(2 ^ 53) ≤ m ∧ m ≤ -(2 ^ 52))) := by
  unfold rnd
  rw [if_neg hx]
  simp only
  have hax : 0 < |x| := abs_pos.2 hx
  have hlo : ((2 : ℕ) : ℚ) ^ Int.log 2 |x| ≤ |x| := Int.zpow_log_le_self (by norm_num) hax
  have hhi : |x| < ((2 : ℕ) : ℚ) ^ (Int.log 2 |x| + 1) :=
    Int.lt_zpow_succ_log_self (by norm_num) |x|
  generalize he : Int.log 2 |x| - 52 = e
  have hL : Int.log 2 |x| = e + 52 := by omega
  rw [hL] at hlo hhi
  have hp : (0 : ℚ) < (2 : ℚ) ^ e := two_zpow_pos e
  have e1 : ((2 : ℕ) : ℚ) ^ (e + 52) = (2 : ℚ) ^ e * 2 ^ 52 := by
    rw [zpow_add₀ (by norm_num)]
    norm_num
  have e2 : ((2 : ℕ) : ℚ) ^ (e + 52 + 1) = (2 : ℚ) ^ e * 2 ^ 53 := by
    rw [add_assoc, zpow_add₀ (by norm_num)]
    norm_num
  rw [e1] at hlo
  rw [e2] at hhi
  have q1 : (2 : ℚ) ^ 52 ≤ |x / (2 : ℚ) ^ e| := by
    rw [abs_div, abs_of_pos hp, le_div_iff₀ hp]
    linarith
  have q2 : |x / (2 : ℚ) ^ e| < (2 : ℚ) ^ 53 := by
    rw [abs_div, abs_of_pos hp, div_lt_iff₀ hp]
    linarith
  have hc := abs_le.1 (cvRound_abs_sub_le (x / (2 : ℚ) ^ e))
  generalize x / (2 : ℚ) ^ e = q at q1 q2 hc
  refine ⟨e, cvRound q, rfl, ?_⟩
  generalize cvRound q = m at hc
  rcases le_or_lt 0 q with h0 | h0
  · rw [abs_of_nonneg h0] at q1 q2
    left
    have a : ((2 ^ 52 - 1 : Int) : ℚ) < (m : ℚ) := by push_cast; linarith
    have b : (m : ℚ) < ((2 ^ 53 + 1 : Int) : ℚ) := by push_cast; linarith
    have a2 : (2 ^ 52 - 1 : Int) < m := by exact_mod_cast a
    have b2 : m < (2 ^ 53 + 1 : Int) := by exact_mod_cast b
    constructor <;> omega
  · rw [abs_of_neg h0] at q1 q2
    right
    have a : (m : ℚ) < ((-(2 ^ 52) + 1 : Int) : ℚ) := by push_cast; linarith
    have b : ((-(2 ^ 53) - 1 : Int) : ℚ) < (m : ℚ) := by push_cast; linarith
    have a2 : m < (-(2 ^ 52) + 1 : Int) := by exact_mod_cast a
    have b2 : (-(2 ^ 53) - 1 : Int) < m := by exact_mod_cast b
    constructor <;> omega

theorem rnd_tenth : rnd (1 / 10) = 3602879701896397 / 36028797018963968 :=
  (rnd_of_near (1 / 10) (-56) 7205759403792794
    (by rw [abs_of_pos (by norm_num : (0 : ℚ) < 1 / 10)]; norm_num)
    (by rw [abs_of_pos (by norm_num : (0 : ℚ) < 1 / 10)]; norm_num) (by norm_num)
    (by norm_num)).trans (by norm_num)

theorem rnd_fifth : rnd (2 / 10) = 3602879701896397 / 18014398509481984 :=
  (rnd_of_near (2 / 10) (-55) 7205759403792794
    (by rw [abs_of_pos (by norm_num : (0 : ℚ) < 2 / 10)]; norm_num)
    (by rw [abs_of_pos (by norm_num : (0 : ℚ) < 2 / 10)]; norm_num) (by norm_num)
    (by norm_num)).trans (by norm_num)

/-- No double lies in the interval from `c / 10` up to the double nearest to it,
for `c = 2 ^ k`: a positive double `m * 2 ^ e` below `7205759403792794 * 2 ^ j`
is below `2 ^ (j + 56) / 10`. -/
theorem double_lt_of_lt (v : ℚ) (e m j : Int) (hv : v = (m : ℚ) * (2 : ℚ) ^ e)
    (hm : (2 ^ 52 ≤ m ∧ m ≤ 2 ^ 53) ∨ (-(2 ^ 53) ≤ m ∧ m ≤ -(2 ^ 52)))
    (h : v < 7205759403792794 * (2 : ℚ) ^ j) : v < (2 : ℚ) ^ j * (2 ^ 56 / 10) := by
  have hp : (0 : ℚ) < (2 : ℚ) ^ e := two_zpow_pos e
  have hj : (0 : ℚ) < (2 : ℚ) ^ j := two_zpow_pos j
  rcases hm with ⟨m1, m2⟩ | ⟨m1, m2⟩
  · have m1q : (2 : ℚ) ^ 52 ≤ (m : ℚ) := by exact_mod_cast m1
    have m2q : (m : ℚ) ≤ (2 : ℚ) ^ 53 := by exact_mod_cast m2
    rcases lt_trichotomy e j with hlt | heq | hgt
    · have : (2 : ℚ) ^ e ≤ (2 : ℚ) ^ (j - 1) :=
        zpow_le_zpow_right₀ (by norm_num) (by omega)
      have h2 : (2 : ℚ) ^ (j - 1) = (2 : ℚ) ^ j / 2 := by
        rw [zpow_sub₀ (by norm_num)]
        norm_num
      have : v ≤ 2 ^ 53 * ((2 : ℚ) ^ j / 2) := by
        rw [hv]
        exact mul_le_mul m2q (by linarith) (le_of_lt hp) (by norm_num)
      linarith
    · subst heq
      rw [hv] at h ⊢
      have h3 : (m : ℚ) < 7205759403792794 := lt_of_mul_lt_mul_right h (le_of_lt hp)
      have h4 : m < 7205759403792794 := by exact_mod_cast h3
      have h5 : m ≤ 7205759403792793 := by omega
      have h6 : (m : ℚ) ≤ 7205759403792793 := by exact_mod_cast h5
      have : (m : ℚ) * (2 : ℚ) ^ e ≤ 7205759403792793 * (2 : ℚ) ^ e :=
        mul_le_mul_of_nonneg_right h6 (le_of_lt hp)
      linarith
    · have : (2 : ℚ) ^ (j + 1) ≤ (2 : ℚ) ^ e :=
        zpow_le_zpow_right₀ (by norm_num) (by omega)
      have h2 : (2 : ℚ) ^ (j + 1) = (2 : ℚ) ^ j * 2 := by
        rw [zpow_add₀ (by norm_num)]
        norm_num
      have : 2 ^ 52 * ((2 : ℚ) ^ j * 2) ≤ v := by
        rw [hv]
        exact mul_le_mul m1q (by linarith) (by positivity) (by linarith)
      linarith
  · have m2q : (m : ℚ) ≤ -(2 : ℚ) ^ 52 := by exact_mod_cast m2
    have : v < 0 := by
      rw [hv]
      exact mul_neg_of_neg_of_pos (by linarith) hp
    have : (0 : ℚ) < (2 : ℚ) ^ j * (2 ^ 56 / 10) := by positivity
    linarith

/-- A double is below the double 0.1 exactly when it is below `1 / 10`. -/
theorem rnd_lt_tenth_iff (x : ℚ) : rnd x < rnd (1 / 10) ↔ rnd x < 1 / 10 := by
  rw [rnd_tenth]
  constructor
  · intro h
    by_cases hx : x = 0
    · rw [hx, rnd_zero]; norm_num
    · obtain ⟨e, m, hv, hm⟩ := rnd_grid x hx
      have := double_lt_of_lt (rnd x) e m (-56) hv hm
        (lt_of_lt_of_eq h (by norm_num))
      exact lt_of_lt_of_eq this (by norm_num)
  · intro h
    exact lt_trans h (by norm_num)

/-- A double is below the double 0.2 exactly when it is below `2 / 10`. -/
theorem rnd_lt_fifth_iff (x : ℚ) : rnd x < rnd (2 / 10) ↔ rnd x < 2 / 10 := by
  rw [rnd_fifth]
  constructor
  · intro h
    by_cases hx : x = 0
    · rw [hx, rnd_zero]; norm_num
    · obtain ⟨e, m, hv, hm⟩ := rnd_grid x hx
      have := double_lt_of_lt (rnd x) e m (-55) hv hm
        (lt_of_lt_of_eq h (by norm_num))
      exact lt_of_lt_of_eq this (by norm_num)
  · intro h
    exact lt_trans h (by norm_num)

/-! ## The regularity term -/

theorem dbl_div_fin (a b : ℚ) (hb : b ≠ 0) :
    Dbl.div (Dbl.fin a) (Dbl.fin b) = Dbl.fin (a / b) := by
  simp [Dbl.div, hb]

theorem dbl_sub_fin (a b : ℚ) : Dbl.sub (Dbl.fin a) (Dbl.fin b) = Dbl.fin (a - b) := by
  simp [Dbl.sub, Dbl.neg, Dbl.add, sub_eq_add_neg]

theorem dbl_abs_fin (a : ℚ) : Dbl.abs (Dbl.fin a) = Dbl.fin |a| := rfl

theorem dbl_round_fin (a : ℚ) : Dbl.round (Dbl.fin a) = Dbl.fin (rnd a) := rfl

theorem sideLength_eq (p q : Point) : sideLength p q = Dbl.fin (sideValue p q) := rfl

theorem sideVariance_of_sides (p0 p1 p2 p3 : Point) (s0 s1 s2 s3 : ℚ)
    (h0 : sideLength p0 p1 = Dbl.fin s0) (h1 : sideLength p1 p2 = Dbl.fin s1)
    (h2 : sideLength p2 p3 = Dbl.fin s2) (h3 : sideLength p3 p0 = Dbl.fin s3) :
    sideVariance p0 p1 p2 p3 =
      Dbl.round (Dbl.div (Dbl.fin (sideDeviation s0 s1 s2 s3))
        (Dbl.fin (avgSide s0 s1 s2 s3))) := by
  unfold sideLength at h0 h1 h2 h3
  unfold sideVariance
  simp only [h0, h1, h2, h3, dbl_add_fin, dbl_sub_fin, dbl_abs_fin, dbl_round_fin,
    dbl_div_fin _ 4 (by norm_num), sideDeviation, avgSide]

theorem sideVariance_eq (p0 p1 p2 p3 : Point) :
    sideVariance p0 p1 p2 p3 =
      Dbl.round (Dbl.div
        (Dbl.fin (sideDeviation (sideValue p0 p1) (sideValue p1 p2) (sideValue p2 p3)
          (sideValue p3 p0)))
        (Dbl.fin (avgSide (sideValue p0 p1) (sideValue p1 p2) (sideValue p2 p3)
          (sideValue p3 p0)))) :=
  sideVariance_of_sides p0 p1 p2 p3 _ _ _ _ (sideLength_eq p0 p1) (sideLength_eq p1 p2)
    (sideLength_eq p2 p3) (sideLength_eq p3 p0)

theorem regularityTerm_of_fin (v : ℚ) :
    regularityTerm (Dbl.fin v) =
      if v < 1 / 10 then Dbl.fin (3 / 10)
      else if v < 2 / 10 then Dbl.fin (15 / 100) else Dbl.fin 0 := by
  simp only [regularityTerm, dbl_lt_fin, decide_eq_true_eq]

theorem regularityTerm_div_zero (d : ℚ) (hd : 0 ≤ d) :
    regularityTerm (Dbl.round (Dbl.div (Dbl.fin d) (Dbl.fin 0))) = Dbl.fin 0 := by
  unfold Dbl.div
  simp only [if_true]
  split
  · rfl
  · split
    · rfl
    · exact absurd (lt_of_le_of_ne hd (Ne.symm (by assumption))) (by assumption)

theorem sideDeviation_nonneg (s0 s1 s2 s3 : ℚ) : 0 ≤ sideDeviation s0 s1 s2 s3 := by
  unfold sideDeviation
  have n0 := abs_nonneg (rnd (s0 - avgSide s0 s1 s2 s3))
  have n1 := abs_nonneg (rnd (s1 - avgSide s0 s1 s2 s3))
  have n2 := abs_nonneg (rnd (s2 - avgSide s0 s1 s2 s3))
  have n3 := abs_nonneg (rnd (s3 - avgSide s0 s1 s2 s3))
  have v1 := rnd_nonneg _ (add_nonneg (le_refl 0) n0)
  have v2 := rnd_nonneg _ (add_nonneg v1 n1)
  have v3 := rnd_nonneg _ (add_nonneg v2 n2)
  exact rnd_nonneg _ (add_nonneg v3 n3)

/-- Four sides within half a percent of a common positive length: the average
is positive and the rounded variance is below 0.1. -/
theorem variance_of_close_sides (s s0 s1 s2 s3 : ℚ) (hs : 0 < s)
    (l0 : 995 / 1000 * s ≤ s0) (u0 : s0 ≤ 1005 / 1000 * s)
    (l1 : 995 / 1000 * s ≤ s1) (u1 : s1 ≤ 1005 / 1000 * s)
    (l2 : 995 / 1000 * s ≤ s2) (u2 : s2 ≤ 1005 / 1000 * s)
    (l3 : 995 / 1000 * s ≤ s3) (u3 : s3 ≤ 1005 / 1000 * s) :
    0 < avgSide s0 s1 s2 s3 ∧
      rnd (sideDeviation s0 s1 s2 s3 / avgSide s0 s1 s2 s3) < 1 / 10 := by
  unfold sideDeviation
  unfold avgSide
  have a1l := rnd_ge_crude (s0 + s1) (by linarith)
  have a1u := rnd_le_crude (s0 + s1) (by linarith)
  generalize rnd (s0 + s1) = a1 at a1l a1u ⊢
  have a2l := rnd_ge_crude (a1 + s2) (by linarith)
  have a2u := rnd_le_crude (a1 + s2) (by linarith)
  generalize rnd (a1 + s2) = a2 at a2l a2u ⊢
  have a3l := rnd_ge_crude (a2 + s3) (by linarith)
  have a3u := rnd_le_crude (a2 + s3) (by linarith)
  generalize rnd (a2 + s3) = a3 at a3l a3u ⊢
  have avl := rnd_ge_crude (a3 / 4) (by linarith)
  have avu := rnd_le_crude (a3 / 4) (by linarith)
  generalize rnd (a3 / 4) = avg at avl avu ⊢
  have avg_lo : 991 / 1000 * s ≤ avg := by linarith
  have avg_hi : avg ≤ 1009 / 1000 * s := by linarith
  clear a1l a1u a2l a2u a3l a3u avl avu
  have hpos : 0 < avg := by linarith
  have d0 : |rnd (s0 - avg)| ≤ 141 / 10000 * s := by
    have := abs_rnd_le_crude (s0 - avg)
    have : |s0 - avg| ≤ 14 / 1000 * s := abs_le.2 ⟨by linarith, by linarith⟩
    linarith
  have d1 : |rnd (s1 - avg)| ≤ 141 / 10000 * s := by
    have := abs_rnd_le_crude (s1 - avg)
    have : |s1 - avg| ≤ 14 / 1000 * s := abs_le.2 ⟨by linarith, by linarith⟩
    linarith
  have d2 : |rnd (s2 - avg)| ≤ 141 / 10000 * s := by
    have := abs_rnd_le_crude (s2 - avg)
    have : |s2 - avg| ≤ 14 / 1000 * s := abs_le.2 ⟨by linarith, by linarith⟩
    linarith
  have d3 : |rnd (s3 - avg)| ≤ 141 / 10000 * s := by
    have := abs_rnd_le_crude (s3 - avg)
    have : |s3 - avg| ≤ 14 / 1000 * s := abs_le.2 ⟨by linarith, by linarith⟩
    linarith
  have n0 := abs_nonneg (rnd (s0 - avg))
  have n1 := abs_nonneg (rnd (s1 - avg))
  have n2 := abs_nonneg (rnd (s2 - avg))
  have n3 := abs_nonneg (rnd (s3 - avg))
  generalize |rnd (s0 - avg)| = e0 at d0 n0 ⊢
  generalize |rnd (s1 - avg)| = e1 at d1 n1 ⊢
  generalize |rnd (s2 - avg)| = e2 at d2 n2 ⊢
  generalize |rnd (s3 - avg)| = e3 at d3 n3 ⊢
  clear l0 u0 l1 u1 l2 u2 l3 u3
  have v1n : 0 ≤ rnd (0 + e0) := rnd_nonneg _ (by linarith)
  have v1u := rnd_le_crude (0 + e0) (by linarith)
  generalize rnd (0 + e0) = v1 at v1n v1u ⊢
  have v2n : 0 ≤ rnd (v1 + e1) := rnd_nonneg _ (by linarith)
  have v2u := rnd_le_crude (v1 + e1) (by linarith)
  generalize rnd (v1 + e1) = v2 at v2n v2u ⊢
  have v3n : 0 ≤ rnd (v2 + e2) := rnd_nonneg _ (by linarith)
  have v3u := rnd_le_crude (v2 + e2) (by linarith)
  generalize rnd (v2 + e2) = v3 at v3n v3u ⊢
  have v4n : 0 ≤ rnd (v3 + e3) := rnd_nonneg _ (by linarith)
  have v4u := rnd_le_crude (v3 + e3) (by linarith)
  generalize rnd (v3 + e3) = v4 at v4n v4u ⊢
  refine ⟨hpos, ?_⟩
  have hq : v4 / avg ≤ 6 / 100 := by
    rw [div_le_iff₀ hpos]
    linarith
  have hq0 : 0 ≤ v4 / avg := div_nonneg v4n (le_of_lt hpos)
  have := rnd_le_crude (v4 / avg) hq0
  linarith

/-- The computed side is the square root of the squared length of the `int`
difference up to a relative error of `2 ^ (-50)`. -/
theorem sideValue_sq_bounds (p q : Point) (h : 0 < sqLength p q) :
    0 < sideValue p q ∧
      (1 - 1 / 2 ^ 50) ^ 2 * (sqLength p q : ℚ) ≤ sideValue p q ^ 2 ∧
      sideValue p q ^ 2 ≤ (1 + 1 / 2 ^ 50) ^ 2 * (sqLength p q : ℚ) := by
  have hn : (0 : ℚ) < (sqLength p q : ℚ) := by exact_mod_cast h
  unfold sqLength at hn
  unfold sqLength sideValue
  push_cast at hn ⊢
  have ha : (0 : ℚ) ≤ ((p.sub q).x : ℚ) * (p.sub q).x := mul_self_nonneg _
  have hb : (0 : ℚ) ≤ ((p.sub q).y : ℚ) * (p.sub q).y := mul_self_nonneg _
  generalize ((p.sub q).x : ℚ) * (p.sub q).x = a at ha hn ⊢
  generalize ((p.sub q).y : ℚ) * (p.sub q).y = b at hb hn ⊢
  have a1 := rnd_ge_of_nonneg a ha
  have a2 := rnd_le_of_nonneg a ha
  have a0 := rnd_nonneg a ha
  generalize rnd a = ra at a0 a1 a2 ⊢
  have b1 := rnd_ge_of_nonneg b hb
  have b2 := rnd_le_of_nonneg b hb
  have b0 := rnd_nonneg b hb
  generalize rnd b = rb at b0 b1 b2 ⊢
  have y1 := rnd_ge_of_nonneg (ra + rb) (by linarith)
  have y2 := rnd_le_of_nonneg (ra + rb) (by linarith)
  generalize rnd (ra + rb) = y at y1 y2 ⊢
  have s1 : (1 - 1 / 2 ^ 53) * ((1 - 1 / 2 ^ 53) * (a + b)) ≤ y := by
    have : (1 - 1 / 2 ^ 53) * ((1 - 1 / 2 ^ 53) * (a + b)) ≤ (1 - 1 / 2 ^ 53) * (ra + rb) :=
      mul_le_mul_of_nonneg_left (by linarith) (by norm_num)
    linarith
  have s2 : y ≤ (1 + 1 / 2 ^ 53) * ((1 + 1 / 2 ^ 53) * (a + b)) := by
    have : (1 + 1 / 2 ^ 53) * (ra + rb) ≤ (1 + 1 / 2 ^ 53) * ((1 + 1 / 2 ^ 53) * (a + b)) :=
      mul_le_mul_of_nonneg_left (by linarith) (by norm_num)
    linarith
  have hy : 0 < y := lt_of_lt_of_le (by positivity) s1
  obtain ⟨hpos, l, u⟩ := sqrt64_sq_bounds y hy
  generalize sqrt64 y ^ 2 = t at l u ⊢
  refine ⟨hpos, ?_, ?_⟩
  · have e1 : (1 - 1 / 2 ^ 52) ^ 2 * ((1 - 1 / 2 ^ 53) * ((1 - 1 / 2 ^ 53) * (a + b))) ≤
        (1 - 1 / 2 ^ 52) ^ 2 * y := mul_le_mul_of_nonneg_left s1 (by positivity)
    have e2 : (1 - 1 / 2 ^ 50) ^ 2 * (a + b) ≤
        (1 - 1 / 2 ^ 52) ^ 2 * ((1 - 1 / 2 ^ 53) * ((1 - 1 / 2 ^ 53) * (a + b))) := by
      rw [← mul_assoc, ← mul_assoc]
      exact mul_le_mul_of_nonneg_right (by norm_num) (le_of_lt hn)
    linarith
  · have e1 : (1 + 1 / 2 ^ 52) ^ 2 * y ≤
        (1 + 1 / 2 ^ 52) ^ 2 * ((1 + 1 / 2 ^ 53) * ((1 + 1 / 2 ^ 53) * (a + b))) :=
      mul_le_mul_of_nonneg_left s2 (by positivity)
    have e2 : (1 + 1 / 2 ^ 52) ^ 2 * ((1 + 1 / 2 ^ 53) * ((1 + 1 / 2 ^ 53) * (a + b))) ≤
        (1 + 1 / 2 ^ 50) ^ 2 * (a + b) := by
      rw [← mul_assoc, ← mul_assoc]
      exact mul_le_mul_of_nonneg_right (by norm_num) (le_of_lt hn)
    linarith

theorem close_of_sq_bounds (a b n : ℚ) (ha : 0 < a) (hb : 0 < b)
    (ha2 : a ^ 2 ≤ (1 + 1 / 2 ^ 50) ^ 2 * n) (hb1 : (1 - 1 / 2 ^ 50) ^ 2 * n ≤ b ^ 2) :
    a ≤ 1005 / 1000 * b := by
  by_contra hlt
  have hlt2 : 1005 / 1000 * b < a := not_le.1 hlt
  have h1 : (1005 / 1000 * b) * (1005 / 1000 * b) < a * a :=
    mul_self_lt_mul_self (by positivity) hlt2
  have hn : 0 < n := by
    by_contra hn
    have : (1 + 1 / 2 ^ 50) ^ 2 * n ≤ 0 :=
      mul_nonpos_of_nonneg_of_nonpos (by positivity) (not_lt.1 hn)
    have : 0 < a ^ 2 := by positivity
    linarith
  have h2 : (1 + 1 / 2 ^ 50) ^ 2 * n < (1005 / 1000) ^ 2 * ((1 - 1 / 2 ^ 50) ^ 2 * n) := by
    rw [← mul_assoc]
    exact mul_lt_mul_of_pos_right (by norm_num) hn
  have h3 : (1005 / 1000) ^ 2 * ((1 - 1 / 2 ^ 50) ^ 2 * n) ≤ (1005 / 1000) ^ 2 * b ^ 2 :=
    mul_le_mul_of_nonneg_left hb1 (by positivity)
  have h4 : (1005 / 1000 * b) * (1005 / 1000 * b) = (1005 / 1000) ^ 2 * b ^ 2 := by ring
  have h5 : a * a = a ^ 2 := by ring
  linarith

theorem close_of_sq_bounds_lower (a b n : ℚ) (ha : 0 < a) (hb : 0 < b)
    (ha1 : (1 - 1 / 2 ^ 50) ^ 2 * n ≤ a ^ 2) (hb2 : b ^ 2 ≤ (1 + 1 / 2 ^ 50) ^ 2 * n) :
    995 / 1000 * b ≤ a := by
  have h := close_of_sq_bounds b a n hb ha hb2 ha1
  linarith

theorem regularityTerm_of_close_sides (p0 p1 p2 p3 : Point) (s : ℚ) (hs : 0 < s)
    (l0 : 995 / 1000 * s ≤ sideValue p0 p1) (u0 : sideValue p0 p1 ≤ 1005 / 1000 * s)
    (l1 : 995 / 1000 * s ≤ sideValue p1 p2) (u1 : sideValue p1 p2 ≤ 1005 / 1000 * s)
    (l2 : 995 / 1000 * s ≤ sideValue p2 p3) (u2 : sideValue p2 p3 ≤ 1005 / 1000 * s)
    (l3 : 995 / 1000 * s ≤ sideValue p3 p0) (u3 : sideValue p3 p0 ≤ 1005 / 1000 * s) :
    regularityTerm (sideVariance p0 p1 p2 p3) = Dbl.fin (3 / 10) := by
  obtain ⟨hpos, hlt⟩ := variance_of_close_sides s _ _ _ _ hs l0 u0 l1 u1 l2 u2 l3 u3
  rw [sideVariance_eq, dbl_div_fin _ _ (ne_of_gt hpos), dbl_round_fin, regularityTerm_of_fin,
    if_pos hlt]

theorem regularityTerm_of_equal_sqLength (p0 p1 p2 p3 : Point) (h0 : 0 < sqLength p0 p1)
    (h1 : sqLength p1 p2 = sqLength p0 p1) (h2 : sqLength p2 p3 = sqLength p0 p1)
    (h3 : sqLength p3 p0 = sqLength p0 p1) :
    regularityTerm (sideVariance p0 p1 p2 p3) = Dbl.fin (3 / 10) := by
  obtain ⟨a0, a1, a2⟩ := sideValue_sq_bounds p0 p1 h0
  obtain ⟨b0, b1, b2⟩ := sideValue_sq_bounds p1 p2 (h1 ▸ h0)
  obtain ⟨c0, c1, c2⟩ := sideValue_sq_bounds p2 p3 (h2 ▸ h0)
  obtain ⟨d0, d1, d2⟩ := sideValue_sq_bounds p3 p0 (h3 ▸ h0)
  rw [h1] at b1 b2
  rw [h2] at c1 c2
  rw [h3] at d1 d2
  exact regularityTerm_of_close_sides p0 p1 p2 p3 (sideValue p0 p1) a0
    (by linarith) (by linarith)
    (close_of_sq_bounds_lower _ _ _ b0 a0 b1 a2) (close_of_sq_bounds _ _ _ b0 a0 b2 a1)
    (close_of_sq_bounds_lower _ _ _ c0 a0 c1 a2) (close_of_sq_bounds _ _ _ c0 a0 c2 a1)
    (close_of_sq_bounds_lower _ _ _ d0 a0 d1 a2) (close_of_sq_bounds _ _ _ d0 a0 d2 a1)

theorem sqLength_of_fitsInt (p q : Point) (h : fitsInt p q = true) :
    (sqLength p q : ℚ) = sqDist p q := by
  simp only [fitsInt, Bool.and_eq_true, decide_eq_true_eq] at h
  obtain ⟨⟨⟨hx1, hx2⟩, hy1⟩, hy2⟩ := h
  unfold sqLength sqDist Point.sub
  simp only [wrapInt32_of_inRange _ hx1 hx2, wrapInt32_of_inRange _ hy1 hy2]
  push_cast
  ring

theorem sideValue_of_diff (p q : Point) (dx dy : Int) (hx : (p.sub q).x = dx)
    (hy : (p.sub q).y = dy) (a b c s : ℚ) (ha : rnd ((dx : ℚ) * dx) = a)
    (hb : rnd ((dy : ℚ) * dy) = b) (hc : rnd (a + b) = c) (hs : sqrt64 c = s) :
    sideValue p q = s := by
  unfold sideValue
  rw [hx, hy, ha, hb, hc, hs]

theorem sideValue_boxTilted :
    sideValue (Point.mk 117 0) (Point.mk 158 123) = (4561772907586177 / 35184372088832) ∧
    sideValue (Point.mk 158 123) (Point.mk 41 162) = (8678494799798093 / 70368744177664) ∧
    sideValue (Point.mk 41 162) (Point.mk 0 39) = (4561772907586177 / 35184372088832) ∧
    sideValue (Point.mk 0 39) (Point.mk 117 0) = (8678494799798093 / 70368744177664) := by
  have h1 : rnd (1681 : ℚ) = 1681 :=
    (rnd_of_near 1681 (-42) 7393116185165824
      (by rw [abs_of_pos (by norm_num : (0 : ℚ) < 1681)]; norm_num)
      (by rw [abs_of_pos (by norm_num : (0 : ℚ) < 1681)]; norm_num)
      (by norm_num) (by norm_num)).trans (by norm_num)
  have h2 : rnd (15129 : ℚ) = 15129 :=
    (rnd_of_near 15129 (-39) 8317255708311552
      (by rw [abs_of_pos (by norm_num : (0 : ℚ) < 15129)]; norm_num)
      (by rw [abs_of_pos (by norm_num : (0 : ℚ) < 15129)]; norm_num)
      (by norm_num) (by norm_num)).trans (by norm_num)
  have h3 : rnd (16810 : ℚ) = 16810 :=
    (rnd_of_near 16810 (-38) 4620697615728640
      (by rw [abs_of_pos (by norm_num : (0 : ℚ) < 16810)]; norm_num)
      (by rw [abs_of_pos (by norm_num : (0 : ℚ) < 16810)]; norm_num)
      (by norm_num) (by norm_num)).trans (by norm_num)
  have h4 : rnd (1681 + 15129 : ℚ) = 16810 :=
    (congrArg rnd (by norm_num : (1681 + 15129 : ℚ) = 16810)).trans h3
  have h5 : sqrt64 (16810 : ℚ) = (4561772907586177 / 35184372088832) :=
    (sqrt64_of_near 16810 (-45) 9123545815172353 4561772907586177 (by norm_num) (by norm_num) (by norm_num)
      (by norm_num) (by norm_num)).trans (by norm_num)
  have h6 : rnd (13689 : ℚ) = 13689 :=
    (rnd_of_near 13689 (-39) 7525607336312832
      (by rw [abs_of_pos (by norm_num : (0 : ℚ) < 13689)]; norm_num)
      (by rw [abs_of_pos (by norm_num : (0 : ℚ) < 13689)]; norm_num)
      (by norm_num) (by norm_num)).trans (by norm_num)
  have h7 : rnd (1521 : ℚ) = 1521 :=
    (rnd_of_near 1521 (-42) 6689428743389184
      (by rw [abs_of_pos (by norm_num : (0 : ℚ) < 1521)]; norm_num)
      (by rw [abs_of_pos (by norm_num : (0 : ℚ) < 1521)]; norm_num)
      (by norm_num) (by norm_num)).trans (by norm_num)
  have h8 : rnd (15210 : ℚ) = 15210 :=
    (rnd_of_near 15210 (-39) 8361785929236480
      (by rw [abs_of_pos (by norm_num : (0 : ℚ) < 15210)]; norm_num)
      (by rw [abs_of_pos (by norm_num : (0 : ℚ) < 15210)]; norm_num)
      (by norm_num) (by norm_num)).trans (by norm_num)
  have h9 : rnd (13689 + 1521 : ℚ) = 15210 :=
    (congrArg rnd (by norm_num : (13689 + 1521 : ℚ) = 15210)).trans h8
  have h10 : sqrt64 (15210 : ℚ) = (8678494799798093 / 70368744177664) :=
    (sqrt64_of_near 15210 (-46) 17356989599596185 8678494799798093 (by norm_num) (by norm_num) (by norm_num)
      (by norm_num) (by norm_num)).trans (by norm_num)
  exact ⟨sideValue_of_diff _ _ (-41) (-123) (by decide) (by decide) 1681 15129 16810
      (4561772907586177 / 35184372088832) (by norm_num [h1]) (by norm_num [h2]) h4 h5,
    sideValue_of_diff _ _ 117 (-39) (by decide) (by decide) 13689 1521 15210
      (8678494799798093 / 70368744177664) (by norm_num [h6]) (by norm_num [h7]) h9 h10,
    sideValue_of_diff _ _ 41 123 (by decide) (by decide) 1681 15129 16810
      (4561772907586177 / 35184372088832) (by norm_num [h1]) (by norm_num [h2]) h4 h5,
    sideValue_of_diff _ _ (-117) 39 (by decide) (by decide) 13689 1521 15210
      (8678494799798093 / 70368744177664) (by norm_num [h6]) (by norm_num [h7]) h9 h10⟩

theorem avgSide_boxTilted :
    avgSide (4561772907586177 / 35184372088832) (8678494799798093 / 70368744177664) (4561772907586177 / 35184372088832) (8678494799798093 / 70368744177664) =
      (8901020307485223 / 70368744177664) := by
  have h1 : rnd ((17802040614970447 / 70368744177664) : ℚ) = (1112627538435653 / 4398046511104) :=
    (rnd_of_cvRound (17802040614970447 / 70368744177664) (-45) 8901020307485224
      (by rw [abs_of_pos (by norm_num : (0 : ℚ) < (17802040614970447 / 70368744177664))]; norm_num)
      (by rw [abs_of_pos (by norm_num : (0 : ℚ) < (17802040614970447 / 70368744177664))]; norm_num)
      ((congrArg cvRound (by norm_num : ((17802040614970447 / 70368744177664) : ℚ) / (2 : ℚ) ^ (-45 : Int) =
        ((8901020307485224 : Int) : ℚ) - 1 / 2)).trans (cvRound_of_tie_up 8901020307485224 (by decide)))).trans
      (by norm_num)
  have h2 : rnd ((4561772907586177 / 35184372088832) + (8678494799798093 / 70368744177664) : ℚ) = (1112627538435653 / 4398046511104) :=
    (congrArg rnd (by norm_num : ((4561772907586177 / 35184372088832) + (8678494799798093 / 70368744177664) : ℚ) = (17802040614970447 / 70368744177664))).trans h1
  have h3 : rnd ((13462793215071401 / 35184372088832) : ℚ) = (1682849151883925 / 4398046511104) :=
    (rnd_of_cvRound (13462793215071401 / 35184372088832) (-44) 6731396607535700
      (by rw [abs_of_pos (by norm_num : (0 : ℚ) < (13462793215071401 / 35184372088832))]; norm_num)
      (by rw [abs_of_pos (by norm_num : (0 : ℚ) < (13462793215071401 / 35184372088832))]; norm_num)
      ((congrArg cvRound (by norm_num : ((13462793215071401 / 35184372088832) : ℚ) / (2 : ℚ) ^ (-44 : Int) =
        ((6731396607535700 : Int) : ℚ) + 1 / 2)).trans (cvRound_of_tie_down 6731396607535700 (by decide)))).trans
      (by norm_num)
  have h4 : rnd ((1112627538435653 / 4398046511104) + (4561772907586177 / 35184372088832) : ℚ) = (1682849151883925 / 4398046511104) :=
    (congrArg rnd (by norm_num : ((1112627538435653 / 4398046511104) + (4561772907586177 / 35184372088832) : ℚ) = (13462793215071401 / 35184372088832))).trans h3
  have h5 : rnd ((35604081229940893 / 70368744177664) : ℚ) = (8901020307485223 / 17592186044416) :=
    (rnd_of_near (35604081229940893 / 70368744177664) (-44) 8901020307485223
      (by rw [abs_of_pos (by norm_num : (0 : ℚ) < (35604081229940893 / 70368744177664))]; norm_num)
      (by rw [abs_of_pos (by norm_num : (0 : ℚ) < (35604081229940893 / 70368744177664))]; norm_num)
      (by norm_num) (by norm_num)).trans (by norm_num)
  have h6 : rnd ((1682849151883925 / 4398046511104) + (8678494799798093 / 70368744177664) : ℚ) = (8901020307485223 / 17592186044416) :=
    (congrArg rnd (by norm_num : ((1682849151883925 / 4398046511104) + (8678494799798093 / 70368744177664) : ℚ) = (35604081229940893 / 70368744177664))).trans h5
  have h7 : rnd ((8901020307485223 / 70368744177664) : ℚ) = (8901020307485223 / 70368744177664) :=
    (rnd_of_near (8901020307485223 / 70368744177664) (-46) 8901020307485223
      (by rw [abs_of_pos (by norm_num : (0 : ℚ) < (8901020307485223 / 70368744177664))]; norm_num)
      (by rw [abs_of_pos (by norm_num : (0 : ℚ) < (8901020307485223 / 70368744177664))]; norm_num)
      (by norm_num) (by norm_num)).trans (by norm_num)
  have h8 : rnd ((8901020307485223 / 17592186044416) / 4 : ℚ) = (8901020307485223 / 70368744177664) :=
    (congrArg rnd (by norm_num : ((8901020307485223 / 17592186044416) / 4 : ℚ) = (8901020307485223 / 70368744177664))).trans h7
  unfold avgSide
  rw [h2, h4, h6, h8]

theorem sideDeviation_boxTilted :
    sideDeviation (4561772907586177 / 35184372088832) (8678494799798093 / 70368744177664) (4561772907586177 / 35184372088832) (8678494799798093 / 70368744177664) =
      (445051015374261 / 35184372088832) := by
  have h1 : rnd ((222525507687131 / 70368744177664) : ℚ) = (222525507687131 / 70368744177664) :=
    (rnd_of_near (222525507687131 / 70368744177664) (-51) 7120816245988192
      (by rw [abs_of_pos (by norm_num : (0 : ℚ) < (222525507687131 / 70368744177664))]; norm_num)
      (by rw [abs_of_pos (by norm_num : (0 : ℚ) < (222525507687131 / 70368744177664))]; norm_num)
      (by norm_num) (by norm_num)).trans (by norm_num)
  have h2 : rnd ((4561772907586177 / 35184372088832) - (8901020307485223 / 70368744177664) : ℚ) = (222525507687131 / 70368744177664) :=
    (congrArg rnd (by norm_num : ((4561772907586177 / 35184372088832) - (8901020307485223 / 70368744177664) : ℚ) = (222525507687131 / 70368744177664))).trans h1
  have h3 : rnd (0 + |(222525507687131 / 70368744177664)| : ℚ) = (222525507687131 / 70368744177664) :=
    (congrArg rnd (by rw [abs_of_nonneg (by norm_num : (0 : ℚ) ≤ (222525507687131 / 70368744177664))]; norm_num : (0 + |(222525507687131 / 70368744177664)| : ℚ) = (222525507687131 / 70368744177664))).trans h1
  have h4 : rnd ((-111262753843565 / 35184372088832) : ℚ) = (-111262753843565 / 35184372088832) :=
    (rnd_of_near (-111262753843565 / 35184372088832) (-51) (-7120816245988160)
      (by rw [abs_of_neg (by norm_num : ((-111262753843565 / 35184372088832) : ℚ) < 0)]; norm_num)
      (by rw [abs_of_neg (by norm_num : ((-111262753843565 / 35184372088832) : ℚ) < 0)]; norm_num)
      (by norm_num) (by norm_num)).trans (by norm_num)
  have h5 : rnd ((8678494799798093 / 70368744177664) - (8901020307485223 / 70368744177664) : ℚ) = (-111262753843565 / 35184372088832) :=
    (congrArg rnd (by norm_num : ((8678494799798093 / 70368744177664) - (8901020307485223 / 70368744177664) : ℚ) = (-111262753843565 / 35184372088832))).trans h4
  have h6 : rnd ((445051015374261 / 70368744177664) : ℚ) = (445051015374261 / 70368744177664) :=
    (rnd_of_near (445051015374261 / 70368744177664) (-50) 7120816245988176
      (by rw [abs_of_pos (by norm_num : (0 : ℚ) < (445051015374261 / 70368744177664))]; norm_num)
      (by rw [abs_of_pos (by norm_num : (0 : ℚ) < (445051015374261 / 70368744177664))]; norm_num)
      (by norm_num) (by norm_num)).trans (by norm_num)
  have h7 : rnd ((222525507687131 / 70368744177664) + |(-111262753843565 / 35184372088832)| : ℚ) = (445051015374261 / 70368744177664) :=
    (congrArg rnd (by rw [abs_of_neg (by norm_num : ((-111262753843565 / 35184372088832) : ℚ) < 0)]; norm_num : ((222525507687131 / 70368744177664) + |(-111262753843565 / 35184372088832)| : ℚ) = (445051015374261 / 70368744177664))).trans h6
  have h8 : rnd ((41723532691337 / 4398046511104) : ℚ) = (41723532691337 / 4398046511104) :=
    (rnd_of_near (41723532691337 / 4398046511104) (-49) 5340612184491136
      (by rw [abs_of_pos (by norm_num : (0 : ℚ) < (41723532691337 / 4398046511104))]; norm_num)
      (by rw [abs_of_pos (by norm_num : (0 : ℚ) < (41723532691337 / 4398046511104))]; norm_num)
      (by norm_num) (by norm_num)).trans (by norm_num)
  have h9 : rnd ((445051015374261 / 70368744177664) + |(222525507687131 / 70368744177664)| : ℚ) = (41723532691337 / 4398046511104) :=
    (congrArg rnd (by rw [abs_of_nonneg (by norm_num : (0 : ℚ) ≤ (222525507687131 / 70368744177664))]; norm_num : ((445051015374261 / 70368744177664) + |(222525507687131 / 70368744177664)| : ℚ) = (41723532691337 / 4398046511104))).trans h8
  have h10 : rnd ((445051015374261 / 35184372088832) : ℚ) = (445051015374261 / 35184372088832) :=
    (rnd_of_near (445051015374261 / 35184372088832) (-49) 7120816245988176
      (by rw [abs_of_pos (by norm_num : (0 : ℚ) < (445051015374261 / 35184372088832))]; norm_num)
      (by rw [abs_of_pos (by norm_num : (0 : ℚ) < (445051015374261 / 35184372088832))]; norm_num)
      (by norm_num) (by norm_num)).trans (by norm_num)
  have h11 : rnd ((41723532691337 / 4398046511104) + |(-111262753843565 / 35184372088832)| : ℚ) = (445051015374261 / 35184372088832) :=
    (congrArg rnd (by rw [abs_of_neg (by norm_num : ((-111262753843565 / 35184372088832) : ℚ) < 0)]; norm_num : ((41723532691337 / 4398046511104) + |(-111262753843565 / 35184372088832)| : ℚ) = (445051015374261 / 35184372088832))).trans h10
  unfold sideDeviation
  simp only [avgSide_boxTilted, h2, h3, h5, h7, h9, h11]

/-- The side variance the scorer computes for `boxTilted`: a double below 0.1. -/
theorem sideVariance_boxTilted :
    sideVariance (Point.mk 117 0) (Point.mk 158 123) (Point.mk 41 162) (Point.mk 0 39) =
      Dbl.fin (7205759403792791 / 72057594037927936) := by
  have h1 : rnd ((296700676916174 / 2967006769161741) : ℚ) = (7205759403792791 / 72057594037927936) :=
    (rnd_of_near (296700676916174 / 2967006769161741) (-56) 7205759403792791
      (by rw [abs_of_pos (by norm_num : (0 : ℚ) < (296700676916174 / 2967006769161741))]; norm_num)
      (by rw [abs_of_pos (by norm_num : (0 : ℚ) < (296700676916174 / 2967006769161741))]; norm_num)
      (by norm_num) (by norm_num)).trans (by norm_num)
  have h2 : rnd ((445051015374261 / 35184372088832) / (8901020307485223 / 70368744177664) : ℚ) = (7205759403792791 / 72057594037927936) :=
    (congrArg rnd (by norm_num : ((445051015374261 / 35184372088832) / (8901020307485223 / 70368744177664) : ℚ) = (296700676916174 / 2967006769161741))).trans h1
  rw [sideVariance_eq, sideValue_boxTilted.1, sideValue_boxTilted.2.1, sideValue_boxTilted.2.2.1,
    sideValue_boxTilted.2.2.2, avgSide_boxTilted, sideDeviation_boxTilted,
    dbl_div_fin _ _ (by norm_num), dbl_round_fin, h2]

theorem sideValue_boxTall :
    sideValue (Point.mk 312 0) (Point.mk 353 328) = (5815142268090203 / 17592186044416) ∧
    sideValue (Point.mk 353 328) (Point.mk 41 367) = (2765738395798999 / 8796093022208) ∧
    sideValue (Point.mk 41 367) (Point.mk 0 39) = (5815142268090203 / 17592186044416) ∧
    sideValue (Point.mk 0 39) (Point.mk 312 0) = (2765738395798999 / 8796093022208) := by
  have h1 : rnd (1681 : ℚ) = 1681 :=
    (rnd_of_near 1681 (-42) 7393116185165824
      (by rw [abs_of_pos (by norm_num : (0 : ℚ) < 1681)]; norm_num)
      (by rw [abs_of_pos (by norm_num : (0 : ℚ) < 1681)]; norm_num)
      (by norm_num) (by norm_num)).trans (by norm_num)
  have h2 : rnd (107584 : ℚ) = 107584 :=
    (rnd_of_near 107584 (-36) 7393116185165824
      (by rw [abs_of_pos (by norm_num : (0 : ℚ) < 107584)]; norm_num)
      (by rw [abs_of_pos (by norm_num : (0 : ℚ) < 107584)]; norm_num)
      (by norm_num) (by norm_num)).trans (by norm_num)
  have h3 : rnd (109265 : ℚ) = 109265 :=
    (rnd_of_near 109265 (-36) 7508633625559040
      (by rw [abs_of_pos (by norm_num : (0 : ℚ) < 109265)]; norm_num)
      (by rw [abs_of_pos (by norm_num : (0 : ℚ) < 109265)]; norm_num)
      (by norm_num) (by norm_num)).trans (by norm_num)
  have h4 : rnd (1681 + 107584 : ℚ) = 109265 :=
    (congrArg rnd (by norm_num : (1681 + 107584 : ℚ) = 109265)).trans h3
  have h5 : sqrt64 (109265 : ℚ) = (5815142268090203 / 17592186044416) :=
    (sqrt64_of_near 109265 (-44) 11630284536180405 5815142268090203 (by norm_num) (by norm_num) (by norm_num)
      (by norm_num) (by norm_num)).trans (by norm_num)
  have h6 : rnd (97344 : ℚ) = 97344 :=
    (rnd_of_near 97344 (-36) 6689428743389184
      (by rw [abs_of_pos (by norm_num : (0 : ℚ) < 97344)]; norm_num)
      (by rw [abs_of_pos (by norm_num : (0 : ℚ) < 97344)]; norm_num)
      (by norm_num) (by norm_num)).trans (by norm_num)
  have h7 : rnd (1521 : ℚ) = 1521 :=
    (rnd_of_near 1521 (-42) 6689428743389184
      (by rw [abs_of_pos (by norm_num : (0 : ℚ) < 1521)]; norm_num)
      (by rw [abs_of_pos (by norm_num : (0 : ℚ) < 1521)]; norm_num)
      (by norm_num) (by norm_num)).trans (by norm_num)
  have h8 : rnd (98865 : ℚ) = 98865 :=
    (rnd_of_near 98865 (-36) 6793951067504640
      (by rw [abs_of_pos (by norm_num : (0 : ℚ) < 98865)]; norm_num)
      (by rw [abs_of_pos (by norm_num : (0 : ℚ) < 98865)]; norm_num)
      (by norm_num) (by norm_num)).trans (by norm_num)
  have h9 : rnd (97344 + 1521 : ℚ) = 98865 :=
    (congrArg rnd (by norm_num : (97344 + 1521 : ℚ) = 98865)).trans h8
  have h10 : sqrt64 (98865 : ℚ) = (2765738395798999 / 8796093022208) :=
    (sqrt64_of_near 98865 (-44) 11062953583195995 5531476791597998 (by norm_num) (by norm_num) (by norm_num)
      (by norm_num) (by norm_num)).trans (by norm_num)
  exact ⟨sideValue_of_diff _ _ (-41) (-328) (by decide) (by decide) 1681 107584 109265
      (5815142268090203 / 17592186044416) (by norm_num [h1]) (by norm_num [h2]) h4 h5,
    sideValue_of_diff _ _ 312 (-39) (by decide) (by decide) 97344 1521 98865
      (2765738395798999 / 8796093022208) (by norm_num [h6]) (by norm_num [h7]) h9 h10,
    sideValue_of_diff _ _ 41 328 (by decide) (by decide) 1681 107584 109265
      (5815142268090203 / 17592186044416) (by norm_num [h1]) (by norm_num [h2]) h4 h5,
    sideValue_of_diff _ _ (-312) 39 (by decide) (by decide) 97344 1521 98865
      (2765738395798999 / 8796093022208) (by norm_num [h6]) (by norm_num [h7]) h9 h10⟩

theorem avgSide_boxTall :
    avgSide (5815142268090203 / 17592186044416) (2765738395798999 / 8796093022208) (5815142268090203 / 17592186044416) (2765738395798999 / 8796093022208) =
      (1418327382461025 / 4398046511104) := by
  have h1 : rnd ((11346619059688201 / 17592186044416) : ℚ) = (1418327382461025 / 2199023255552) :=
    (rnd_of_cvRound (11346619059688201 / 17592186044416) (-43) 5673309529844100
      (by rw [abs_of_pos (by norm_num : (0 : ℚ) < (11346619059688201 / 17592186044416))]; norm_num)
      (by rw [abs_of_pos (by norm_num : (0 : ℚ) < (11346619059688201 / 17592186044416))]; norm_num)
      ((congrArg cvRound (by norm_num : ((11346619059688201 / 17592186044416) : ℚ) / (2 : ℚ) ^ (-43 : Int) =
        ((5673309529844100 : Int) : ℚ) + 1 / 2)).trans (cvRound_of_tie_down 5673309529844100 (by decide)))).trans
      (by norm_num)
  have h2 : rnd ((5815142268090203 / 17592186044416) + (2765738395798999 / 8796093022208) : ℚ) = (1418327382461025 / 2199023255552) :=
    (congrArg rnd (by norm_num : ((5815142268090203 / 17592186044416) + (2765738395798999 / 8796093022208) : ℚ) = (11346619059688201 / 17592186044416))).trans h1
  have h3 : rnd ((17161761327778403 / 17592186044416) : ℚ) = (4290440331944601 / 4398046511104) :=
    (rnd_of_cvRound (17161761327778403 / 17592186044416) (-43) 8580880663889202
      (by rw [abs_of_pos (by norm_num : (0 : ℚ) < (17161761327778403 / 17592186044416))]; norm_num)
      (by rw [abs_of_pos (by norm_num : (0 : ℚ) < (17161761327778403 / 17592186044416))]; norm_num)
      ((congrArg cvRound (by norm_num : ((17161761327778403 / 17592186044416) : ℚ) / (2 : ℚ) ^ (-43 : Int) =
        ((8580880663889202 : Int) : ℚ) - 1 / 2)).trans (cvRound_of_tie_up 8580880663889202 (by decide)))).trans
      (by norm_num)
  have h4 : rnd ((1418327382461025 / 2199023255552) + (5815142268090203 / 17592186044416) : ℚ) = (4290440331944601 / 4398046511104) :=
    (congrArg rnd (by norm_num : ((1418327382461025 / 2199023255552) + (5815142268090203 / 17592186044416) : ℚ) = (17161761327778403 / 17592186044416))).trans h3
  have h5 : rnd ((11346619059688201 / 8796093022208) : ℚ) = (1418327382461025 / 1099511627776) :=
    (rnd_of_cvRound (11346619059688201 / 8796093022208) (-42) 5673309529844100
      (by rw [abs_of_pos (by norm_num : (0 : ℚ) < (11346619059688201 / 8796093022208))]; norm_num)
      (by rw [abs_of_pos (by norm_num : (0 : ℚ) < (11346619059688201 / 8796093022208))]; norm_num)
      ((congrArg cvRound (by norm_num : ((11346619059688201 / 8796093022208) : ℚ) / (2 : ℚ) ^ (-42 : Int) =
        ((5673309529844100 : Int) : ℚ) + 1 / 2)).trans (cvRound_of_tie_down 5673309529844100 (by decide)))).trans
      (by norm_num)
  have h6 : rnd ((4290440331944601 / 4398046511104) + (2765738395798999 / 8796093022208) : ℚ) = (1418327382461025 / 1099511627776) :=
    (congrArg rnd (by norm_num : ((4290440331944601 / 4398046511104) + (2765738395798999 / 8796093022208) : ℚ) = (11346619059688201 / 8796093022208))).trans h5
  have h7 : rnd ((1418327382461025 / 4398046511104) : ℚ) = (1418327382461025 / 4398046511104) :=
    (rnd_of_near (1418327382461025 / 4398046511104) (-44) 5673309529844100
      (by rw [abs_of_pos (by norm_num : (0 : ℚ) < (1418327382461025 / 4398046511104))]; norm_num)
      (by rw [abs_of_pos (by norm_num : (0 : ℚ) < (1418327382461025 / 4398046511104))]; norm_num)
      (by norm_num) (by norm_num)).trans (by norm_num)
  have h8 : rnd ((1418327382461025 / 1099511627776) / 4 : ℚ) = (1418327382461025 / 4398046511104) :=
    (congrArg rnd (by norm_num : ((1418327382461025 / 1099511627776) / 4 : ℚ) = (1418327382461025 / 4398046511104))).trans h7
  unfold avgSide
  rw [h2, h4, h6, h8]

theorem sideDeviation_boxTall :
    sideDeviation (5815142268090203 / 17592186044416) (2765738395798999 / 8796093022208) (5815142268090203 / 17592186044416) (2765738395798999 / 8796093022208) =
      (283665476492205 / 8796093022208) := by
  have h1 : rnd ((141832738246103 / 17592186044416) : ℚ) = (141832738246103 / 17592186044416) :=
    (rnd_of_near (141832738246103 / 17592186044416) (-49) 4538647623875296
      (by rw [abs_of_pos (by norm_num : (0 : ℚ) < (141832738246103 / 17592186044416))]; norm_num)
      (by rw [abs_of_pos (by norm_num : (0 : ℚ) < (141832738246103 / 17592186044416))]; norm_num)
      (by norm_num) (by norm_num)).trans (by norm_num)
  have h2 : rnd ((5815142268090203 / 17592186044416) - (1418327382461025 / 4398046511104) : ℚ) = (141832738246103 / 17592186044416) :=
    (congrArg rnd (by norm_num : ((5815142268090203 / 17592186044416) - (1418327382461025 / 4398046511104) : ℚ) = (141832738246103 / 17592186044416))).trans h1
  have h3 : rnd (0 + |(141832738246103 / 17592186044416)| : ℚ) = (141832738246103 / 17592186044416) :=
    (congrArg rnd (by rw [abs_of_nonneg (by norm_num : (0 : ℚ) ≤ (141832738246103 / 17592186044416))]; norm_num : (0 + |(141832738246103 / 17592186044416)| : ℚ) = (141832738246103 / 17592186044416))).trans h1
  have h4 : rnd ((-70916369123051 / 8796093022208) : ℚ) = (-70916369123051 / 8796093022208) :=
    (rnd_of_near (-70916369123051 / 8796093022208) (-49) (-4538647623875264)
      (by rw [abs_of_neg (by norm_num : ((-70916369123051 / 8796093022208) : ℚ) < 0)]; norm_num)
      (by rw [abs_of_neg (by norm_num : ((-70916369123051 / 8796093022208) : ℚ) < 0)]; norm_num)
      (by norm_num) (by norm_num)).trans (by norm_num)
  have h5 : rnd ((2765738395798999 / 8796093022208) - (1418327382461025 / 4398046511104) : ℚ) = (-70916369123051 / 8796093022208) :=
    (congrArg rnd (by norm_num : ((2765738395798999 / 8796093022208) - (1418327382461025 / 4398046511104) : ℚ) = (-70916369123051 / 8796093022208))).trans h4
  have h6 : rnd ((283665476492205 / 17592186044416) : ℚ) = (283665476492205 / 17592186044416) :=
    (rnd_of_near (283665476492205 / 17592186044416) (-48) 4538647623875280
      (by rw [abs_of_pos (by norm_num : (0 : ℚ) < (283665476492205 / 17592186044416))]; norm_num)
      (by rw [abs_of_pos (by norm_num : (0 : ℚ) < (283665476492205 / 17592186044416))]; norm_num)
      (by norm_num) (by norm_num)).trans (by norm_num)
  have h7 : rnd ((141832738246103 / 17592186044416) + |(-70916369123051 / 8796093022208)| : ℚ) = (283665476492205 / 17592186044416) :=
    (congrArg rnd (by rw [abs_of_neg (by norm_num : ((-70916369123051 / 8796093022208) : ℚ) < 0)]; norm_num : ((141832738246103 / 17592186044416) + |(-70916369123051 / 8796093022208)| : ℚ) = (283665476492205 / 17592186044416))).trans h6
  have h8 : rnd ((106374553684577 / 4398046511104) : ℚ) = (106374553684577 / 4398046511104) :=
    (rnd_of_near (106374553684577 / 4398046511104) (-48) 6807971435812928
      (by rw [abs_of_pos (by norm_num : (0 : ℚ) < (106374553684577 / 4398046511104))]; norm_num)
      (by rw [abs_of_pos (by norm_num : (0 : ℚ) < (106374553684577 / 4398046511104))]; norm_num)
      (by norm_num) (by norm_num)).trans (by norm_num)
  have h9 : rnd ((283665476492205 / 17592186044416) + |(141832738246103 / 17592186044416)| : ℚ) = (106374553684577 / 4398046511104) :=
    (congrArg rnd (by rw [abs_of_nonneg (by norm_num : (0 : ℚ) ≤ (141832738246103 / 17592186044416))]; norm_num : ((283665476492205 / 17592186044416) + |(141832738246103 / 17592186044416)| : ℚ) = (106374553684577 / 4398046511104))).trans h8
  have h10 : rnd ((283665476492205 / 8796093022208) : ℚ) = (283665476492205 / 8796093022208) :=
    (rnd_of_near (283665476492205 / 8796093022208) (-47) 4538647623875280
      (by rw [abs_of_pos (by norm_num : (0 : ℚ) < (283665476492205 / 8796093022208))]; norm_num)
      (by rw [abs_of_pos (by norm_num : (0 : ℚ) < (283665476492205 / 8796093022208))]; norm_num)
      (by norm_num) (by norm_num)).trans (by norm_num)
  have h11 : rnd ((106374553684577 / 4398046511104) + |(-70916369123051 / 8796093022208)| : ℚ) = (283665476492205 / 8796093022208) :=
    (congrArg rnd (by rw [abs_of_neg (by norm_num : ((-70916369123051 / 8796093022208) : ℚ) < 0)]; norm_num : ((106374553684577 / 4398046511104) + |(-70916369123051 / 8796093022208)| : ℚ) = (283665476492205 / 8796093022208))).trans h10
  unfold sideDeviation
  simp only [avgSide_boxTall, h2, h3, h5, h7, h9, h11]

/-- The side variance the scorer computes for `boxTall`: the double 0.1. -/
theorem sideVariance_boxTall :
    sideVariance (Point.mk 312 0) (Point.mk 353 328) (Point.mk 41 367) (Point.mk 0 39) =
      Dbl.fin (3602879701896397 / 36028797018963968) := by
  have h1 : rnd ((1 / 10) : ℚ) = (3602879701896397 / 36028797018963968) :=
    (rnd_of_near (1 / 10) (-56) 7205759403792794
      (by rw [abs_of_pos (by norm_num : (0 : ℚ) < (1 / 10))]; norm_num)
      (by rw [abs_of_pos (by norm_num : (0 : ℚ) < (1 / 10))]; norm_num)
      (by norm_num) (by norm_num)).trans (by norm_num)
  have h2 : rnd ((283665476492205 / 8796093022208) / (1418327382461025 / 4398046511104) : ℚ) = (3602879701896397 / 36028797018963968) :=
    (congrArg rnd (by norm_num : ((283665476492205 / 8796093022208) / (1418327382461025 / 4398046511104) : ℚ) = (1 / 10))).trans h1
  rw [sideVariance_eq, sideValue_boxTall.1, sideValue_boxTall.2.1, sideValue_boxTall.2.2.1,
    sideValue_boxTall.2.2.2, avgSide_boxTall, sideDeviation_boxTall,
    dbl_div_fin _ _ (by norm_num), dbl_round_fin, h2]

theorem sideValue_boxRhombus :
    sideValue (Point.mk (-2000000000) (-1000000000)) (Point.mk 500000000 (-1000000000)) = 1794967296 ∧
    sideValue (Point.mk 500000000 (-1000000000)) (Point.mk 2000000000 1000000000) = 2500000000 ∧
    sideValue (Point.mk 2000000000 1000000000) (Point.mk (-500000000) 1000000000) = 1794967296 ∧
    sideValue (Point.mk (-500000000) 1000000000) (Point.mk (-2000000000) (-1000000000)) = 2500000000 := by
  have h1 : rnd (3221907593709551616 : ℚ) = 3221907593709551616 :=
    (rnd_of_near 3221907593709551616 9 6292788268963968
      (by rw [abs_of_pos (by norm_num : (0 : ℚ) < 3221907593709551616)]; norm_num)
      (by rw [abs_of_pos (by norm_num : (0 : ℚ) < 3221907593709551616)]; norm_num)
      (by norm_num) (by norm_num)).trans (by norm_num)
  have h2 : rnd (0 : ℚ) = 0 :=
    rnd_zero
  have h3 : rnd (3221907593709551616 + 0 : ℚ) = 3221907593709551616 :=
    (congrArg rnd (by norm_num : (3221907593709551616 + 0 : ℚ) = 3221907593709551616)).trans h1
  have h4 : sqrt64 (3221907593709551616 : ℚ) = 1794967296 :=
    (sqrt64_of_near 3221907593709551616 (-22) 15057277018963967 7528638509481984 (by norm_num) (by norm_num) (by norm_num)
      (by norm_num) (by norm_num)).trans (by norm_num)
  have h5 : rnd (2250000000000000000 : ℚ) = 2250000000000000000 :=
    (rnd_of_near 2250000000000000000 8 8789062500000000
      (by rw [abs_of_pos (by norm_num : (0 : ℚ) < 2250000000000000000)]; norm_num)
      (by rw [abs_of_pos (by norm_num : (0 : ℚ) < 2250000000000000000)]; norm_num)
      (by norm_num) (by norm_num)).trans (by norm_num)
  have h6 : rnd (4000000000000000000 : ℚ) = 4000000000000000000 :=
    (rnd_of_near 4000000000000000000 9 7812500000000000
      (by rw [abs_of_pos (by norm_num : (0 : ℚ) < 4000000000000000000)]; norm_num)
      (by rw [abs_of_pos (by norm_num : (0 : ℚ) < 4000000000000000000)]; norm_num)
      (by norm_num) (by norm_num)).trans (by norm_num)
  have h7 : rnd (6250000000000000000 : ℚ) = 6250000000000000000 :=
    (rnd_of_near 6250000000000000000 10 6103515625000000
      (by rw [abs_of_pos (by norm_num : (0 : ℚ) < 6250000000000000000)]; norm_num)
      (by rw [abs_of_pos (by norm_num : (0 : ℚ) < 6250000000000000000)]; norm_num)
      (by norm_num) (by norm_num)).trans (by norm_num)
  have h8 : rnd (2250000000000000000 + 4000000000000000000 : ℚ) = 6250000000000000000 :=
    (congrArg rnd (by norm_num : (2250000000000000000 + 4000000000000000000 : ℚ) = 6250000000000000000)).trans h7
  have h9 : sqrt64 (6250000000000000000 : ℚ) = 2500000000 :=
    (sqrt64_of_near 6250000000000000000 (-21) 10485759999999999 5242880000000000 (by norm_num) (by norm_num) (by norm_num)
      (by norm_num) (by norm_num)).trans (by norm_num)
  exact ⟨sideValue_of_diff _ _ 1794967296 0 (by decide) (by decide) 3221907593709551616 0 3221907593709551616
      1794967296 (by norm_num [h1]) (by norm_num [h2]) h3 h4,
    sideValue_of_diff _ _ (-1500000000) (-2000000000) (by decide) (by decide) 2250000000000000000 4000000000000000000 6250000000000000000
      2500000000 (by norm_num [h5]) (by norm_num [h6]) h8 h9,
    sideValue_of_diff _ _ (-1794967296) 0 (by decide) (by decide) 3221907593709551616 0 3221907593709551616
      1794967296 (by norm_num [h1]) (by norm_num [h2]) h3 h4,
    sideValue_of_diff _ _ 1500000000 2000000000 (by decide) (by decide) 2250000000000000000 4000000000000000000 6250000000000000000
      2500000000 (by norm_num [h5]) (by norm_num [h6]) h8 h9⟩

theorem avgSide_boxRhombus :
    avgSide 1794967296 2500000000 1794967296 2500000000 =
      2147483648 := by
  have h1 : rnd (4294967296 : ℚ) = 4294967296 :=
    (rnd_of_near 4294967296 (-20) 4503599627370496
      (by rw [abs_of_pos (by norm_num : (0 : ℚ) < 4294967296)]; norm_num)
      (by rw [abs_of_pos (by norm_num : (0 : ℚ) < 4294967296)]; norm_num)
      (by norm_num) (by norm_num)).trans (by norm_num)
  have h2 : rnd (1794967296 + 2500000000 : ℚ) = 4294967296 :=
    (congrArg rnd (by norm_num : (1794967296 + 2500000000 : ℚ) = 4294967296)).trans h1
  have h3 : rnd (6089934592 : ℚ) = 6089934592 :=
    (rnd_of_near 6089934592 (-20) 6385759254740992
      (by rw [abs_of_pos (by norm_num : (0 : ℚ) < 6089934592)]; norm_num)
      (by rw [abs_of_pos (by norm_num : (0 : ℚ) < 6089934592)]; norm_num)
      (by norm_num) (by norm_num)).trans (by norm_num)
  have h4 : rnd (4294967296 + 1794967296 : ℚ) = 6089934592 :=
    (congrArg rnd (by norm_num : (4294967296 + 1794967296 : ℚ) = 6089934592)).trans h3
  have h5 : rnd (8589934592 : ℚ) = 8589934592 :=
    (rnd_of_near 8589934592 (-19) 4503599627370496
      (by rw [abs_of_pos (by norm_num : (0 : ℚ) < 8589934592)]; norm_num)
      (by rw [abs_of_pos (by norm_num : (0 : ℚ) < 8589934592)]; norm_num)
      (by norm_num) (by norm_num)).trans (by norm_num)
  have h6 : rnd (6089934592 + 2500000000 : ℚ) = 8589934592 :=
    (congrArg rnd (by norm_num : (6089934592 + 2500000000 : ℚ) = 8589934592)).trans h5
  have h7 : rnd (2147483648 : ℚ) = 2147483648 :=
    (rnd_of_near 2147483648 (-21) 4503599627370496
      (by rw [abs_of_pos (by norm_num : (0 : ℚ) < 2147483648)]; norm_num)
      (by rw [abs_of_pos (by norm_num : (0 : ℚ) < 2147483648)]; norm_num)
      (by norm_num) (by norm_num)).trans (by norm_num)
  have h8 : rnd (8589934592 / 4 : ℚ) = 2147483648 :=
    (congrArg rnd (by norm_num : (8589934592 / 4 : ℚ) = 2147483648)).trans h7
  unfold avgSide
  rw [h2, h4, h6, h8]

theorem sideDeviation_boxRhombus :
    sideDeviation 1794967296 2500000000 1794967296 2500000000 =
      1410065408 := by
  have h1 : rnd ((-352516352) : ℚ) = (-352516352) :=
    (rnd_of_near (-352516352) (-24) (-5914242981036032)
      (by rw [abs_of_neg (by norm_num : ((-352516352) : ℚ) < 0)]; norm_num)
      (by rw [abs_of_neg (by norm_num : ((-352516352) : ℚ) < 0)]; norm_num)
      (by norm_num) (by norm_num)).trans (by norm_num)
  have h2 : rnd (1794967296 - 2147483648 : ℚ) = (-352516352) :=
    (congrArg rnd (by norm_num : (1794967296 - 2147483648 : ℚ) = (-352516352))).trans h1
  have h3 : rnd (352516352 : ℚ) = 352516352 :=
    (rnd_of_near 352516352 (-24) 5914242981036032
      (by rw [abs_of_pos (by norm_num : (0 : ℚ) < 352516352)]; norm_num)
      (by rw [abs_of_pos (by norm_num : (0 : ℚ) < 352516352)]; norm_num)
      (by norm_num) (by norm_num)).trans (by norm_num)
  have h4 : rnd (0 + |(-352516352)| : ℚ) = 352516352 :=
    (congrArg rnd (by rw [abs_of_neg (by norm_num : ((-352516352) : ℚ) < 0)]; norm_num : (0 + |(-352516352)| : ℚ) = 352516352)).trans h3
  have h5 : rnd (2500000000 - 2147483648 : ℚ) = 352516352 :=
    (congrArg rnd (by norm_num : (2500000000 - 2147483648 : ℚ) = 352516352)).trans h3
  have h6 : rnd (705032704 : ℚ) = 705032704 :=
    (rnd_of_near 705032704 (-23) 5914242981036032
      (by rw [abs_of_pos (by norm_num : (0 : ℚ) < 705032704)]; norm_num)
      (by rw [abs_of_pos (by norm_num : (0 : ℚ) < 705032704)]; norm_num)
      (by norm_num) (by norm_num)).trans (by norm_num)
  have h7 : rnd (352516352 + |352516352| : ℚ) = 705032704 :=
    (congrArg rnd (by rw [abs_of_nonneg (by norm_num : (0 : ℚ) ≤ 352516352)]; norm_num : (352516352 + |352516352| : ℚ) = 705032704)).trans h6
  have h8 : rnd (1057549056 : ℚ) = 1057549056 :=
    (rnd_of_near 1057549056 (-23) 8871364471554048
      (by rw [abs_of_pos (by norm_num : (0 : ℚ) < 1057549056)]; norm_num)
      (by rw [abs_of_pos (by norm_num : (0 : ℚ) < 1057549056)]; norm_num)
      (by norm_num) (by norm_num)).trans (by norm_num)
  have h9 : rnd (705032704 + |(-352516352)| : ℚ) = 1057549056 :=
    (congrArg rnd (by rw [abs_of_neg (by norm_num : ((-352516352) : ℚ) < 0)]; norm_num : (705032704 + |(-352516352)| : ℚ) = 1057549056)).trans h8
  have h10 : rnd (1410065408 : ℚ) = 1410065408 :=
    (rnd_of_near 1410065408 (-22) 5914242981036032
      (by rw [abs_of_pos (by norm_num : (0 : ℚ) < 1410065408)]; norm_num)
      (by rw [abs_of_pos (by norm_num : (0 : ℚ) < 1410065408)]; norm_num)
      (by norm_num) (by norm_num)).trans (by norm_num)
  have h11 : rnd (1057549056 + |352516352| : ℚ) = 1410065408 :=
    (congrArg rnd (by rw [abs_of_nonneg (by norm_num : (0 : ℚ) ≤ 352516352)]; norm_num : (1057549056 + |352516352| : ℚ) = 1410065408)).trans h10
  unfold sideDeviation
  simp only [avgSide_boxRhombus, h2, h4, h5, h7, h9, h11]

/-- The side variance the scorer computes for `boxRhombus`. -/
theorem sideVariance_boxRhombus :
    sideVariance (Point.mk (-2000000000) (-1000000000)) (Point.mk 500000000 (-1000000000)) (Point.mk 2000000000 1000000000) (Point.mk (-500000000) 1000000000) =
      Dbl.fin (1377017 / 2097152) := by
  have h1 : rnd ((1377017 / 2097152) : ℚ) = (1377017 / 2097152) :=
    (rnd_of_near (1377017 / 2097152) (-53) 5914242981036032
      (by rw [abs_of_pos (by norm_num : (0 : ℚ) < (1377017 / 2097152))]; norm_num)
      (by rw [abs_of_pos (by norm_num : (0 : ℚ) < (1377017 / 2097152))]; norm_num)
      (by norm_num) (by norm_num)).trans (by norm_num)
  have h2 : rnd (1410065408 / 2147483648 : ℚ) = (1377017 / 2097152) :=
    (congrArg rnd (by norm_num : (1410065408 / 2147483648 : ℚ) = (1377017 / 2097152))).trans h1
  rw [sideVariance_eq, sideValue_boxRhombus.1, sideValue_boxRhombus.2.1, sideValue_boxRhombus.2.2.1,
    sideValue_boxRhombus.2.2.2, avgSide_boxRhombus, sideDeviation_boxRhombus,
    dbl_div_fin _ _ (by norm_num), dbl_round_fin, h2]

theorem sqDist_boxTilted :
    sqDist (Point.mk 117 0) (Point.mk 158 123) = 41 ^ 2 * 10 ∧
    sqDist (Point.mk 158 123) (Point.mk 41 162) = 39 ^ 2 * 10 ∧
    sqDist (Point.mk 41 162) (Point.mk 0 39) = 41 ^ 2 * 10 ∧
    sqDist (Point.mk 0 39) (Point.mk 117 0) = 39 ^ 2 * 10 := by
  refine ⟨?_, ?_, ?_, ?_⟩ <;> norm_num [sqDist]

theorem sqrt_sq_mul (a : ℝ) (ha : 0 ≤ a) (b : ℝ) :
    Real.sqrt (a ^ 2 * b) = a * Real.sqrt b := by
  rw [Real.sqrt_mul (by positivity), Real.sqrt_sq ha]

theorem variance_of_41_39 (x : ℝ) (hx : 0 < x) :
    (|41 * x - (41 * x + 39 * x + 41 * x + 39 * x) / 4| +
        |39 * x - (41 * x + 39 * x + 41 * x + 39 * x) / 4| +
        |41 * x - (41 * x + 39 * x + 41 * x + 39 * x) / 4| +
        |39 * x - (41 * x + 39 * x + 41 * x + 39 * x) / 4|) /
      ((41 * x + 39 * x + 41 * x + 39 * x) / 4) = 1 / 10 := by
  have h1 : 41 * x - (41 * x + 39 * x + 41 * x + 39 * x) / 4 = x := by ring
  have h2 : 39 * x - (41 * x + 39 * x + 41 * x + 39 * x) / 4 = -x := by ring
  rw [h1, h2, abs_neg, abs_of_pos hx]
  field_simp
  ring

/-- C15, as stated, fails: the consecutive corners of `boxTilted` are
`41 * sqrt 10`, `39 * sqrt 10`, `41 * sqrt 10` and `39 * sqrt 10` apart, so the
variance of the claim is exactly 1/10 and the claim gives the term 0.15. The
scorer computes the sides, their average and the variance in doubles, arrives at
`7205759403792791 / 2^56`, a double below 0.1, and adds 0.3. Beyond the range of
an `int` the sides themselves differ: `boxRhombus` has four sides of length
2 500 000 000, the claim gives 0.3, but the difference of its first two corners
wraps, the scorer sees the side 1 794 967 296 and adds 0. -/
theorem regularityTerm_tilted :
    (boxTilted = [Point.mk 117 0, Point.mk 158 123, Point.mk 41 162, Point.mk 0 39] ∧
      Real.sqrt (sqDist (Point.mk 117 0) (Point.mk 158 123)) = 41 * Real.sqrt 10 ∧
      Real.sqrt (sqDist (Point.mk 158 123) (Point.mk 41 162)) = 39 * Real.sqrt 10 ∧
      Real.sqrt (sqDist (Point.mk 41 162) (Point.mk 0 39)) = 41 * Real.sqrt 10 ∧
      Real.sqrt (sqDist (Point.mk 0 39) (Point.mk 117 0)) = 39 * Real.sqrt 10 ∧
      (|41 * Real.sqrt 10 -
            (41 * Real.sqrt 10 + 39 * Real.sqrt 10 + 41 * Real.sqrt 10 + 39 * Real.sqrt 10) /
              4| +
          |39 * Real.sqrt 10 -
            (41 * Real.sqrt 10 + 39 * Real.sqrt 10 + 41 * Real.sqrt 10 + 39 * Real.sqrt 10) /
              4| +
          |41 * Real.sqrt 10 -
            (41 * Real.sqrt 10 + 39 * Real.sqrt 10 + 41 * Real.sqrt 10 + 39 * Real.sqrt 10) /
              4| +
          |39 * Real.sqrt 10 -
            (41 * Real.sqrt 10 + 39 * Real.sqrt 10 + 41 * Real.sqrt 10 + 39 * Real.sqrt 10) /
              4|) /
        ((41 * Real.sqrt 10 + 39 * Real.sqrt 10 + 41 * Real.sqrt 10 + 39 * Real.sqrt 10) / 4) =
        1 / 10 ∧
      sideVariance (Point.mk 117 0) (Point.mk 158 123) (Point.mk 41 162) (Point.mk 0 39) =
        Dbl.fin (7205759403792791 / 72057594037927936) ∧
      regularityTerm
        (sideVariance (Point.mk 117 0) (Point.mk 158 123) (Point.mk 41 162) (Point.mk 0 39)) =
        Dbl.fin (3 / 10) ∧
      Dbl.fin (3 / 10) ≠ Dbl.fin (15 / 100)) ∧
    (boxRhombus =
        [Point.mk (-2000000000) (-1000000000), Point.mk 500000000 (-1000000000),
          Point.mk 2000000000 1000000000, Point.mk (-500000000) 1000000000] ∧
      sqDist (Point.mk (-2000000000) (-1000000000)) (Point.mk 500000000 (-1000000000)) =
        2500000000 ^ 2 ∧
      sqDist (Point.mk 500000000 (-1000000000)) (Point.mk 2000000000 1000000000) =
        2500000000 ^ 2 ∧
      sqDist (Point.mk 2000000000 1000000000) (Point.mk (-500000000) 1000000000) =
        2500000000 ^ 2 ∧
      sqDist (Point.mk (-500000000) 1000000000) (Point.mk (-2000000000) (-1000000000)) =
        2500000000 ^ 2 ∧
      fitsInt (Point.mk (-2000000000) (-1000000000)) (Point.mk 500000000 (-1000000000)) =
        false ∧
      sideValue (Point.mk (-2000000000) (-1000000000)) (Point.mk 500000000 (-1000000000)) =
        1794967296 ∧
      regularityTerm
        (sideVariance (Point.mk (-2000000000) (-1000000000))
          (Point.mk 500000000 (-1000000000)) (Point.mk 2000000000 1000000000)
          (Point.mk (-500000000) 1000000000)) = Dbl.fin 0) := by
  refine ⟨⟨rfl, ?_, ?_, ?_, ?_, variance_of_41_39 _ (Real.sqrt_pos.2 (by norm_num)),
    sideVariance_boxTilted, ?_, fun h => absurd (Dbl.fin.inj h) (by norm_num)⟩,
    ⟨rfl, by norm_num [sqDist], by norm_num [sqDist], by norm_num [sqDist],
      by norm_num [sqDist], by decide, sideValue_boxRhombus.1, ?_⟩⟩
  · rw [sqDist_boxTilted.1]
    push_cast
    exact sqrt_sq_mul 41 (by norm_num) 10
  · rw [sqDist_boxTilted.2.1]
    push_cast
    exact sqrt_sq_mul 39 (by norm_num) 10
  · rw [sqDist_boxTilted.2.2.1]
    push_cast
    exact sqrt_sq_mul 41 (by norm_num) 10
  · rw [sqDist_boxTilted.2.2.2]
    push_cast
    exact sqrt_sq_mul 39 (by norm_num) 10
  · rw [sideVariance_boxTilted, regularityTerm_of_fin, if_pos (by norm_num)]
  · rw [sideVariance_boxRhombus, regularityTerm_of_fin, if_neg (by norm_num),
      if_neg (by norm_num)]

/-- C15, amended: for every box with corners `p0..p3`, let `s_i` be the double
that `cv::norm` computes for the `int` difference of `p_i` and
`p_((i+1) mod 4)`, `avg` the double the code computes for `(s0+s1+s2+s3)/4` and
`variance` the double it computes for `(sum of |s_i - avg|) / avg`, every
operation rounded to the nearest double. Each `s_i` is the value of
`sideLength`, and its square is within a relative error of `2^-50`, squared, of
the squared length of that difference, which is the squared Euclidean distance
of the two corners when their coordinate differences fit an `int`. When `avg` is
not zero the regularity term is 0.3 for `variance < 0.1`, 0.15 for
`0.1 <= variance < 0.2` and 0 otherwise; when `avg` is zero the term is 0. Every
box whose four `int` differences have the same non-zero squared length receives
0.3; when the coordinate differences fit an `int` these are the quadrilaterals
with four equal non-zero sides. The constants 0.1 and 0.2 of the code are
doubles: a double is below them exactly when it is below 1/10 and 2/10. -/
theorem regularityTerm_spec (p0 p1 p2 p3 : Point) :
    (sideLength p0 p1 = Dbl.fin (sideValue p0 p1) ∧
      sideLength p1 p2 = Dbl.fin (sideValue p1 p2) ∧
      sideLength p2 p3 = Dbl.fin (sideValue p2 p3) ∧
      sideLength p3 p0 = Dbl.fin (sideValue p3 p0)) ∧
    (∀ p q : Point, 0 < sqLength p q →
      (1 - 1 / 2 ^ 50) ^ 2 * (sqLength p q : ℚ) ≤ sideValue p q ^ 2 ∧
      sideValue p q ^ 2 ≤ (1 + 1 / 2 ^ 50) ^ 2 * (sqLength p q : ℚ)) ∧
    (∀ p q : Point, fitsInt p q = true → (sqLength p q : ℚ) = sqDist p q) ∧
    (avgSide (sideValue p0 p1) (sideValue p1 p2) (sideValue p2 p3) (sideValue p3 p0) ≠ 0 →
      sideVariance p0 p1 p2 p3 =
        Dbl.fin
          (rnd (sideDeviation (sideValue p0 p1) (sideValue p1 p2) (sideValue p2 p3)
              (sideValue p3 p0) /
            avgSide (sideValue p0 p1) (sideValue p1 p2) (sideValue p2 p3)
              (sideValue p3 p0))) ∧
      regularityTerm (sideVariance p0 p1 p2 p3) =
        (if rnd (sideDeviation (sideValue p0 p1) (sideValue p1 p2) (sideValue p2 p3)
              (sideValue p3 p0) /
            avgSide (sideValue p0 p1) (sideValue p1 p2) (sideValue p2 p3)
              (sideValue p3 p0)) < 1 / 10 then Dbl.fin (3 / 10)
         else if rnd (sideDeviation (sideValue p0 p1) (sideValue p1 p2) (sideValue p2 p3)
              (sideValue p3 p0) /
            avgSide (sideValue p0 p1) (sideValue p1 p2) (sideValue p2 p3)
              (sideValue p3 p0)) < 2 / 10 then Dbl.fin (15 / 100)
         else Dbl.fin 0)) ∧
    (avgSide (sideValue p0 p1) (sideValue p1 p2) (sideValue p2 p3) (sideValue p3 p0) = 0 →
      regularityTerm (sideVariance p0 p1 p2 p3) = Dbl.fin 0) ∧
    (0 < sqLength p0 p1 → sqLength p1 p2 = sqLength p0 p1 →
      sqLength p2 p3 = sqLength p0 p1 → sqLength p3 p0 = sqLength p0 p1 →
      regularityTerm (sideVariance p0 p1 p2 p3) = Dbl.fin (3 / 10)) ∧
    (fitsInt p0 p1 = true → fitsInt p1 p2 = true → fitsInt p2 p3 = true →
      fitsInt p3 p0 = true → 0 < sqDist p0 p1 → sqDist p1 p2 = sqDist p0 p1 →
      sqDist p2 p3 = sqDist p0 p1 → sqDist p3 p0 = sqDist p0 p1 →
      regularityTerm (sideVariance p0 p1 p2 p3) = Dbl.fin (3 / 10)) ∧
    (∀ x : ℚ, rnd x < rnd (1 / 10) ↔ rnd x < 1 / 10) ∧
    (∀ x : ℚ, rnd x < rnd (2 / 10) ↔ rnd x < 2 / 10) := by
  refine ⟨⟨rfl, rfl, rfl, rfl⟩, fun p q h => (sideValue_sq_bounds p q h).2,
    sqLength_of_fitsInt, ?_, ?_, regularityTerm_of_equal_sqLength p0 p1 p2 p3, ?_,
    rnd_lt_tenth_iff, rnd_lt_fifth_iff⟩
  · intro havg
    rw [sideVariance_eq, dbl_div_fin _ _ havg, dbl_round_fin]
    exact ⟨rfl, regularityTerm_of_fin _⟩
  · intro havg
    rw [sideVariance_eq, havg]
    exact regularityTerm_div_zero _ (sideDeviation_nonneg _ _ _ _)
  · intro f0 f1 f2 f3 hpos e1 e2 e3
    rw [← sqLength_of_fitsInt p0 p1 f0] at hpos e1 e2 e3
    rw [← sqLength_of_fitsInt p1 p2 f1] at e1
    rw [← sqLength_of_fitsInt p2 p3 f2] at e2
    rw [← sqLength_of_fitsInt p3 p0 f3] at e3
    exact regularityTerm_of_equal_sqLength p0 p1 p2 p3 (by exact_mod_cast hpos)
      (by exact_mod_cast e1) (by exact_mod_cast e2) (by exact_mod_cast e3)

/-- Witness for C15 (amended): the rhombus (0,0), (5,0), (8,4), (3,4) has four
sides of squared length 25 and receives 0.3; the tilted rectangle `boxTall`,
whose average side is not zero, has the computed variance
`3602879701896397 / 2^55`, the double 0.1, and receives 0.15. -/
theorem regularityTerm_spec_witness :
    (0 < sqLength (Point.mk 0 0) (Point.mk 5 0) ∧
      sqLength (Point.mk 5 0) (Point.mk 8 4) = sqLength (Point.mk 0 0) (Point.mk 5 0) ∧
      sqLength (Point.mk 8 4) (Point.mk 3 4) = sqLength (Point.mk 0 0) (Point.mk 5 0) ∧
      sqLength (Point.mk 3 4) (Point.mk 0 0) = sqLength (Point.mk 0 0) (Point.mk 5 0) ∧
      regularityTerm
        (sideVariance (Point.mk 0 0) (Point.mk 5 0) (Point.mk 8 4) (Point.mk 3 4)) =
        Dbl.fin (3 / 10)) ∧
    (boxTall = [Point.mk 312 0, Point.mk 353 328, Point.mk 41 367, Point.mk 0 39] ∧
      avgSide (sideValue (Point.mk 312 0) (Point.mk 353 328))
        (sideValue (Point.mk 353 328) (Point.mk 41 367))
        (sideValue (Point.mk 41 367) (Point.mk 0 39))
        (sideValue (Point.mk 0 39) (Point.mk 312 0)) ≠ 0 ∧
      sideVariance (Point.mk 312 0) (Point.mk 353 328) (Point.mk 41 367) (Point.mk 0 39) =
        Dbl.fin (3602879701896397 / 36028797018963968) ∧
      regularityTerm
        (sideVariance (Point.mk 312 0) (Point.mk 353 328) (Point.mk 41 367)
          (Point.mk 0 39)) = Dbl.fin (15 / 100)) := by
  have havg : avgSide (sideValue (Point.mk 312 0) (Point.mk 353 328))
      (sideValue (Point.mk 353 328) (Point.mk 41 367))
      (sideValue (Point.mk 41 367) (Point.mk 0 39))
      (sideValue (Point.mk 0 39) (Point.mk 312 0)) ≠ 0 := by
    rw [sideValue_boxTall.1, sideValue_boxTall.2.1, sideValue_boxTall.2.2.1,
      sideValue_boxTall.2.2.2, avgSide_boxTall]
    norm_num
  have hband := (regularityTerm_spec (Point.mk 312 0) (Point.mk 353 328) (Point.mk 41 367)
    (Point.mk 0 39)).2.2.2.1 havg
  refine ⟨⟨by decide, by decide, by decide, by decide,
    (regularityTerm_spec (Point.mk 0 0) (Point.mk 5 0) (Point.mk 8 4)
      (Point.mk 3 4)).2.2.2.2.2.1 (by decide) (by decide) (by decide) (by decide)⟩,
    rfl, havg, sideVariance_boxTall, ?_⟩
  rw [hband.2, Dbl.fin.inj (hband.1.symm.trans sideVariance_boxTall)]
  norm_num

/-! ## The confidence as a whole -/

theorem sideValue_boxQuarter :
    sideValue (Point.mk 0 0) (Point.mk 25000 0) = 25000 ∧
    sideValue (Point.mk 25000 0) (Point.mk 25000 25000) = 25000 ∧
    sideValue (Point.mk 25000 25000) (Point.mk 0 25000) = 25000 ∧
    sideValue (Point.mk 0 25000) (Point.mk 0 0) = 25000 := by
  have h1 : rnd (625000000 : ℚ) = 625000000 :=
    (rnd_of_near 625000000 (-23) 5242880000000000
      (by rw [abs_of_pos (by norm_num : (0 : ℚ) < 625000000)]; norm_num)
      (by rw [abs_of_pos (by norm_num : (0 : ℚ) < 625000000)]; norm_num)
      (by norm_num) (by norm_num)).trans (by norm_num)
  have h2 : rnd (0 : ℚ) = 0 :=
    rnd_zero
  have h3 : rnd (625000000 + 0 : ℚ) = 625000000 :=
    (congrArg rnd (by norm_num : (625000000 + 0 : ℚ) = 625000000)).trans h1
  have h4 : sqrt64 (625000000 : ℚ) = 25000 :=
    (sqrt64_of_near 625000000 (-38) 13743895347199999 6871947673600000 (by norm_num) (by norm_num) (by norm_num)
      (by norm_num) (by norm_num)).trans (by norm_num)
  have h5 : rnd (0 + 625000000 : ℚ) = 625000000 :=
    (congrArg rnd (by norm_num : (0 + 625000000 : ℚ) = 625000000)).trans h1
  exact ⟨sideValue_of_diff _ _ (-25000) 0 (by decide) (by decide) 625000000 0 625000000
      25000 (by norm_num [h1]) (by norm_num [h2]) h3 h4,
    sideValue_of_diff _ _ 0 (-25000) (by decide) (by decide) 0 625000000 625000000
      25000 (by norm_num [h2]) (by norm_num [h1]) h5 h4,
    sideValue_of_diff _ _ 25000 0 (by decide) (by decide) 625000000 0 625000000
      25000 (by norm_num [h1]) (by norm_num [h2]) h3 h4,
    sideValue_of_diff _ _ 0 25000 (by decide) (by decide) 0 625000000 625000000
      25000 (by norm_num [h2]) (by norm_num [h1]) h5 h4⟩

theorem avgSide_boxQuarter :
    avgSide 25000 25000 25000 25000 =
      25000 := by
  have h1 : rnd (50000 : ℚ) = 50000 :=
    (rnd_of_near 50000 (-37) 6871947673600000
      (by rw [abs_of_pos (by norm_num : (0 : ℚ) < 50000)]; norm_num)
      (by rw [abs_of_pos (by norm_num : (0 : ℚ) < 50000)]; norm_num)
      (by norm_num) (by norm_num)).trans (by norm_num)
  have h2 : rnd (25000 + 25000 : ℚ) = 50000 :=
    (congrArg rnd (by norm_num : (25000 + 25000 : ℚ) = 50000)).trans h1
  have h3 : rnd (75000 : ℚ) = 75000 :=
    (rnd_of_near 75000 (-36) 5153960755200000
      (by rw [abs_of_pos (by norm_num : (0 : ℚ) < 75000)]; norm_num)
      (by rw [abs_of_pos (by norm_num : (0 : ℚ) < 75000)]; norm_num)
      (by norm_num) (by norm_num)).trans (by norm_num)
  have h4 : rnd (50000 + 25000 : ℚ) = 75000 :=
    (congrArg rnd (by norm_num : (50000 + 25000 : ℚ) = 75000)).trans h3
  have h5 : rnd (100000 : ℚ) = 100000 :=
    (rnd_of_near 100000 (-36) 6871947673600000
      (by rw [abs_of_pos (by norm_num : (0 : ℚ) < 100000)]; norm_num)
      (by rw [abs_of_pos (by norm_num : (0 : ℚ) < 100000)]; norm_num)
      (by norm_num) (by norm_num)).trans (by norm_num)
  have h6 : rnd (75000 + 25000 : ℚ) = 100000 :=
    (congrArg rnd (by norm_num : (75000 + 25000 : ℚ) = 100000)).trans h5
  have h7 : rnd (25000 : ℚ) = 25000 :=
    (rnd_of_near 25000 (-38) 6871947673600000
      (by rw [abs_of_pos (by norm_num : (0 : ℚ) < 25000)]; norm_num)
      (by rw [abs_of_pos (by norm_num : (0 : ℚ) < 25000)]; norm_num)
      (by norm_num) (by norm_num)).trans (by norm_num)
  have h8 : rnd (100000 / 4 : ℚ) = 25000 :=
    (congrArg rnd (by norm_num : (100000 / 4 : ℚ) = 25000)).trans h7
  unfold avgSide
  rw [h2, h4, h6, h8]

theorem sideDeviation_boxQuarter :
    sideDeviation 25000 25000 25000 25000 =
      0 := by
  have h1 : rnd (0 : ℚ) = 0 :=
    rnd_zero
  have h2 : rnd (25000 - 25000 : ℚ) = 0 :=
    (congrArg rnd (by norm_num : (25000 - 25000 : ℚ) = 0)).trans h1
  have h3 : rnd (0 + |0| : ℚ) = 0 :=
    (congrArg rnd (by rw [abs_of_nonneg (by norm_num : (0 : ℚ) ≤ 0)]; norm_num : (0 + |0| : ℚ) = 0)).trans h1
  unfold sideDeviation
  simp only [avgSide_boxQuarter, h2, h3]

/-- The side variance the scorer computes for `boxQuarter`. -/
theorem sideVariance_boxQuarter :
    sideVariance (Point.mk 0 0) (Point.mk 25000 0) (Point.mk 25000 25000) (Point.mk 0 25000) =
      Dbl.fin 0 := by
  have h1 : rnd (0 : ℚ) = 0 :=
    rnd_zero
  have h2 : rnd (0 / 25000 : ℚ) = 0 :=
    (congrArg rnd (by norm_num : (0 / 25000 : ℚ) = 0)).trans h1
  rw [sideVariance_eq, sideValue_boxQuarter.1, sideValue_boxQuarter.2.1, sideValue_boxQuarter.2.2.1,
    sideValue_boxQuarter.2.2.2, avgSide_boxQuarter, sideDeviation_boxQuarter,
    dbl_div_fin _ _ (by norm_num), dbl_round_fin, h2]

theorem shoelaceArea_boxQuarter : shoelaceArea boxQuarter = 625000000 := by
  have h : shoelaceTwice boxQuarter = 1250000000 := by decide
  unfold shoelaceArea
  rw [h]
  norm_num

theorem calculateQualityScore_imgHuge :
    calculateQualityScore envGeom imgHuge = Dbl.fin (625 / 4) := by
  have h : imgHuge.empty = false := by decide
  simp only [calculateQualityScore, h]
  norm_num [envGeom, imgHuge]

/-- C16 at a 50000 x 50000 image: the square `boxQuarter` covers exactly a
quarter of the frame, a ratio inside `(0.1, 0.8)`, the quality score is 156.25
and the four sides are equal, so the variance is 0; the claim gives the
confidence 1.0. The `int` product `image.cols * image.rows` has wrapped to
-1794967296, the computed ratio is negative, the area term is 0 and the
confidence is 0.6. -/
theorem calculateConfidence_overflow :
    imgHuge.empty = false ∧ boxQuarter.length = 4 ∧
    envGeom.contourArea boxQuarter / ((imgHuge.cols : ℚ) * (imgHuge.rows : ℚ)) = 1 / 4 ∧
    calculateQualityScore envGeom imgHuge = Dbl.fin (625 / 4) ∧
    sideVariance (Point.mk 0 0) (Point.mk 25000 0) (Point.mk 25000 25000)
      (Point.mk 0 25000) = Dbl.fin 0 ∧
    wrapInt32 ((imgHuge.cols : Int) * (imgHuge.rows : Int)) = -1794967296 ∧
    sizeRatio envGeom boxQuarter imgHuge = Dbl.fin (625000000 / (-1794967296)) ∧
    areaTerm envGeom boxQuarter imgHuge = Dbl.fin 0 ∧
    qualityTerm envGeom imgHuge = Dbl.fin (3 / 10) ∧
    regularityTerm
      (sideVariance (Point.mk 0 0) (Point.mk 25000 0) (Point.mk 25000 25000)
        (Point.mk 0 25000)) = Dbl.fin (3 / 10) ∧
    calculateConfidence envGeom boxQuarter imgHuge = Dbl.fin (3 / 5) := by
  have hw : wrapInt32 ((imgHuge.cols : Int) * (imgHuge.rows : Int)) = -1794967296 := by
    decide
  have ha : envGeom.contourArea boxQuarter = 625000000 := shoelaceArea_boxQuarter
  have hs : sizeRatio envGeom boxQuarter imgHuge = Dbl.fin (625000000 / (-1794967296)) := by
    unfold sizeRatio
    rw [hw, ha]
    norm_num [Dbl.ofInt, Dbl.div]
  have hA : areaTerm envGeom boxQuarter imgHuge = Dbl.fin 0 := by
    rw [areaTerm_of_ratio envGeom boxQuarter imgHuge _ hs]
    norm_num
  have hQ : qualityTerm envGeom imgHuge = Dbl.fin (3 / 10) := by
    rw [qualityTerm_of_score envGeom imgHuge _ calculateQualityScore_imgHuge]
    norm_num
  have hR : regularityTerm
      (sideVariance (Point.mk 0 0) (Point.mk 25000 0) (Point.mk 25000 25000)
        (Point.mk 0 25000)) = Dbl.fin (3 / 10) := by
    rw [sideVariance_boxQuarter, regularityTerm_of_fin, if_pos (by norm_num)]
  refine ⟨by decide, by decide, ?_, calculateQualityScore_imgHuge, sideVariance_boxQuarter,
    hw, hs, hA, hQ, hR, ?_⟩
  · rw [ha]
    norm_num [imgHuge]
  · have h := calculateConfidence_four envGeom (Point.mk 0 0) (Point.mk 25000 0)
      (Point.mk 25000 25000) (Point.mk 0 25000) imgHuge 0 (3 / 10) (3 / 10) hA hQ hR
    rw [show boxQuarter = [Point.mk 0 0, Point.mk 25000 0, Point.mk 25000 25000,
      Point.mk 0 25000] from rfl, h]
    norm_num

end QR
